import Mathlib

/-!
# skill-sync-backend: the daily banner pipeline and the analysis-job tracker

A shallow embedding of `src/routes/banners.js`, `src/routes/users.js` and the
Mongoose schemas `src/models/Banner.js`, `src/models/Recommendation.js`.

Conventions of the embedding.

* A JavaScript string is the list of its UTF-16 code units (`JsString`), so
  that `.length`, `.substring` and the schema's `maxlength` count what the
  runtime counts.
* A dynamically typed value (a parsed JSON document, a property read from it)
  is a `JsVal`.
* A handler is a function from the request environment (clock, generated
  object id, settings, the outcome of each outbound call) and the store to a
  response and the next store.  A raised exception is the `error` case of an
  `Except`, or `none` where the handler does not look at the error.
* The document store is a list of documents.  Reads and writes of the store
  itself do not fail, apart from schema validation and the unique index.
-/

namespace SkillSync

/-! ## JavaScript values -/

/-- A JavaScript string: its UTF-16 code units. -/
abbrev JsString := List Nat

/-- UTF-16 encoding of a string literal of the source. -/
def utf16 (s : String) : JsString :=
  s.toList.flatMap fun c =>
    if c.toNat < 0x10000 then [c.toNat]
    else [0xD800 + (c.toNat - 0x10000) / 0x400, 0xDC00 + (c.toNat - 0x10000) % 0x400]

/-- A dynamically typed JavaScript value, as produced by the JSON reader of
the runtime.  Numbers are the integer-valued ones. -/
inductive JsVal where
  | undefined
  | null
  | bool (b : Bool)
  | num (n : Int)
  | str (s : JsString)
  | arr (items : List JsVal)
  | obj (fields : List (JsString × JsVal))

namespace JsVal

/-- Truthiness, as used by `x ? a : b`, `x || y` and `!x`. -/
def truthy : JsVal → Bool
  | undefined => false
  | null => false
  | bool b => b
  | num n => n != 0
  | str s => !s.isEmpty
  | arr _ => true
  | obj _ => true

/-- The expression `a || b`. -/
def orElse (a b : JsVal) : JsVal := if a.truthy then a else b

end JsVal

/-- A response attached to a failed HTTP call (`error.response`). -/
structure ErrResponse where
  status : Nat
  data : JsVal

/-- A raised JavaScript error: `error.name`, `error.message` and, for a failed
HTTP call that received an answer, `error.response`. -/
structure JsError where
  name : JsString
  message : JsString
  response : Option ErrResponse

/-- Whether a value is `undefined` or `null`. -/
def JsVal.isNullish : JsVal → Bool
  | .undefined => true
  | .null => true
  | _ => false

/-- The property read `v.key` on a value that is neither `undefined` nor
`null`, for the keys the handlers read (none of them is a built-in member of
strings, numbers or arrays): the field of an object, `undefined` otherwise. -/
def JsVal.field : JsVal → JsString → JsVal
  | .obj fields, key => (fields.lookup key).getD .undefined
  | _, _ => .undefined

/-- The property read `v.key`: a `TypeError` (`none`) on `undefined` and `null`. -/
def JsVal.getProp (v : JsVal) (key : JsString) : Option JsVal :=
  if v.isNullish then none else some (v.field key)

/-- The double nearest to the natural number `m`, ties to even, for `m` within
the range of a double: the value a number literal with these digits has in the
runtime. -/
def toDouble (m : Nat) : Nat :=
  let bits := Nat.log2 m + 1
  if bits ≤ 53 then m
  else
    let unit := 2 ^ (bits - 53)
    let q := m / unit
    let rest := m % unit
    if 2 * rest > unit ∨ (2 * rest = unit ∧ q % 2 = 1) then (q + 1) * unit else q * unit

/-- The number of decimal digits of `m`. -/
def digitCount (m : Nat) : Nat := (Nat.toDigits 10 m).length

/-- The candidate with `k` significant digits for the double `md`: the digits
and the decimal exponent of the first digit, if one of the two `k`-digit
neighbours of `md` reads back as `md`; of two that do, the closer one, and the
even one when they are equally close. -/
def digitsOfLength (md k : Nat) : Option (Nat × Nat) :=
  let p := 10 ^ (digitCount md - k)
  let lo := md / p
  let okLo := toDouble (lo * p) == md
  let okHi := toDouble ((lo + 1) * p) == md
  let useHi := okHi && (!okLo || decide ((lo + 1) * p - md < md - lo * p) ||
    (decide ((lo + 1) * p - md = md - lo * p) && lo % 2 == 1))
  if useHi then
    if lo + 1 = 10 ^ k then some (10 ^ (k - 1), digitCount md) else some (lo + 1, digitCount md - 1)
  else if okLo then some (lo, digitCount md - 1)
  else none

/-- `Number::toString` of the runtime on an integer-valued number: the fewest
significant digits that read back as the same double, written in full below
10^21 and with an exponent from there on (`1e+21`). -/
def numberText (n : Int) : JsString :=
  if n.natAbs < 2 ^ 53 then utf16 (toString n)
  else
    let md := toDouble n.natAbs
    let sign := if n < 0 then utf16 "-" else []
    match (List.range 17).findSome? fun i =>
        (digitsOfLength md (i + 1)).map fun r => (i + 1, r) with
    | none => sign ++ utf16 (toString md)
    | some (k, s, e) =>
      let ds := utf16 (toString s)
      if e < 21 then sign ++ ds ++ List.replicate (e + 1 - k) 48
      else
        sign ++ ds.take 1 ++ (if k = 1 then [] else 46 :: ds.drop 1) ++ utf16 "e+" ++
          utf16 (toString e)

/-- Mongoose's cast of a value assigned to a `String` path
(`mongoose/lib/cast/string.js`): `undefined` and `null` are kept (`none`),
text is kept, numbers and booleans are printed as the runtime prints them, an
object holding a non-empty text `_id` casts to it, any other object and every
array is a cast error (outer `none`). -/
def castString : JsVal → Option (Option JsString)
  | .undefined => some none
  | .null => some none
  | .str s => some (some s)
  | .num n => some (some (numberText n))
  | .bool b => some (some (utf16 (if b then "true" else "false")))
  | .arr _ => none
  | .obj fields =>
    match fields.lookup (utf16 "_id") with
    | some (.str s) => if s.isEmpty then none else some (some s)
    | _ => none

/-! ## `src/routes/banners.js`: the four pipeline stages -/

/-- The text returned by `getCurrentHotTopics` when the call raises. -/
def fallbackTopics : JsString :=
  utf16 ("Current trending topics in tech: \n" ++
    "    1. AI Integration in Workplace - Companies are rapidly adopting AI tools for productivity\n" ++
    "    2. Remote Work Technologies - New collaboration tools and virtual office solutions\n" ++
    "    3. Cybersecurity Awareness - Growing focus on data protection and privacy")

/-- `getCurrentHotTopics`: the message text of the topic service, or the fixed
summary when the call raised (`resp = none`). -/
def getCurrentHotTopics (resp : Option JsString) : JsString :=
  match resp with
  | some text => text
  | none => fallbackTopics

/-- `content.match(/\{[\s\S]*\}/)`: the span from the first opening brace of the
text to the last closing brace after it, if there is one. -/
def jsonMatch (content : JsString) : Option JsString :=
  let fromOpen := content.dropWhile (· != 123)
  let upToClose := (fromOpen.reverse.dropWhile (· != 125)).reverse
  if upToClose.isEmpty then none else some upToClose

def fallbackTitle : JsString := utf16 "🚀 Boost Your Career Today!"

def fallbackDescription : JsString :=
  utf16 "Discover trending skills and opportunities in today's dynamic professional landscape"

def fallbackBodyHead : JsString :=
  utf16 "Welcome to another day of professional growth! Today's focus: "

def fallbackBodyTail : JsString :=
  utf16 (". Stay ahead of the curve by developing relevant skills and connecting with industry peers. " ++
    "Your career journey continues with every new challenge and opportunity.")

def fallbackSearchTerm : JsString := utf16 "professional development technology workspace"

/-- The object returned by the `catch` branch of `generateBannerContent`. -/
def fallbackContent (hotTopic : JsString) : JsVal :=
  .obj [ (utf16 "title", .str fallbackTitle),
         (utf16 "description", .str fallbackDescription),
         (utf16 "content", .str (fallbackBodyHead ++ hotTopic ++ fallbackBodyTail)),
         (utf16 "image_search_term", .str fallbackSearchTerm) ]

/-- `generateBannerContent(hotTopic)`.  `resp` is the message text of the content
service (`none`: the call raised); `jsonParse` is the runtime's `JSON.parse`
(`none`: it raised).  A missing match and a parse error both end in the `catch`
branch. -/
def generateBannerContent (jsonParse : JsString → Option JsVal) (hotTopic : JsString)
    (resp : Option JsString) : JsVal :=
  match resp with
  | none => fallbackContent hotTopic
  | some content =>
    match jsonMatch content with
    | none => fallbackContent hotTopic
    | some span =>
      match jsonParse span with
      | some v => v
      | none => fallbackContent hotTopic

/-- Outcome of the image-search call. -/
inductive SearchOutcome where
  /-- the call, or reading `results[0].urls.regular`, raised -/
  | failed
  /-- `results` is missing or empty -/
  | noResults
  /-- the value of `results[0].urls.regular` -/
  | found (regular : JsVal)

/-- The code units `encodeURIComponent` leaves as they are: letters, digits and
`- _ . ! ~ * ' ( )`. -/
def isUriUnreserved (c : Nat) : Bool :=
  (65 ≤ c && c ≤ 90) || (97 ≤ c && c ≤ 122) || (48 ≤ c && c ≤ 57) || c == 45 || c == 95 ||
  c == 46 || c == 33 || c == 126 || c == 42 || c == 39 || c == 40 || c == 41

/-- The upper-case hexadecimal digit of a value below 16. -/
def hexDigit (n : Nat) : Nat := if n < 10 then 48 + n else 55 + n

/-- `encodeURIComponent(s)` for a text of code units below 128, each of which
is one byte: a code unit that is not unreserved becomes `%` and its two
hexadecimal digits. -/
def encodeURIComponent (s : JsString) : JsString :=
  s.flatMap fun c => if isUriUnreserved c then [c] else [37, hexDigit (c / 16), hexDigit (c % 16)]

/-- Lines 198-204: the placeholder locator, built from `width`, `height`,
`backgroundColor`, `textColor` and the encoded label. -/
def placeholderUrl : JsString :=
  utf16 "https://via.placeholder.com/" ++ utf16 (toString 1200) ++ utf16 "x" ++
    utf16 (toString 300) ++ utf16 "/" ++ utf16 "667eea" ++ utf16 "/" ++ utf16 "ffffff" ++
    utf16 "?text=" ++ encodeURIComponent (utf16 "Professional Development")

/-- `getProfessionalImageUrl(searchTerm)`.  `accessKey` is the `unsplash_api`
setting, `search` the outcome of the search call for a term. -/
def getProfessionalImageUrl (accessKey : Option JsString) (search : JsVal → SearchOutcome)
    (searchTerm : JsVal) : JsVal :=
  match accessKey with
  | none => .str placeholderUrl
  | some key =>
    if key.isEmpty then .str placeholderUrl
    else
      match search searchTerm with
      | .found regular => regular
      | .noResults => .str placeholderUrl
      | .failed => .str placeholderUrl

/-- A successful image download: the body and the `content-type` header. -/
structure FetchResponse where
  data : List Nat
  contentType : Option JsString

/-- The value returned by `fetchAndStoreImage`. -/
structure ImageData where
  binary : List Nat
  contentType : JsString
deriving DecidableEq

def fallbackSvg : JsString :=
  utf16 ("\n" ++
    "      <svg width=\"1200\" height=\"300\" xmlns=\"http://www.w3.org/2000/svg\">\n" ++
    "        <defs>\n" ++
    "          <linearGradient id=\"grad1\" x1=\"0%\" y1=\"0%\" x2=\"100%\" y2=\"100%\">\n" ++
    "            <stop offset=\"0%\" style=\"stop-color:#667eea;stop-opacity:1\" />\n" ++
    "            <stop offset=\"100%\" style=\"stop-color:#764ba2;stop-opacity:1\" />\n" ++
    "          </linearGradient>\n" ++
    "        </defs>\n" ++
    "        <rect width=\"100%\" height=\"100%\" fill=\"url(#grad1)\"/>\n" ++
    "        <text x=\"50%\" y=\"50%\" font-family=\"Arial, sans-serif\" font-size=\"48\" font-weight=\"bold\" \n" ++
    "              text-anchor=\"middle\" dy=\".3em\" fill=\"white\">SkillSync AI</text>\n" ++
    "        <text x=\"50%\" y=\"70%\" font-family=\"Arial, sans-serif\" font-size=\"24\" \n" ++
    "              text-anchor=\"middle\" dy=\".3em\" fill=\"rgba(255,255,255,0.9)\">Professional Development Platform</text>\n" ++
    "      </svg>\n" ++
    "    ")

/-- `fetchAndStoreImage(imageUrl)`.  `fetch` is the outcome of the download
(`none`: it raised).  The fallback text is ASCII, so the bytes of
`Buffer.from(fallbackSvg)` are its code units. -/
def fetchAndStoreImage (fetch : JsVal → Option FetchResponse) (imageUrl : JsVal) : ImageData :=
  match fetch imageUrl with
  | some r =>
    { binary := r.data
      contentType :=
        match r.contentType with
        | some ct => if ct.isEmpty then utf16 "image/jpeg" else ct
        | none => utf16 "image/jpeg" }
  | none => { binary := fallbackSvg, contentType := utf16 "image/svg+xml" }

/-! ## `src/models/Banner.js`: the schema and the collection -/

/-- The nested path `meta` of a banner. -/
structure BannerMeta where
  source : JsString
  generated_at : Nat
  topic_category : Option JsString
  engagement_score : Int
deriving DecidableEq

/-- A stored banner document.  Dates are milliseconds since the epoch. -/
structure Banner where
  _id : JsString
  date : Nat
  title : JsString
  description : JsString
  content : JsString
  hot_topic : JsString
  image_url : JsString
  image_binary : List Nat
  image_content_type : JsString
  meta : BannerMeta
  status : JsString
  expires_at : Nat
  createdAt : Nat
  updatedAt : Nat
deriving DecidableEq

/-- The banner collection. -/
abbrev BannerStore := List Banner

/-- The object handed to `new Banner({...})` by the two handlers. -/
structure BannerInput where
  date : Nat
  title : JsVal
  description : JsVal
  content : JsVal
  hot_topic : JsString
  image_url : JsVal
  image_binary : List Nat
  image_content_type : JsString
  source : JsString
  topic_category : JsString
  generated_at : Nat

/-- The ways `save()` rejects a banner. -/
inductive SaveError where
  | validation
  | duplicateKey
deriving DecidableEq

/-- A `String` path with `required: true` and an optional `maxlength`: the value
must cast to a non-empty text of at most `maxlength` code units. -/
def requiredText (maxlength : Option Nat) (v : JsVal) : Option JsString :=
  match castString v with
  | some (some s) =>
    if s.isEmpty then none
    else
      match maxlength with
      | some m => if s.length ≤ m then some s else none
      | none => some s
  | _ => none

/-- Validation of a new banner against `bannerSchema`, giving the document that
would be written: the text paths are cast and checked (`required`, `maxlength`
200 / 500 / 2000), the required buffer must be non-empty, `status`,
`expires_at` and `meta.engagement_score` take their defaults, `timestamps` sets
`createdAt` and `updatedAt`. -/
def validateBanner (id : JsString) (expires savedAt : Nat) (i : BannerInput) : Option Banner :=
  match requiredText (some 200) i.title, requiredText (some 500) i.description,
        requiredText (some 2000) i.content, requiredText none (.str i.hot_topic),
        requiredText none i.image_url, requiredText none (.str i.image_content_type) with
  | some title, some description, some content, some hot_topic, some image_url, some ctype =>
    if i.image_binary.isEmpty then none
    else some
      { _id := id, date := i.date, title := title, description := description,
        content := content, hot_topic := hot_topic, image_url := image_url,
        image_binary := i.image_binary, image_content_type := ctype,
        meta := { source := i.source, generated_at := i.generated_at,
                  topic_category := some i.topic_category, engagement_score := 0 },
        status := utf16 "active", expires_at := expires,
        createdAt := savedAt, updatedAt := savedAt }
  | _, _, _, _, _, _ => none

/-- The insert of a validated document: the unique indexes on `_id` and on
`date` (`unique: true`) reject a document whose id or date is already stored. -/
def insertBanner (store : BannerStore) (doc : Banner) : Except SaveError BannerStore :=
  if store.any (fun b => b.date == doc.date || b._id == doc._id) then .error .duplicateKey
  else .ok (store ++ [doc])

/-- The call `doc.save()` of a new banner: validation, then the insert. -/
def saveBanner (store : BannerStore) (id : JsString) (expires savedAt : Nat) (i : BannerInput) :
    Except SaveError (Banner × BannerStore) :=
  match validateBanner id expires savedAt i with
  | none => .error .validation
  | some doc =>
    match insertBanner store doc with
    | .error e => .error e
    | .ok store1 => .ok (doc, store1)

/-- The query `Banner.findOne({ date, status: 'active' })`. -/
def findActiveBanner (store : BannerStore) (date : Nat) : Option Banner :=
  store.find? fun b => b.date == date && b.status == utf16 "active"

/-- The command `Banner.deleteOne({ date })`. -/
def deleteBannerByDate (store : BannerStore) (date : Nat) : BannerStore :=
  store.eraseP fun b => b.date == date

/-! ## `src/routes/banners.js`: the handlers -/

/-- What a banner request reads from outside the store: the clock, the object
id generated for a new document, the `unsplash_api` setting and the outcome of
each outbound call. -/
structure BannerEnv where
  /-- the value of `today` after `setHours(0, 0, 0, 0)` -/
  today : Nat
  /-- the `new Date()` of `meta.generated_at` -/
  generatedAt : Nat
  /-- the default of `expires_at`: the start of the next day -/
  tomorrow : Nat
  /-- the instant of `save()` -/
  savedAt : Nat
  /-- the object id of a document built by this request -/
  newId : JsString
  unsplashKey : Option JsString
  /-- the message text of the topic call, `none` when it raised -/
  topics : Option JsString
  /-- the message text of the content call for a topic text, `none` when it raised -/
  content : JsString → Option JsString
  jsonParse : JsString → Option JsVal
  search : JsVal → SearchOutcome
  fetch : JsVal → Option FetchResponse

/-- Why a banner handler entered its `catch` block. -/
inductive BannerFailure where
  | typeError
  | save (e : SaveError)
deriving DecidableEq

/-- The statements shared by `GET /today` (lines 226-252) and `POST /generate`
(lines 332-351): run the four stages and assemble the argument of
`new Banner`.  Reading a property of a `null` content object raises. -/
def buildBanner (env : BannerEnv) : Except BannerFailure BannerInput :=
  let hotTopics := getCurrentHotTopics env.topics
  let bannerContent := generateBannerContent env.jsonParse hotTopics (env.content hotTopics)
  match bannerContent.getProp (utf16 "image_search_term"), bannerContent.getProp (utf16 "title"),
        bannerContent.getProp (utf16 "description"), bannerContent.getProp (utf16 "content") with
  | some term, some title, some description, some content =>
    let imageUrl := getProfessionalImageUrl env.unsplashKey env.search term
    let imageData := fetchAndStoreImage env.fetch imageUrl
    .ok { date := env.today, title := title, description := description, content := content,
          hot_topic := hotTopics.take 200, image_url := imageUrl,
          image_binary := imageData.binary, image_content_type := imageData.contentType,
          source := utf16 "Perplexity AI + Unsplash",
          topic_category := utf16 "Professional Development",
          generated_at := env.generatedAt }
  | _, _, _, _ => .error .typeError

/-- The path ``/api/banners/${id}/image``. -/
def imageServeUrl (id : JsString) : JsString :=
  utf16 "/api/banners/" ++ id ++ utf16 "/image"

/-- The object `bannerResponse` of `GET /today`.  `metadata` reads
`todayBanner.metadata`, which is not a path of the schema (the path is `meta`),
so it is `undefined` (`none`). -/
structure BannerResponse where
  id : JsString
  title : JsString
  description : JsString
  image_url : JsString
  content : JsString
  hot_topic : JsString
  image_serve_url : JsString
  metadata : Option BannerMeta
  created_at : Nat
deriving DecidableEq

def bannerResponse (b : Banner) : BannerResponse :=
  { id := b._id, title := b.title, description := b.description, image_url := b.image_url,
    content := b.content, hot_topic := b.hot_topic, image_serve_url := imageServeUrl b._id,
    metadata := none, created_at := b.createdAt }

/-- The response of `GET /today`: `{ success: true, banner }`, or status 500
with `{ success: false, error }`. -/
inductive TodayResult where
  | ok (banner : BannerResponse)
  | serverError (error : JsString)
deriving DecidableEq

def TodayResult.success : TodayResult → Bool
  | .ok _ => true
  | .serverError _ => false

def TodayResult.status : TodayResult → Nat
  | .ok _ => 200
  | .serverError _ => 500

/-- The `try` block of `GET /today`: the banner answered, the store afterwards
and whether the builder ran. -/
def getTodayBody (env : BannerEnv) (store : BannerStore) :
    Except BannerFailure (Banner × BannerStore × Bool) :=
  match findActiveBanner store env.today with
  | some b => .ok (b, store, false)
  | none =>
    match buildBanner env with
    | .error e => .error e
    | .ok input =>
      match saveBanner store env.newId env.tomorrow env.savedAt input with
      | .error e => .error (.save e)
      | .ok (doc, store1) => .ok (doc, store1, true)

/-- The handler `GET /today` (getOrCreate): the response and the store afterwards. -/
def getToday (env : BannerEnv) (store : BannerStore) : TodayResult × BannerStore :=
  match getTodayBody env store with
  | .ok (b, store1, _) => (.ok (bannerResponse b), store1)
  | .error _ => (.serverError (utf16 "Failed to get today's banner"), store)

/-- The `banner` object of the `POST /generate` response. -/
structure GeneratedBanner where
  id : JsString
  title : JsString
  description : JsString
  image_serve_url : JsString
deriving DecidableEq

/-- The response of `POST /generate`. -/
inductive GenerateResult where
  | ok (message : JsString) (banner : GeneratedBanner)
  | serverError (error : JsString)
deriving DecidableEq

/-- The handler `POST /generate` (regenerate): delete the record of today's
date, then build and save.  The delete is not undone when a later statement
raises. -/
def postGenerate (env : BannerEnv) (store : BannerStore) : GenerateResult × BannerStore :=
  let store1 := deleteBannerByDate store env.today
  match buildBanner env with
  | .error _ => (.serverError (utf16 "Failed to generate new banner"), store1)
  | .ok input =>
    match saveBanner store1 env.newId env.tomorrow env.savedAt input with
    | .error _ => (.serverError (utf16 "Failed to generate new banner"), store1)
    | .ok (doc, store2) =>
      (.ok (utf16 "New banner generated successfully")
        { id := doc._id, title := doc.title, description := doc.description,
          image_serve_url := imageServeUrl doc._id }, store2)

/-! ## `src/models/Recommendation.js`: the schema and the collection -/

/-- The five array paths under `recommendations`, each `[String]`; an element
that is `null` stays `null` (`none`). -/
structure Buckets where
  profile_optimization : List (Option JsString)
  networking : List (Option JsString)
  content_strategy : List (Option JsString)
  skill_development : List (Option JsString)
  career_roadmap : List (Option JsString)
deriving DecidableEq

/-- The nested path `metadata` of a recommendation. -/
structure RecMetadata where
  profile_url : Option JsString
  analysis_date : Option Nat
  user_role : Option JsString
  user_department : Option JsString
  profile_score : Option Int
  total_recommendations : Option Nat
  completed_at : Option JsString
  crew_ai_user_id : Option JsString
deriving DecidableEq

/-- A stored recommendation document: exactly the paths of
`recommendationSchema` and the two `timestamps`. -/
structure Recommendation where
  _id : JsString
  user_id : JsString
  source_user_id : Option JsString
  recommendation_type : JsString
  recommendations : Buckets
  analysis_text : Option JsString
  ai_provider : JsString
  metadata : RecMetadata
  recommendation_status : JsString
  createdAt : Nat
  updatedAt : Nat
deriving DecidableEq

/-- The recommendation collection. -/
abbrev RecStore := List Recommendation

/-- A recommendation document in memory.  A `String` path holds the result of
casting the value last assigned to it (`none`: the cast failed, which `save()`
reports as a validation error).  `status` is the plain JavaScript property
`doc.status`: `recommendationSchema` has no path of that name (the path is
`recommendation_status`), so under the schema's default strict mode the key is
dropped by the constructor, an assignment to it only sets a property of the
object, and `save()` never writes it. -/
structure RecDoc where
  _id : JsString
  user_id : JsString
  recommendation_type : JsString
  recommendations : Option Buckets
  analysis_text : Option (Option JsString)
  ai_provider : JsString
  profile_url : Option (Option JsString)
  analysis_date : Option Nat
  user_role : Option JsString
  user_department : Option JsString
  profile_score : Option Int
  total_recommendations : Option Nat
  completed_at : Option (Option JsString)
  crew_ai_user_id : Option (Option JsString)
  recommendation_status : JsString
  status : Option JsString
  createdAt : Option Nat
deriving DecidableEq

/-- Validation run by `save()`: every assigned value must have cast, and
`analysis_text` has `maxlength: 2000`.  The result is the document written at
instant `savedAt`; the plain property `status` is not part of it. -/
def validateRec (savedAt : Nat) (d : RecDoc) : Option Recommendation :=
  match d.recommendations, d.analysis_text, d.profile_url, d.completed_at, d.crew_ai_user_id with
  | some buckets, some text, some url, some completedAt, some crewId =>
    if (text.getD []).length ≤ 2000 then
      some
        { _id := d._id, user_id := d.user_id, source_user_id := none,
          recommendation_type := d.recommendation_type, recommendations := buckets,
          analysis_text := text, ai_provider := d.ai_provider,
          metadata :=
            { profile_url := url, analysis_date := d.analysis_date, user_role := d.user_role,
              user_department := d.user_department, profile_score := d.profile_score,
              total_recommendations := d.total_recommendations, completed_at := completedAt,
              crew_ai_user_id := crewId },
          recommendation_status := d.recommendation_status,
          createdAt := d.createdAt.getD savedAt, updatedAt := savedAt }
    else none
  | _, _, _, _, _ => none

/-- A document as read back from the collection: the stored paths, and no plain
property `status`. -/
def hydrateRec (r : Recommendation) : RecDoc :=
  { _id := r._id, user_id := r.user_id, recommendation_type := r.recommendation_type,
    recommendations := some r.recommendations, analysis_text := some r.analysis_text,
    ai_provider := r.ai_provider, profile_url := some r.metadata.profile_url,
    analysis_date := r.metadata.analysis_date, user_role := r.metadata.user_role,
    user_department := r.metadata.user_department, profile_score := r.metadata.profile_score,
    total_recommendations := r.metadata.total_recommendations,
    completed_at := some r.metadata.completed_at,
    crew_ai_user_id := some r.metadata.crew_ai_user_id,
    recommendation_status := r.recommendation_status, status := none,
    createdAt := some r.createdAt }

/-- The call `save()` of a new document: validation, then the insert, which the
unique index on `_id` can reject. -/
def saveNewRec (store : RecStore) (savedAt : Nat) (d : RecDoc) :
    Except SaveError (RecDoc × RecStore) :=
  match validateRec savedAt d with
  | none => .error .validation
  | some r =>
    if store.any (fun x => x._id == r._id) then .error .duplicateKey
    else .ok ({ d with createdAt := some r.createdAt }, store ++ [r])

/-- The call `save()` of a document already stored: validation, then the
update of the record with that `_id`. -/
def saveExistingRec (store : RecStore) (savedAt : Nat) (d : RecDoc) : Except SaveError RecStore :=
  match validateRec savedAt d with
  | none => .error .validation
  | some r => .ok (store.map fun x => if x._id == r._id then r else x)

/-! ## `src/routes/users.js`: the profile-analysis job -/

/-- The code units removed by `String.prototype.trim`: white space and line
terminators. -/
def isJsSpace (c : Nat) : Bool :=
  c == 9 || c == 10 || c == 11 || c == 12 || c == 13 || c == 32 || c == 0xA0 || c == 0x1680 ||
  (0x2000 ≤ c && c ≤ 0x200A) || c == 0x2028 || c == 0x2029 || c == 0x202F || c == 0x205F ||
  c == 0x3000 || c == 0xFEFF

/-- `s.trim()`. -/
def jsTrim (s : JsString) : JsString :=
  ((s.dropWhile isJsSpace).reverse.dropWhile isJsSpace).reverse

/-- `Array.isArray(x) ? x : (x ? [x] : [])`. -/
def normalizeBucket : JsVal → List JsVal
  | .arr items => items
  | v => if v.truthy then [v] else []

/-- The local object `recommendations` of the handler. -/
structure RawBuckets where
  profile_optimization : List JsVal
  networking : List JsVal
  content_strategy : List JsVal
  skill_development : List JsVal
  career_roadmap : List JsVal

/-- Lines 189-208: the mapping of the gateway result to the five buckets.
Reading a property of a `null` or `undefined` result raises (`none`). -/
def normalizeResult (crewAIResult : JsVal) : Option RawBuckets :=
  if crewAIResult.isNullish then none
  else some
    { profile_optimization := normalizeBucket (crewAIResult.field (utf16 "profile_optimization"))
      networking := normalizeBucket (crewAIResult.field (utf16 "networking"))
      content_strategy := normalizeBucket (crewAIResult.field (utf16 "content_strategy"))
      skill_development := normalizeBucket (crewAIResult.field (utf16 "skill_development"))
      career_roadmap := [] }

/-- `Object.values(recommendations).flat()`. -/
def RawBuckets.flat (r : RawBuckets) : List JsVal :=
  r.profile_optimization ++ r.networking ++ r.content_strategy ++ r.skill_development ++
    r.career_roadmap

/-- The filter callback `rec => rec && rec.trim().length > 0`: a falsy item is
rejected, a text item is kept when its trimmed text is non-empty, and any other
truthy item raises (`none`), having no method `trim`. -/
def keepsItem (rec : JsVal) : Option Bool :=
  if !rec.truthy then some false
  else
    match rec with
    | .str s => some (decide (0 < (jsTrim s).length))
    | _ => none

/-- `totalRecommendations` (lines 211-214); `none` when the callback raises. -/
def totalRecommendations (r : RawBuckets) : Option Nat :=
  (r.flat.mapM keepsItem).map fun kept => (kept.filter id).length

/-- `profileScore` (lines 216-218). -/
def profileScore (totalRecommendations : Nat) : Int :=
  if totalRecommendations > 0 then min 100 (max 20 (100 - (totalRecommendations : Int) * 5))
  else 50

/-- The cast of the local `recommendations` object to the five `[String]` paths. -/
def castBuckets (r : RawBuckets) : Option Buckets :=
  match r.profile_optimization.mapM castString, r.networking.mapM castString,
        r.content_strategy.mapM castString, r.skill_development.mapM castString,
        r.career_roadmap.mapM castString with
  | some a, some b, some c, some d, some e =>
    some { profile_optimization := a, networking := b, content_strategy := c,
           skill_development := d, career_roadmap := e }
  | _, _, _, _, _ => none

/-- The fields of a user document that the handler reads. -/
structure User where
  _id : JsString
  name : JsString
  role : JsString
  department : JsString
  bio : Option JsString
  skills : List JsString
  experience_level : JsString
  linkedinProfile : Option JsString
deriving DecidableEq

/-- The body posted to the analysis service. -/
structure CrewRequest where
  user_id : JsString
  linkedin_profile : JsString
  current_user : User
deriving DecidableEq

/-- What a profile-analysis request reads from outside the recommendation
collection. -/
structure AnalysisEnv where
  /-- `req.user._id`, set by the authentication middleware -/
  userId : JsString
  /-- the result of `User.findById(req.user._id)` -/
  user : Option User
  /-- the object id of the document built by this request -/
  newId : JsString
  /-- the `new Date()` of `metadata.analysis_date` -/
  analysisDate : Nat
  /-- the instant of the first `save()` -/
  createdAt : Nat
  /-- the instant of the `save()` of the results -/
  completedAt : Nat
  /-- the instant of the `save()` in the `catch` block -/
  failedAt : Nat
  /-- the outcome of the call to the analysis service -/
  crewAI : CrewRequest → Except JsError JsVal
  /-- message of the `TypeError` for a property read on `null` or `undefined` -/
  nullReadText : JsString
  /-- message of the `TypeError` for calling a missing method -/
  notCallableText : JsString
  /-- message of a Mongoose validation error -/
  validationText : JsString
  /-- message of a duplicate-key error of the store -/
  duplicateKeyText : JsString
  /-- whether `process.env.NODE_ENV === 'development'` -/
  development : Bool
  /-- `new Date().toISOString()` -/
  timestamp : JsString

/-- The object `analysis` of the success response. -/
structure AnalysisView where
  id : JsString
  recommendations : RawBuckets
  analysis_text : Option JsString
  profile_score : Int
  total_recommendations : Nat
  ai_provider : JsString
  createdAt : Nat
  meta : RecMetadata

/-- The responses of `POST /analyze-linkedin`. -/
inductive AnalyzeResult where
  /-- 404 `User not found` -/
  | userNotFound
  /-- 400 `No LinkedIn profile found. ...` -/
  | noProfile
  /-- 200 -/
  | completed (analysis : AnalysisView) (linkedin_analysis : JsVal) (analyzed_profile : JsVal)
      (timestamp : JsString)
  /-- 400, the gateway answered with status 400 -/
  | invalidProfile (error : JsVal) (analysis_id : JsString)
  /-- 500 `AI analysis service temporarily unavailable` -/
  | unavailable (analysis_id : JsString) (fallback_suggestions : List JsString)
  /-- 500 `Failed to initiate LinkedIn profile analysis` -/
  | initFailed (details : Option JsString)

def AnalyzeResult.status : AnalyzeResult → Nat
  | .userNotFound => 404
  | .noProfile => 400
  | .completed _ _ _ _ => 200
  | .invalidProfile _ _ => 400
  | .unavailable _ _ => 500
  | .initFailed _ => 500

def AnalyzeResult.success : AnalyzeResult → Bool
  | .completed _ _ _ _ => true
  | _ => false

/-- The member `fallback_suggestions` of the response body, if it has one. -/
def AnalyzeResult.fallbackSuggestions : AnalyzeResult → Option (List JsString)
  | .unavailable _ s => some s
  | _ => none

/-- The member `error` of the response body, when it is one of the handler's
fixed texts. -/
def AnalyzeResult.errorText : AnalyzeResult → Option JsString
  | .userNotFound => some (utf16 "User not found")
  | .noProfile =>
    some (utf16 "No LinkedIn profile found. Please add your LinkedIn profile first.")
  | .unavailable _ _ => some (utf16 "AI analysis service temporarily unavailable")
  | .initFailed _ => some (utf16 "Failed to initiate LinkedIn profile analysis")
  | _ => none

/-- The static list of the fallback response (lines 278-284). -/
def fallbackSuggestions : List JsString :=
  [ utf16 "Consider updating your profile summary to highlight key achievements",
    utf16 "Add more specific skills to your LinkedIn profile",
    utf16 "Connect with colleagues in your industry",
    utf16 "Share content related to your expertise",
    utf16 "Request recommendations from previous colleagues" ]

/-- `new Recommendation({...})` of lines 142-153.  The key `status: 'pending'`
is not a path of the schema and is dropped; `recommendation_status` takes its
default `'completed'`, `ai_provider` its default `'CrewAI'`, the five buckets
are empty arrays. -/
def newAnalysisRecord (env : AnalysisEnv) (user : User) (profile : JsString) : RecDoc :=
  { _id := env.newId, user_id := env.userId,
    recommendation_type := utf16 "linkedin_analysis",
    recommendations := some ⟨[], [], [], [], []⟩,
    analysis_text := some (some (utf16 "LinkedIn analysis in progress...")),
    ai_provider := utf16 "CrewAI",
    profile_url := some (some profile), analysis_date := some env.analysisDate,
    user_role := some user.role, user_department := some user.department,
    profile_score := none, total_recommendations := none,
    completed_at := some none, crew_ai_user_id := some none,
    recommendation_status := utf16 "completed", status := none, createdAt := none }

/-- Lines 142-155: build the record of the job and save it. -/
def createAnalysisRecord (env : AnalysisEnv) (user : User) (profile : JsString)
    (store : RecStore) : Except SaveError (RecDoc × RecStore) :=
  saveNewRec store env.createdAt (newAnalysisRecord env user profile)

/-- The outer `catch` block (lines 288-296). -/
def initFailed (env : AnalysisEnv) (message : JsString) : AnalyzeResult :=
  .initFailed (if env.development then some message else none)

/-- The message of a save error. -/
def saveErrorText (env : AnalysisEnv) : SaveError → JsString
  | .validation => env.validationText
  | .duplicateKey => env.duplicateKeyText

/-- Lines 186-254: the statements of the inner `try` that follow a successful
call.  A raise gives the error together with the document as it is then:
unchanged when the mapping or the count raised, carrying the assignments of
lines 221-232 when `save()` raised.  The spread `...analysisRecord.metadata`
keeps `analysis_date`, `user_role` and `user_department`. -/
def applyAnalysis (env : AnalysisEnv) (profile : JsString) (doc : RecDoc) (store : RecStore)
    (crewAIResult : JsVal) : Except (JsError × RecDoc) (AnalyzeResult × RecStore) :=
  match normalizeResult crewAIResult with
  | none => .error (⟨utf16 "TypeError", env.nullReadText, none⟩, doc)
  | some recommendations =>
    match totalRecommendations recommendations with
    | none => .error (⟨utf16 "TypeError", env.notCallableText, none⟩, doc)
    | some total =>
      let score := profileScore total
      let doc1 : RecDoc :=
        { doc with
          recommendations := castBuckets recommendations
          analysis_text := castString ((crewAIResult.field (utf16 "analysis_result")).orElse
            (.str (utf16 "LinkedIn profile analysis completed successfully.")))
          status := some (utf16 "completed")
          ai_provider := utf16 "CrewAI"
          profile_url := castString ((crewAIResult.field (utf16 "profile_analyzed")).orElse
            (.str profile))
          profile_score := some score
          total_recommendations := some total
          completed_at := castString (crewAIResult.field (utf16 "completed_at"))
          crew_ai_user_id := castString (crewAIResult.field (utf16 "user_id")) }
      match validateRec env.completedAt doc1 with
      | none => .error (⟨utf16 "ValidationError", env.validationText, none⟩, doc1)
      | some saved =>
        .ok (.completed
              { id := saved._id, recommendations := recommendations,
                analysis_text := saved.analysis_text, profile_score := score,
                total_recommendations := total, ai_provider := utf16 "CrewAI",
                createdAt := saved.createdAt, meta := saved.metadata }
              crewAIResult (crewAIResult.field (utf16 "profile_analyzed")) env.timestamp,
             store.map fun x => if x._id == saved._id then saved else x)

/-- Lines 256-286: the inner `catch` block.  A raise inside it (the `save()`,
or reading `detail` of a `null` body) reaches the outer `catch`. -/
def failAnalysis (env : AnalysisEnv) (doc : RecDoc) (store : RecStore) (crewAIError : JsError) :
    AnalyzeResult × RecStore :=
  let doc1 : RecDoc :=
    { doc with
      status := some (utf16 "failed")
      analysis_text := some (some (utf16 "Analysis failed: " ++ crewAIError.message)) }
  match saveExistingRec store env.failedAt doc1 with
  | .error e => (initFailed env (saveErrorText env e), store)
  | .ok store1 =>
    match crewAIError.response with
    | some response =>
      if response.status = 400 then
        match response.data.getProp (utf16 "detail") with
        | none => (initFailed env env.nullReadText, store1)
        | some detail =>
          (.invalidProfile (detail.orElse (.str (utf16 "Invalid LinkedIn profile format")))
            doc._id, store1)
      else (.unavailable doc._id fallbackSuggestions, store1)
    | none => (.unavailable doc._id fallbackSuggestions, store1)

/-- The handler `POST /analyze-linkedin` (submit of a profileAnalysis job): the
response, the collection afterwards and the requests sent to the analysis
service. -/
def analyzeLinkedin (env : AnalysisEnv) (store : RecStore) :
    AnalyzeResult × RecStore × List CrewRequest :=
  match env.user with
  | none => (.userNotFound, store, [])
  | some user =>
    match user.linkedinProfile with
    | none => (.noProfile, store, [])
    | some profile =>
      if profile.isEmpty then (.noProfile, store, [])
      else
        match createAnalysisRecord env user profile store with
        | .error e => (initFailed env (saveErrorText env e), store, [])
        | .ok (doc, store1) =>
          let request : CrewRequest :=
            { user_id := env.userId, linkedin_profile := profile, current_user := user }
          match env.crewAI request with
          | .error crewAIError =>
            let r := failAnalysis env doc store1 crewAIError
            (r.1, r.2, [request])
          | .ok crewAIResult =>
            match applyAnalysis env profile doc store1 crewAIResult with
            | .ok (response, store2) => (response, store2, [request])
            | .error (crewAIError, doc1) =>
              let r := failAnalysis env doc1 store1 crewAIError
              (r.1, r.2, [request])

/-- The responses of `GET /linkedin-analysis-status/:analysisId`. -/
inductive StatusResult where
  /-- 404 `Analysis not found` -/
  | notFound
  /-- 200: `status` is `analysis.status`, `analysis` the record or `null` -/
  | ok (status : Option JsString) (analysis : Option Recommendation) (created_at : Nat)
      (updated_at : Nat)
  /-- 500 `Failed to get analysis status` -/
  | serverError
deriving DecidableEq

/-- The handler `GET /linkedin-analysis-status/:analysisId` (poll) for the
caller `userId`.  The query casts the path parameter to an object id before it
is compared: `castObjectId` is that cast, giving the text of the object id (24
hexadecimal digits in lower case, the form in which `_id` is held here), or
`none` when the cast raises.  The handler writes nothing. -/
def getAnalysisStatus (castObjectId : JsString → Option JsString) (userId analysisId : JsString)
    (store : RecStore) : StatusResult :=
  match castObjectId analysisId with
  | none => .serverError
  | some oid =>
    match store.find? fun r => r._id == oid && r.user_id == userId &&
        r.recommendation_type == utf16 "linkedin_analysis" with
    | none => .notFound
    | some r =>
      let analysis := hydrateRec r
      .ok analysis.status
        (if analysis.status = some (utf16 "completed") then some r else none)
        r.createdAt r.updatedAt

/-! ## Requests in sequence -/

/-- A request that writes the banner collection. -/
inductive BannerOp where
  | getOrCreate (env : BannerEnv)
  | regenerate (env : BannerEnv)

/-- The store after a request. -/
def BannerOp.run : BannerOp → BannerStore → BannerStore
  | .getOrCreate env, store => (getToday env store).2
  | .regenerate env, store => (postGenerate env store).2

/-- The store after a sequence of requests, one after another. -/
def runOps (ops : List BannerOp) (store : BannerStore) : BannerStore :=
  ops.foldl (fun s op => op.run s) store

/-! ## Requests in flight together

The runtime runs one handler at a time and switches between handlers only at
an `await`.  `GET /today` touches the banner collection at two of its awaits,
the `findOne` and the `save()`, each a single-document operation of the store;
the awaits in between (the four stages) leave the collection alone.  A request
in flight is therefore before its lookup, before its save, or finished. -/

/-- The state of a `GET /today` request in flight. -/
inductive Call where
  /-- `findOne` has not run yet -/
  | lookup (env : BannerEnv)
  /-- the lookup missed and the banner is built; `save()` is next -/
  | saving (env : BannerEnv) (input : BannerInput)
  /-- the response is sent -/
  | done (response : TodayResult)

/-- One store operation of a request, together with the statements that follow
it up to the next store operation. -/
def Call.step (c : Call) (store : BannerStore) : Call × BannerStore :=
  match c with
  | .lookup env =>
    match findActiveBanner store env.today with
    | some b => (.done (.ok (bannerResponse b)), store)
    | none =>
      match buildBanner env with
      | .error _ => (.done (.serverError (utf16 "Failed to get today's banner")), store)
      | .ok input => (.saving env input, store)
  | .saving env input =>
    match saveBanner store env.newId env.tomorrow env.savedAt input with
    | .error _ => (.done (.serverError (utf16 "Failed to get today's banner")), store)
    | .ok (doc, store1) => (.done (.ok (bannerResponse doc)), store1)
  | .done response => (.done response, store)

/-- The collection and the requests in flight. -/
structure Sys where
  store : BannerStore
  calls : List Call

/-- The scheduler resumes request `i`. -/
def Sys.step (s : Sys) (i : Nat) : Sys :=
  match s.calls.get? i with
  | none => s
  | some c => { store := (c.step s.store).2, calls := s.calls.set i (c.step s.store).1 }

/-- The system after a schedule, the list of the requests resumed in turn. -/
def Sys.run (schedule : List Nat) (s : Sys) : Sys :=
  schedule.foldl Sys.step s

/-- The requests of `envs` arrive together at `store`. -/
def Sys.start (envs : List BannerEnv) (store : BannerStore) : Sys :=
  { store := store, calls := envs.map .lookup }

/-- The response of request `i`, once sent. -/
def Sys.response (s : Sys) (i : Nat) : Option TodayResult :=
  match s.calls.get? i with
  | some (.done r) => some r
  | _ => none

/-! ## The words of the specification, for comparison -/

/-- The score as the specification words it: `100 − 5 × itemCount`, clamped to
the range from `lo` to `hi`. -/
def clampedScore (lo hi : Int) (itemCount : Nat) : Int :=
  max lo (min hi (100 - 5 * (itemCount : Int)))

/-- The text after an opening brace, up to and including the closing brace
that matches it; `depth` counts the braces opened since and not yet closed. -/
def scanBalanced : Nat → JsString → Option JsString
  | _, [] => none
  | depth, c :: rest =>
    if c = 125 then
      match depth with
      | 0 => some [c]
      | d + 1 => (scanBalanced d rest).map (c :: ·)
    else if c = 123 then (scanBalanced (depth + 1) rest).map (c :: ·)
    else (scanBalanced depth rest).map (c :: ·)

/-- The span the specification describes: from the first opening brace of the
text to the closing brace that matches it. -/
def firstBalancedSpan (text : JsString) : Option JsString :=
  match text.dropWhile (· != 123) with
  | [] => none
  | c :: rest => (scanBalanced 0 rest).map (c :: ·)

/-! ## `src/routes/banners.js`: image and history -/

/-- The responses of `GET /:id/image`. -/
inductive ImageResult where
  /-- 404 `Banner image not found` -/
  | notFound
  /-- 200 with the headers `Content-Type`, `Content-Length`, `Cache-Control`
  and the body -/
  | ok (contentType : JsString) (contentLength : Nat) (cacheControl : JsString)
      (body : List Nat)
  /-- 500 `Failed to serve banner image` -/
  | serverError
deriving DecidableEq

def ImageResult.status : ImageResult → Nat
  | .notFound => 404
  | .ok _ _ _ _ => 200
  | .serverError => 500

/-- The handler `GET /:id/image` (serveBinary).  `findById` casts the path
parameter to an object id before it is compared: `castObjectId` is that cast,
giving the text of the object id (24 hexadecimal digits in lower case, the form
in which `_id` is held here), or `none` when the cast raises.  A stored banner
always has its buffer, so `!banner.image_binary` is false for it. -/
def getBannerImage (castObjectId : JsString → Option JsString) (id : JsString)
    (store : BannerStore) : ImageResult :=
  match castObjectId id with
  | none => .serverError
  | some oid =>
    match store.find? fun b => b._id == oid with
    | none => .notFound
    | some banner =>
      .ok banner.image_content_type banner.image_binary.length (utf16 "public, max-age=86400")
        banner.image_binary

/-- A document of the `GET /history` response: `_id` and the paths selected by
`.select('title description hot_topic metadata createdAt')` that the schema
has (`metadata` is not one). -/
structure HistoryItem where
  _id : JsString
  title : JsString
  description : JsString
  hot_topic : JsString
  createdAt : Nat
deriving DecidableEq

def historyItem (b : Banner) : HistoryItem :=
  { _id := b._id, title := b.title, description := b.description, hot_topic := b.hot_topic,
    createdAt := b.createdAt }

/-- The handler `GET /history`: the banners dated from `sevenDaysAgo` on,
newest first, at most seven, projected. -/
def getHistory (sevenDaysAgo : Nat) (store : BannerStore) : List HistoryItem :=
  (((store.filter fun b => decide (sevenDaysAgo ≤ b.date)).mergeSort
      fun a b => decide (b.date ≤ a.date)).take 7).map historyItem

/-! ## `src/routes/users.js`: profile update -/

/-- The array `allowedUpdates` of `PUT /me`. -/
def allowedUpdates : List JsString :=
  [utf16 "bio", utf16 "avatar", utf16 "interests", utf16 "availability",
   utf16 "linkedinProfile", utf16 "twitterProfile"]

def JsVal.isUndefined : JsVal → Bool
  | .undefined => true
  | _ => false

/-- Lines 29-45: the object `updates`, as its entries in insertion order.
Reading a field of a missing body raises (`none`). -/
def buildUpdates (body : JsVal) : Option (List (JsString × JsVal)) :=
  if body.isNullish then none
  else some (allowedUpdates.filterMap fun field =>
    if (body.field field).isUndefined then none else some (field, body.field field))

/-- A document as its paths and values. -/
abbrev JsDoc := List (JsString × JsVal)

/-- The path `key` of a document set to `v`; the other paths stay. -/
def setPath (doc : JsDoc) (key : JsString) (v : JsVal) : JsDoc :=
  (key, v) :: doc.filter fun p => p.1 != key

/-- The store's `$set` of the entries of `updates`, each value as the schema
casts it. -/
def applySet (cast : JsString → JsVal → JsVal) (doc : JsDoc) (updates : List (JsString × JsVal)) :
    JsDoc :=
  updates.foldl (fun d p => setPath d p.1 (cast p.1 p.2)) doc

/-- What the store answers to an update with `runValidators: true`. -/
inductive UpdateCheck where
  | accepted
  /-- a `ValidationError` with the messages of `error.errors` -/
  | validationError (details : List JsString)
  /-- any other error, with its message -/
  | otherError (message : JsString)

/-- What a `PUT /me` request reads from outside the user document. -/
structure PutMeEnv where
  body : JsVal
  /-- the casts and validators of the user schema on an update -/
  check : List (JsString × JsVal) → UpdateCheck
  /-- the value the schema stores for a path -/
  cast : JsString → JsVal → JsVal
  /-- the instant of the update, written to `updatedAt` by `timestamps` -/
  updatedAt : JsVal
  /-- message of the `TypeError` for a property read on a missing body -/
  nullReadText : JsString

/-- The responses of `PUT /me`. -/
inductive PutMeResult where
  /-- 200 `Profile updated successfully` with the updated user -/
  | ok (user : JsDoc)
  /-- 404 `User not found` -/
  | notFound
  /-- 400 `Validation failed` -/
  | validationFailed (details : List JsString)
  /-- 500 with the error's message -/
  | serverError (error : JsString)

/-- The handler `PUT /me`: the response and the caller's user document
afterwards (`none`: there is no such user). -/
def putMe (env : PutMeEnv) (user : Option JsDoc) : PutMeResult × Option JsDoc :=
  match buildUpdates env.body with
  | none => (.serverError env.nullReadText, user)
  | some updates =>
    match env.check updates with
    | .validationError details => (.validationFailed details, user)
    | .otherError message => (.serverError message, user)
    | .accepted =>
      match user with
      | none => (.notFound, none)
      | some doc =>
        let updated := setPath (applySet env.cast doc updates) (utf16 "updatedAt") env.updatedAt
        (.ok updated, some updated)

/-! ## `src/routes/users.js`: career inspiration and skill comparison -/

/-- Lines 419-428: the recommendations text and the analysis text after the
length check. -/
def truncateRecommendations (recommendationsString analysisText : JsString) :
    JsString × JsString :=
  if recommendationsString.length > 2000 then
    (recommendationsString.take 2000 ++ utf16 "... [truncated]",
     analysisText ++ utf16 " (Note: Recommendations truncated due to length)")
  else (recommendationsString, analysisText)

/-- The body posted to the inspiration service. -/
structure InspirationRequest where
  current_user : User
  inspiration_user : User
deriving DecidableEq

/-- What a career-inspiration request reads from outside the recommendation
collection. -/
structure InspirationEnv where
  /-- `req.user._id` -/
  userId : JsString
  /-- whether `req.params.userId` is an object id; the lookup raises otherwise -/
  validTargetId : Bool
  /-- the result of `User.findById(req.params.userId)` -/
  targetUser : Option User
  /-- the result of `User.findById(req.user._id)` -/
  currentUser : Option User
  newId : JsString
  savedAt : Nat
  /-- the outcome of the call to the inspiration service: `response.data` -/
  crewAI : InspirationRequest → Except JsError JsVal
  /-- `JSON.stringify`; `none` is its result `undefined` -/
  jsonStringify : JsVal → Option JsString
  /-- the text the runtime gives a value that is not a text when it is
  concatenated to one -/
  toText : JsVal → JsString
  /-- `new Date().toISOString()` -/
  timestamp : JsString

/-- The responses of `POST /:userId/get-inspiration`. -/
inductive InspirationResult where
  /-- 404 `User not found` -/
  | userNotFound
  /-- 200 -/
  | ok (inspiration_analysis : JsVal) (name : JsString) (role : JsString)
      (department : JsString) (recommendation_id : JsString) (timestamp : JsString)
  /-- 500 `Career inspiration service temporarily unavailable` -/
  | unavailable

def InspirationResult.status : InspirationResult → Nat
  | .userNotFound => 404
  | .ok _ _ _ _ _ _ => 200
  | .unavailable => 500

/-- The text of a value in a concatenation. -/
def concatText (toText : JsVal → JsString) : JsVal → JsString
  | .str s => s
  | v => toText v

/-- Lines 414-439: the statements that follow a successful call, up to the
`save()`; `none` when one of them raises.  The constructor is given the text
`recommendationsString` under the key `recommendations`, which in
`recommendationSchema` is a nested path of five arrays: a text assigned to a
nested path is dropped under the schema's strict mode, so the document keeps
none of it and its five arrays are empty. -/
def storeInspiration (env : InspirationEnv) (target : User) (store : RecStore) (data : JsVal) :
    Option (Recommendation × RecStore) :=
  if data.isNullish then none
  else
    let recommendationsData := data.field (utf16 "recommendations")
    let analysisResult := data.field (utf16 "analysis_result")
    let analysisText :=
      (if analysisResult.isNullish then JsVal.undefined
       else analysisResult.field (utf16 "analysis_text")).orElse
        (.str (utf16 "Career inspiration from " ++ target.name))
    let stringified :=
      match recommendationsData with
      | .str s => some s
      | v => env.jsonStringify v
    match stringified with
    | none => none
    | some recommendationsString =>
      let truncated :=
        truncateRecommendations recommendationsString (concatText env.toText analysisText)
      let analysisText1 : JsVal :=
        if recommendationsString.length > 2000 then .str truncated.2 else analysisText
      let doc : RecDoc :=
        { _id := env.newId, user_id := env.userId,
          recommendation_type := utf16 "career_inspiration",
          recommendations :=
            some { profile_optimization := [], networking := [], content_strategy := [],
                   skill_development := [], career_roadmap := [] },
          analysis_text := castString analysisText1,
          ai_provider := utf16 "Open AI",
          profile_url := some none, analysis_date := none, user_role := none,
          user_department := none, profile_score := none, total_recommendations := none,
          completed_at := some none, crew_ai_user_id := some none,
          recommendation_status := utf16 "completed", status := none, createdAt := none }
      match validateRec env.savedAt doc with
      | none => none
      | some r =>
        if store.any (fun x => x._id == r._id) then none
        else
          some ({ r with source_user_id := some target._id },
            store ++ [{ r with source_user_id := some target._id }])

/-- The handler `POST /:userId/get-inspiration` (submit of a peerInspiration
job): the response, the collection afterwards and the requests sent to the
inspiration service.  Every raise ends in the one `catch` block. -/
def getInspiration (env : InspirationEnv) (store : RecStore) :
    InspirationResult × RecStore × List InspirationRequest :=
  if !env.validTargetId then (.unavailable, store, [])
  else
    match env.targetUser with
    | none => (.userNotFound, store, [])
    | some target =>
      match env.currentUser with
      | none => (.unavailable, store, [])
      | some current =>
        let request : InspirationRequest :=
          { current_user := current, inspiration_user := target }
        match env.crewAI request with
        | .error _ => (.unavailable, store, [request])
        | .ok data =>
          match storeInspiration env target store data with
          | none => (.unavailable, store, [request])
          | some (r, store1) =>
            (.ok data target.name target.role target.department r._id env.timestamp, store1,
              [request])

/-- Lines 943-945 of `POST /compare-skills`: the text handed to `JSON.parse`.
`content` is `response.data?.choices?.[0]?.message?.content`; a truthy value
that is not a text has no method `match` and raises (`none`). -/
def compareSkillsSpan (content : JsVal) : Option JsString :=
  match content.orElse (.str (utf16 "\x7b\x7d")) with
  | .str aiText => some ((jsonMatch aiText).getD aiText)
  | _ => none

/-- The handler's local object `recommendations` as a value. -/
def RawBuckets.toJsVal (r : RawBuckets) : JsVal :=
  .obj [ (utf16 "profile_optimization", .arr r.profile_optimization),
         (utf16 "networking", .arr r.networking),
         (utf16 "content_strategy", .arr r.content_strategy),
         (utf16 "skill_development", .arr r.skill_development),
         (utf16 "career_roadmap", .arr r.career_roadmap) ]

/-! ## Predicates of the statements -/

/-- Every stored date occurs once. -/
def DatesUnique (store : BannerStore) : Prop := (store.map (·.date)).Nodup

/-- The content object `v` gives the store a title, a description and a body
that are non-empty texts within the schema's limits. -/
def ContentAccepted (v : JsVal) : Prop :=
  ∃ title description content : JsString,
    v.getProp (utf16 "title") = some (.str title) ∧ title ≠ [] ∧ title.length ≤ 200 ∧
    v.getProp (utf16 "description") = some (.str description) ∧ description ≠ [] ∧
      description.length ≤ 500 ∧
    v.getProp (utf16 "content") = some (.str content) ∧ content ≠ [] ∧ content.length ≤ 2000

/-- What holds of a request in flight for date `d` on the store `store`: it is a
request for `d` whose build gives a banner that passes validation and whose
object id is new as long as no record of date `d` is stored; a success response
already sent is the response of an active banner of date `d` held by the store,
and an error response already sent is the handler's fixed text, sent while a
record of date `d` was stored. -/
def CallOk (d : Nat) (store : BannerStore) : Call → Prop
  | .lookup env =>
    env.today = d ∧
    (∃ input doc, buildBanner env = .ok input ∧
      validateBanner env.newId env.tomorrow env.savedAt input = some doc) ∧
    ((∀ b ∈ store, b.date ≠ d) → ∀ b ∈ store, b._id ≠ env.newId)
  | .saving env input =>
    input.date = d ∧
    (∃ doc, validateBanner env.newId env.tomorrow env.savedAt input = some doc) ∧
    ((∀ b ∈ store, b.date ≠ d) → ∀ b ∈ store, b._id ≠ env.newId)
  | .done (.ok r) =>
    ∃ b ∈ store, b.date = d ∧ b.status = utf16 "active" ∧ r = bannerResponse b
  | .done (.serverError e) =>
    e = utf16 "Failed to get today's banner" ∧ ∃ b ∈ store, b.date = d

/-- What holds of the system while requests for date `d` run on a store that
began as `store0`: every date is stored once, a record of date `d` is active,
the store is `store0` followed by records of date `d`, every request is as
`CallOk` says, and once a record of date `d` is stored some request has been
answered with success or has its lookup still ahead. -/
def SysOk (d : Nat) (store0 : BannerStore) (s : Sys) : Prop :=
  DatesUnique s.store ∧
  (∀ b ∈ s.store, b.date = d → b.status = utf16 "active") ∧
  (∃ extra, s.store = store0 ++ extra ∧ ∀ b ∈ extra, b.date = d) ∧
  (∀ c ∈ s.calls, CallOk d s.store c) ∧
  ((∃ b ∈ s.store, b.date = d) →
    ∃ c ∈ s.calls, (∃ r, c = .done (.ok r)) ∨ ∃ env, c = .lookup env)

/-- An item the count and the store both accept: a falsy value (`null`,
`false`, `0`, the empty text) or a text. -/
def TextOrFalsy (v : JsVal) : Prop := v.truthy = false ∨ ∃ s, v = .str s

/-! ## Sample data -/

/-- An environment in which every outbound call raises and no image-search
credential is configured. -/
def offlineEnv (today : Nat) (id : JsString) : BannerEnv :=
  { today := today, generatedAt := today + 1, tomorrow := today + 86400000, savedAt := today + 2,
    newId := id, unsplashKey := none, topics := none, content := fun _ => none,
    jsonParse := fun _ => none, search := fun _ => .failed, fetch := fun _ => none }

/-- A stored banner of day `0` whose lifecycle status is `expired`. -/
def expiredBanner : Banner :=
  { _id := utf16 "65f0a1b2c3d4e5f6a7b8c9d0", date := 0, title := utf16 "Old",
    description := utf16 "Old", content := utf16 "Old", hot_topic := utf16 "Old",
    image_url := utf16 "http://old", image_binary := [1],
    image_content_type := utf16 "image/jpeg",
    meta := { source := utf16 "Perplexity AI", generated_at := 0, topic_category := none,
              engagement_score := 0 },
    status := utf16 "expired", expires_at := 86400000, createdAt := 0, updatedAt := 0 }

/-- The environment of a request whose content call answers the text `{}`,
which the JSON reader parses to the empty object. -/
def emptyObjectEnv : BannerEnv :=
  { offlineEnv 0 (utf16 "65f0a1b2c3d4e5f6a7b8c9d1") with
    content := fun _ => some (utf16 "\x7b\x7d")
    jsonParse := fun s => if s = utf16 "\x7b\x7d" then some (.obj []) else none }


/-- The text answered by the content call of `onlineEnv`: a sentence followed
by a JSON object. -/
def sampleContentText : JsString :=
  utf16 ("Here you go: \x7b\"title\": \"AI at work\", \"description\": \"Learn it\", " ++
    "\"content\": \"Use AI tools.\", \"image_search_term\": \"office\"\x7d")

/-- The object the JSON reader gives for the span of `sampleContentText`. -/
def sampleContentObject : JsVal :=
  .obj [ (utf16 "title", .str (utf16 "AI at work")),
         (utf16 "description", .str (utf16 "Learn it")),
         (utf16 "content", .str (utf16 "Use AI tools.")),
         (utf16 "image_search_term", .str (utf16 "office")) ]

/-- An environment in which every outbound call succeeds. -/
def onlineEnv : BannerEnv :=
  { today := 0, generatedAt := 1, tomorrow := 86400000, savedAt := 2,
    newId := utf16 "65f0a1b2c3d4e5f6a7b8c9d1", unsplashKey := some (utf16 "key"),
    topics := some (utf16 "AI agents"),
    content := fun _ => some sampleContentText,
    jsonParse := fun s =>
      if s = sampleContentText.drop 13 then some sampleContentObject else none,
    search := fun _ => .found (.str (utf16 "https://images.unsplash.com/photo-1")),
    fetch := fun _ => some { data := [255, 216, 255], contentType := some (utf16 "image/png") } }

/-- A user with a LinkedIn profile reference. -/
def sampleUser : User :=
  { _id := utf16 "65f0a1b2c3d4e5f6a7b8c9e0", name := utf16 "Jane", role := utf16 "Engineer",
    department := utf16 "Platform", bio := none, skills := [utf16 "Go"],
    experience_level := utf16 "Mid",
    linkedinProfile := some (utf16 "https://linkedin.com/in/jane") }

/-- A profile-analysis request of `sampleUser` whose gateway call has the given
outcome. -/
def analysisEnv (user : Option User) (outcome : Except JsError JsVal) : AnalysisEnv :=
  { userId := utf16 "65f0a1b2c3d4e5f6a7b8c9e0", user := user,
    newId := utf16 "65f0a1b2c3d4e5f6a7b8c9e1", analysisDate := 1000, createdAt := 1001,
    completedAt := 2000, failedAt := 2001, crewAI := fun _ => outcome,
    nullReadText := utf16 "Cannot read properties of null",
    notCallableText := utf16 "rec.trim is not a function",
    validationText := utf16 "Recommendation validation failed",
    duplicateKeyText := utf16 "E11000 duplicate key error", development := false,
    timestamp := utf16 "1970-01-01T00:00:02.000Z" }

/-- A result of the analysis service. -/
def sampleAnalysis : JsVal :=
  .obj [ (utf16 "profile_optimization", .arr [.str (utf16 "Add a headline")]),
         (utf16 "networking", .str (utf16 "Join two groups")),
         (utf16 "analysis_result", .str (utf16 "A solid profile.")) ]

/-- The error of a call that timed out: no response is attached. -/
def timeoutError : JsError :=
  { name := utf16 "AxiosError", message := utf16 "timeout of 60000ms exceeded", response := none }

/-- The error of a call answered with status 400. -/
def badRequestError : JsError :=
  { name := utf16 "AxiosError", message := utf16 "Request failed with status code 400",
    response := some { status := 400,
                       data := .obj [(utf16 "detail", .str (utf16 "Invalid LinkedIn URL"))] } }

/-- A result of the analysis service whose `networking` is the empty text and
whose `content_strategy` is the number zero. -/
def falsyScalarAnalysis : JsVal :=
  .obj [ (utf16 "profile_optimization", .arr [.str (utf16 "Add a headline")]),
         (utf16 "networking", .str []),
         (utf16 "content_strategy", .num 0) ]

/-- A result of the analysis service with a number among the items of a
bucket. -/
def numberItemAnalysis : JsVal :=
  .obj [ (utf16 "profile_optimization", .arr [.str (utf16 "Add a headline"), .num 5]) ]

/-- A JSON object in text. -/
def balancedObjectText : JsString := utf16 "\x7b\"title\": \"T\"\x7d"

/-- The same object followed by a sentence that has braces of its own. -/
def trailingBraceText : JsString := balancedObjectText ++ utf16 " and \x7bmore\x7d"

/-- A JSON reader on the two sample texts: it parses `balancedObjectText` and
rejects every other text, among them `trailingBraceText`, which is not JSON. -/
def sampleParse (s : JsString) : Option JsVal :=
  if s = balancedObjectText then some (.obj [(utf16 "title", .str (utf16 "T"))]) else none

/-- An environment whose topic call succeeds and whose content call raises. -/
def contentDownEnv : BannerEnv := { onlineEnv with content := fun _ => none }

/-- A hexadecimal digit. -/
def isHexDigit (c : Nat) : Bool :=
  (48 ≤ c && c ≤ 57) || (97 ≤ c && c ≤ 102) || (65 ≤ c && c ≤ 70)

/-- A hexadecimal digit in lower case. -/
def toLowerHex (c : Nat) : Nat := if 65 ≤ c ∧ c ≤ 70 then c + 32 else c

/-- The cast of a text of 24 hexadecimal digits to an object id, whose text
has the digits in lower case; on the other texts used below (none of them 12 or
24 characters long) every driver raises. -/
def hexObjectId (s : JsString) : Option JsString :=
  if s.length == 24 && s.all isHexDigit then some (s.map toLowerHex) else none

/-- A banner with every path of `b` but the binary payload, which is `bytes`. -/
def withBinary (bytes : Banner → List Nat) (b : Banner) : Banner :=
  { b with image_binary := bytes b }

/-- A request body of `PUT /me` that also names paths outside the allowed
ones. -/
def sampleBody : JsVal :=
  .obj [ (utf16 "bio", .str (utf16 "Hello")), (utf16 "password", .str (utf16 "hunter2")),
         (utf16 "role", .str (utf16 "admin")), (utf16 "avatar", .null) ]

/-- A career-inspiration request of `sampleUser` about a peer, whose gateway
call has the given outcome. -/
def inspirationEnv (outcome : Except JsError JsVal) : InspirationEnv :=
  { userId := utf16 "65f0a1b2c3d4e5f6a7b8c9e0", validTargetId := true,
    targetUser := some { sampleUser with _id := utf16 "65f0a1b2c3d4e5f6a7b8c9e5",
                                         name := utf16 "Omar" },
    currentUser := some sampleUser, newId := utf16 "65f0a1b2c3d4e5f6a7b8c9e6", savedAt := 3000,
    crewAI := fun _ => outcome, jsonStringify := fun _ => some (utf16 "null"),
    toText := fun _ => utf16 "[object Object]",
    timestamp := utf16 "1970-01-01T00:00:03.000Z" }

/-- An answer of the inspiration service whose recommendations are one short
text. -/
def learnGoAnswer : JsVal := .obj [(utf16 "recommendations", .str (utf16 "Learn Go"))]

/-! # Theorems -/

/-! ## Lemmas on the banner collection -/

theorem buildBanner_date {env : BannerEnv} {input : BannerInput}
    (h : buildBanner env = .ok input) : input.date = env.today := by
  unfold buildBanner at h
  simp only [] at h
  split at h
  · injection h with h
    rw [← h]
  · cases h

theorem validateBanner_some {id : JsString} {expires savedAt : Nat} {i : BannerInput}
    {doc : Banner} (h : validateBanner id expires savedAt i = some doc) :
    doc._id = id ∧ doc.date = i.date ∧ doc.status = utf16 "active" ∧
      requiredText (some 200) i.title = some doc.title ∧
      requiredText (some 500) i.description = some doc.description ∧
      requiredText (some 2000) i.content = some doc.content ∧
      requiredText none (.str i.hot_topic) = some doc.hot_topic ∧
      requiredText none i.image_url = some doc.image_url ∧
      requiredText none (.str i.image_content_type) = some doc.image_content_type ∧
      doc.image_binary = i.image_binary ∧ i.image_binary ≠ [] := by
  unfold validateBanner at h
  split at h
  · rename_i h1 h2 h3 h4 h5 h6
    split at h
    · cases h
    · rename_i hb
      injection h with h
      subst h
      refine ⟨rfl, rfl, rfl, h1, h2, h3, h4, h5, h6, rfl, ?_⟩
      intro hnil
      apply hb
      simp [hnil]
  · cases h

theorem requiredText_some {m : Option Nat} {v : JsVal} {s : JsString}
    (h : requiredText m v = some s) :
    castString v = some (some s) ∧ s ≠ [] ∧ ∀ n, m = some n → s.length ≤ n := by
  unfold requiredText at h
  split at h
  · rename_i t hc
    split at h
    · cases h
    · rename_i hne
      have hne' : t ≠ [] := by
        intro ht
        apply hne
        simp [ht]
      split at h
      · rename_i n
        split at h
        · injection h with h
          subst h
          exact ⟨hc, hne', fun k hk => by cases hk; assumption⟩
        · cases h
      · injection h with h
        subst h
        exact ⟨hc, hne', fun k hk => by cases hk⟩
  · cases h

theorem requiredText_str {m : Nat} {s : JsString} (hne : s ≠ []) (hlen : s.length ≤ m) :
    requiredText (some m) (.str s) = some s := by
  cases s with
  | nil => exact absurd rfl hne
  | cons a t =>
    have h : t.length + 1 ≤ m := by simpa using hlen
    simp [requiredText, castString, h]

theorem requiredText_str_none {s : JsString} (hne : s ≠ []) :
    requiredText none (.str s) = some s := by
  cases s with
  | nil => exact absurd rfl hne
  | cons a t => simp [requiredText, castString]


theorem findActiveBanner_some {store : BannerStore} {d : Nat} {b : Banner}
    (h : findActiveBanner store d = some b) :
    b ∈ store ∧ b.date = d ∧ b.status = utf16 "active" := by
  unfold findActiveBanner at h
  have hmem := List.mem_of_find?_eq_some h
  have hp := List.find?_some h
  simp only [Bool.and_eq_true, beq_iff_eq] at hp
  exact ⟨hmem, hp.1, hp.2⟩

theorem insertBanner_ok {store store1 : BannerStore} {doc : Banner}
    (h : insertBanner store doc = .ok store1) :
    store1 = store ++ [doc] ∧ (∀ b ∈ store, b.date ≠ doc.date) ∧ ∀ b ∈ store, b._id ≠ doc._id := by
  unfold insertBanner at h
  split at h
  · cases h
  · rename_i hany
    injection h with h
    refine ⟨h.symm, ?_, ?_⟩
    · intro b hb hd
      apply hany
      simp only [List.any_eq_true, Bool.or_eq_true, beq_iff_eq]
      exact ⟨b, hb, Or.inl hd⟩
    · intro b hb hd
      apply hany
      simp only [List.any_eq_true, Bool.or_eq_true, beq_iff_eq]
      exact ⟨b, hb, Or.inr hd⟩

theorem insertBanner_fresh {store : BannerStore} {doc : Banner}
    (hd : ∀ b ∈ store, b.date ≠ doc.date) (hi : ∀ b ∈ store, b._id ≠ doc._id) :
    insertBanner store doc = .ok (store ++ [doc]) := by
  unfold insertBanner
  rw [if_neg]
  simp only [List.any_eq_true, Bool.or_eq_true, beq_iff_eq, not_exists, not_and, not_or]
  exact fun b hb => ⟨hd b hb, hi b hb⟩

theorem insertBanner_dup {store : BannerStore} {doc b : Banner} (hb : b ∈ store)
    (hd : b.date = doc.date) : insertBanner store doc = .error .duplicateKey := by
  unfold insertBanner
  rw [if_pos]
  simp only [List.any_eq_true, Bool.or_eq_true, beq_iff_eq]
  exact ⟨b, hb, Or.inl hd⟩

theorem saveBanner_ok {store store1 : BannerStore} {id : JsString} {e s : Nat} {i : BannerInput}
    {doc : Banner} (h : saveBanner store id e s i = .ok (doc, store1)) :
    validateBanner id e s i = some doc ∧ insertBanner store doc = .ok store1 := by
  unfold saveBanner at h
  split at h
  · cases h
  · rename_i d hv
    split at h
    · cases h
    · rename_i st hi
      injection h with h
      injection h with h1 h2
      subst h1 h2
      exact ⟨hv, hi⟩

theorem saveBanner_dup {store : BannerStore} (id : JsString) (e s : Nat) {i : BannerInput}
    {b : Banner} (hb : b ∈ store) (hd : b.date = i.date) :
    ∃ err, saveBanner store id e s i = .error err := by
  unfold saveBanner
  split
  · exact ⟨_, rfl⟩
  · rename_i doc hv
    rw [insertBanner_dup hb (hd.trans (validateBanner_some hv).2.1.symm)]
    exact ⟨_, rfl⟩

/-! ## getOrCreate and regenerate -/

set_option maxRecDepth 100000

/-- C1, as stated, fails: with an expired record stored for today's date the
lookup for an active banner misses, the save of the built banner is rejected
by the unique index on `date`, and `GET /today` answers 500 with
`success: false` instead of re-reading the stored record.  The same happens to
a request whose lookup ran on the empty store and whose save runs after another
request has inserted its active banner for the date. -/
theorem getToday_duplicate_key_surfaces :
    findActiveBanner [expiredBanner] 0 = none ∧
    getTodayBody (offlineEnv 0 (utf16 "65f0a1b2c3d4e5f6a7b8c9d1")) [expiredBanner]
      = .error (.save .duplicateKey) ∧
    getToday (offlineEnv 0 (utf16 "65f0a1b2c3d4e5f6a7b8c9d1")) [expiredBanner]
      = (.serverError (utf16 "Failed to get today's banner"), [expiredBanner]) ∧
    (getToday (offlineEnv 0 (utf16 "65f0a1b2c3d4e5f6a7b8c9d1")) [expiredBanner]).1.success
      = false ∧
    findActiveBanner [] 0 = none ∧
    (findActiveBanner (getToday (offlineEnv 0 (utf16 "65f0a1b2c3d4e5f6a7b8c9d1")) []).2 0).map
        (fun b => b._id) = some (utf16 "65f0a1b2c3d4e5f6a7b8c9d1") ∧
    ((Call.lookup (offlineEnv 0 (utf16 "65f0a1b2c3d4e5f6a7b8c9d2"))).step []).1.step
        (getToday (offlineEnv 0 (utf16 "65f0a1b2c3d4e5f6a7b8c9d1")) []).2
      = (.done (.serverError (utf16 "Failed to get today's banner")),
         (getToday (offlineEnv 0 (utf16 "65f0a1b2c3d4e5f6a7b8c9d1")) []).2) := by
  refine ⟨by decide, by rfl, by rfl, by rfl, by decide, by rfl, by rfl⟩

theorem call_step_lookup (env : BannerEnv) (store : BannerStore) :
    (Call.lookup env).step store =
      match findActiveBanner store env.today with
      | some b => (.done (.ok (bannerResponse b)), store)
      | none =>
        match buildBanner env with
        | .error _ => (.done (.serverError (utf16 "Failed to get today's banner")), store)
        | .ok input => (.saving env input, store) := rfl

theorem call_step_saving (env : BannerEnv) (input : BannerInput) (store : BannerStore) :
    (Call.saving env input).step store =
      match saveBanner store env.newId env.tomorrow env.savedAt input with
      | .error _ => (.done (.serverError (utf16 "Failed to get today's banner")), store)
      | .ok (doc, store1) => (.done (.ok (bannerResponse doc)), store1) := rfl

theorem step_saving_date_taken (env : BannerEnv) (input : BannerInput) (store : BannerStore)
    (b : Banner) (hb : b ∈ store) (hdate : b.date = input.date) :
    (Call.saving env input).step store
      = (.done (.serverError (utf16 "Failed to get today's banner")), store) := by
  obtain ⟨err, herr⟩ := saveBanner_dup env.newId env.tomorrow env.savedAt hb hdate
  simp only [Call.step, herr]

/-- C1 (amended): a `GET /today` request whose lookup for an active banner
misses on the store `store` and whose save then runs on the store `later`, in
which some record `b`, active or not, has today's date (stored before the
lookup with a non-active status, or inserted by another request after the
lookup), is answered 500 `Failed to get today's banner` with `success: false`;
the built banner is discarded, `later` is left as it is and the stored record
is not re-read.  When no other request comes in between (`later = store`) this
is the handler run in one piece. -/
theorem getToday_date_taken_server_error (env : BannerEnv) (store later : BannerStore)
    (b : Banner) (hmiss : findActiveBanner store env.today = none) (hb : b ∈ later)
    (hdate : b.date = env.today) :
    (∀ input, buildBanner env = .ok input →
      (Call.lookup env).step store = (.saving env input, store) ∧
      (Call.saving env input).step later
        = (.done (.serverError (utf16 "Failed to get today's banner")), later)) ∧
    (∀ e, buildBanner env = .error e →
      (Call.lookup env).step store
        = (.done (.serverError (utf16 "Failed to get today's banner")), store)) ∧
    (later = store →
      getToday env store = (.serverError (utf16 "Failed to get today's banner"), store) ∧
      (getToday env store).1.success = false ∧ (getToday env store).1.status = 500) := by
  refine ⟨?_, ?_, ?_⟩
  · intro input hbuild
    refine ⟨?_, ?_⟩
    · rw [call_step_lookup, hmiss]
      simp only [hbuild]
    · exact step_saving_date_taken env input later b hb
        (hdate.trans (buildBanner_date hbuild).symm)
  · intro e hbuild
    rw [call_step_lookup, hmiss]
    simp only [hbuild]
  · intro heq
    rw [heq] at hb
    have h : getToday env store
        = (.serverError (utf16 "Failed to get today's banner"), store) := by
      unfold getToday getTodayBody
      rw [hmiss]
      cases hbuild : buildBanner env with
      | error e => rfl
      | ok input =>
        obtain ⟨err, herr⟩ := saveBanner_dup env.newId env.tomorrow env.savedAt
          hb (hdate.trans (buildBanner_date hbuild).symm)
        simp only [herr]
    rw [h]
    exact ⟨rfl, rfl, rfl⟩

theorem getToday_date_taken_server_error_witness :
    findActiveBanner [] 0 = none ∧
    (getToday (offlineEnv 0 (utf16 "65f0a1b2c3d4e5f6a7b8c9d1")) []).2.map
        (fun b => (b._id, b.date, b.status))
      = [(utf16 "65f0a1b2c3d4e5f6a7b8c9d1", 0, utf16 "active")] ∧
    (∀ input, buildBanner (offlineEnv 0 (utf16 "65f0a1b2c3d4e5f6a7b8c9d2")) = .ok input →
      (Call.lookup (offlineEnv 0 (utf16 "65f0a1b2c3d4e5f6a7b8c9d2"))).step []
        = (.saving (offlineEnv 0 (utf16 "65f0a1b2c3d4e5f6a7b8c9d2")) input, []) ∧
      (Call.saving (offlineEnv 0 (utf16 "65f0a1b2c3d4e5f6a7b8c9d2")) input).step
          (getToday (offlineEnv 0 (utf16 "65f0a1b2c3d4e5f6a7b8c9d1")) []).2
        = (.done (.serverError (utf16 "Failed to get today's banner")),
           (getToday (offlineEnv 0 (utf16 "65f0a1b2c3d4e5f6a7b8c9d1")) []).2)) ∧
    (∃ input, buildBanner (offlineEnv 0 (utf16 "65f0a1b2c3d4e5f6a7b8c9d2")) = .ok input) :=
  ⟨by decide, by rfl,
   (getToday_date_taken_server_error (offlineEnv 0 (utf16 "65f0a1b2c3d4e5f6a7b8c9d2")) []
      (getToday (offlineEnv 0 (utf16 "65f0a1b2c3d4e5f6a7b8c9d1")) []).2
      (((getToday (offlineEnv 0 (utf16 "65f0a1b2c3d4e5f6a7b8c9d1")) []).2).head (by decide))
      (by decide) (by decide) (by decide)).1,
   ⟨_, rfl⟩⟩

theorem fallbackContent_accepted (hotTopic : JsString) (h : hotTopic.length ≤ 1775) :
    ContentAccepted (fallbackContent hotTopic) := by
  refine ⟨fallbackTitle, fallbackDescription, fallbackBodyHead ++ hotTopic ++ fallbackBodyTail,
    rfl, by decide, by decide, rfl, by decide, by decide, rfl, ?_, ?_⟩
  · intro hnil
    have := congrArg List.length hnil
    simp only [List.length_append, List.length_nil] at this
    have h62 : fallbackBodyHead.length = 62 := by decide
    omega
  · have h62 : fallbackBodyHead.length = 62 := by decide
    have h163 : fallbackBodyTail.length = 163 := by decide
    simp only [List.length_append, h62, h163]
    omega

theorem getProp_some_not_nullish {v w : JsVal} {key : JsString}
    (h : v.getProp key = some w) : v.isNullish = false ∧ w = v.field key := by
  unfold JsVal.getProp at h
  split at h
  · cases h
  · rename_i hn
    injection h with h
    exact ⟨by simpa using hn, h.symm⟩

theorem getProp_of_not_nullish {v : JsVal} (key : JsString) (h : v.isNullish = false) :
    v.getProp key = some (v.field key) := by
  unfold JsVal.getProp
  simp [h]

theorem buildBanner_ok_of_not_nullish (env : BannerEnv)
    (h : (generateBannerContent env.jsonParse (getCurrentHotTopics env.topics)
      (env.content (getCurrentHotTopics env.topics))).isNullish = false) :
    buildBanner env = .ok
      { date := env.today
        title := (generateBannerContent env.jsonParse (getCurrentHotTopics env.topics)
          (env.content (getCurrentHotTopics env.topics))).field (utf16 "title")
        description := (generateBannerContent env.jsonParse (getCurrentHotTopics env.topics)
          (env.content (getCurrentHotTopics env.topics))).field (utf16 "description")
        content := (generateBannerContent env.jsonParse (getCurrentHotTopics env.topics)
          (env.content (getCurrentHotTopics env.topics))).field (utf16 "content")
        hot_topic := (getCurrentHotTopics env.topics).take 200
        image_url := getProfessionalImageUrl env.unsplashKey env.search
          ((generateBannerContent env.jsonParse (getCurrentHotTopics env.topics)
            (env.content (getCurrentHotTopics env.topics))).field (utf16 "image_search_term"))
        image_binary := (fetchAndStoreImage env.fetch
          (getProfessionalImageUrl env.unsplashKey env.search
            ((generateBannerContent env.jsonParse (getCurrentHotTopics env.topics)
              (env.content (getCurrentHotTopics env.topics))).field
                (utf16 "image_search_term")))).binary
        image_content_type := (fetchAndStoreImage env.fetch
          (getProfessionalImageUrl env.unsplashKey env.search
            ((generateBannerContent env.jsonParse (getCurrentHotTopics env.topics)
              (env.content (getCurrentHotTopics env.topics))).field
                (utf16 "image_search_term")))).contentType
        source := utf16 "Perplexity AI + Unsplash"
        topic_category := utf16 "Professional Development"
        generated_at := env.generatedAt } := by
  unfold buildBanner
  simp only [getProp_of_not_nullish _ h]

theorem getProfessionalImageUrl_text (accessKey : Option JsString) (search : JsVal → SearchOutcome)
    (term : JsVal)
    (h : ∀ regular, search term = .found regular → ∃ url, regular = .str url ∧ url ≠ []) :
    ∃ url, getProfessionalImageUrl accessKey search term = .str url ∧ url ≠ [] := by
  have hp : placeholderUrl ≠ [] := by decide
  unfold getProfessionalImageUrl
  cases accessKey with
  | none => exact ⟨_, rfl, hp⟩
  | some key =>
    by_cases hk : key.isEmpty
    · simp only [hk, if_true]
      exact ⟨_, rfl, hp⟩
    · simp only [hk]
      cases hs : search term with
      | failed => exact ⟨_, rfl, hp⟩
      | noResults => exact ⟨_, rfl, hp⟩
      | found regular =>
        obtain ⟨url, hu, hne⟩ := h regular hs
        exact ⟨url, by simp [hu], hne⟩

theorem fetchAndStoreImage_nonempty (fetch : JsVal → Option FetchResponse) (imageUrl : JsVal)
    (h : ∀ r, fetch imageUrl = some r → r.data ≠ []) :
    (fetchAndStoreImage fetch imageUrl).binary ≠ [] ∧
      (fetchAndStoreImage fetch imageUrl).contentType ≠ [] := by
  unfold fetchAndStoreImage
  cases hf : fetch imageUrl with
  | none => exact ⟨by decide, by decide⟩
  | some r =>
    refine ⟨h r hf, ?_⟩
    show (match r.contentType with
      | some ct => if ct.isEmpty then utf16 "image/jpeg" else ct
      | none => utf16 "image/jpeg") ≠ []
    have hj : utf16 "image/jpeg" ≠ [] := by decide
    cases r.contentType with
    | none => exact hj
    | some ct =>
      by_cases he : ct.isEmpty
      · simp only [he, if_true]
        exact hj
      · have he1 : ct.isEmpty = false := by simpa using he
        intro hnil
        have hct : ct = [] := by simpa [he1] using hnil
        rw [hct] at he1
        cases he1

theorem findActiveBanner_none_of_no_date {store : BannerStore} {d : Nat}
    (h : ∀ b ∈ store, b.date ≠ d) : findActiveBanner store d = none := by
  unfold findActiveBanner
  rw [List.find?_eq_none]
  intro b hb
  simp [h b hb]

theorem getCurrentHotTopics_ne_nil (resp : Option JsString) (h : ∀ t, resp = some t → t ≠ []) :
    getCurrentHotTopics resp ≠ [] := by
  cases resp with
  | none => show fallbackTopics ≠ []; decide
  | some t => exact h t rfl

theorem generateBannerContent_cases (jsonParse : JsString → Option JsVal) (hotTopic : JsString)
    (resp : Option JsString) :
    generateBannerContent jsonParse hotTopic resp = fallbackContent hotTopic ∨
    ∃ text span v, resp = some text ∧ jsonMatch text = some span ∧ jsonParse span = some v ∧
      generateBannerContent jsonParse hotTopic resp = v := by
  cases resp with
  | none => exact Or.inl rfl
  | some text =>
    cases hm : jsonMatch text with
    | none => exact Or.inl (by simp [generateBannerContent, hm])
    | some span =>
      cases hp : jsonParse span with
      | none => exact Or.inl (by simp [generateBannerContent, hm, hp])
      | some v =>
        exact Or.inr ⟨text, span, v, rfl, hm, hp, by simp [generateBannerContent, hm, hp]⟩

/-- C2, as stated, fails: the content call answers `{}`, a JSON object without
title, description and content; the built banner fails the schema's `required`
checks, `save()` raises, and `GET /today` answers 500 with `success: false`,
storing nothing. -/
theorem getToday_malformed_content_fails :
    findActiveBanner [] emptyObjectEnv.today = none ∧
    (generateBannerContent emptyObjectEnv.jsonParse (getCurrentHotTopics emptyObjectEnv.topics)
      (emptyObjectEnv.content (getCurrentHotTopics emptyObjectEnv.topics))).getProp (utf16 "title")
      = some .undefined ∧
    getTodayBody emptyObjectEnv [] = .error (.save .validation) ∧
    getToday emptyObjectEnv [] = (.serverError (utf16 "Failed to get today's banner"), []) ∧
    (getToday emptyObjectEnv []).1.success = false := by
  refine ⟨by rfl, by rfl, by rfl, by rfl, by rfl⟩

/-- C2 (amended): on a cache miss with no record stored for today's date, if
every stage either fails or delivers a value the store accepts (a non-empty
topic text, short enough for the fallback body when the content stage fails; a
content object whose title, description and content are non-empty texts of at
most 200, 500 and 2000 code units; a non-empty image locator; a non-empty image
body), `GET /today` answers with `success: true` and persists a banner that
meets the schema's field requirements.  No failure of a stage is a request
failure. -/
theorem getToday_miss_succeeds_of_accepted_values (env : BannerEnv) (store : BannerStore)
    (hfree : ∀ b ∈ store, b.date ≠ env.today ∧ b._id ≠ env.newId)
    (hA : ∀ t, env.topics = some t → t ≠ [])
    (hAB : ∀ t, env.topics = some t →
      generateBannerContent env.jsonParse t (env.content t) = fallbackContent t → t.length ≤ 1775)
    (hB : ∀ text span v, env.content (getCurrentHotTopics env.topics) = some text →
      jsonMatch text = some span → env.jsonParse span = some v → ContentAccepted v)
    (hC : ∀ term regular, env.search term = .found regular →
      ∃ url, regular = .str url ∧ url ≠ [])
    (hD : ∀ url r, env.fetch url = some r → r.data ≠ []) :
    ∃ doc : Banner,
      getToday env store = (.ok (bannerResponse doc), store ++ [doc]) ∧
      (getToday env store).1.success = true ∧
      doc.date = env.today ∧ doc.status = utf16 "active" ∧
      doc.title ≠ [] ∧ doc.title.length ≤ 200 ∧
      doc.description ≠ [] ∧ doc.description.length ≤ 500 ∧
      doc.content ≠ [] ∧ doc.content.length ≤ 2000 ∧
      doc.hot_topic ≠ [] ∧ doc.image_url ≠ [] ∧ doc.image_binary ≠ [] ∧
      doc.image_content_type ≠ [] := by
  have hhot : getCurrentHotTopics env.topics ≠ [] := getCurrentHotTopics_ne_nil _ hA
  have hlen : generateBannerContent env.jsonParse (getCurrentHotTopics env.topics)
      (env.content (getCurrentHotTopics env.topics)) = fallbackContent (getCurrentHotTopics env.topics) →
      (getCurrentHotTopics env.topics).length ≤ 1775 := by
    cases ht : env.topics with
    | none =>
      intro _
      show fallbackTopics.length ≤ 1775
      decide
    | some t => exact hAB t ht
  have hacc : ContentAccepted (generateBannerContent env.jsonParse (getCurrentHotTopics env.topics)
      (env.content (getCurrentHotTopics env.topics))) := by
    rcases generateBannerContent_cases env.jsonParse (getCurrentHotTopics env.topics)
      (env.content (getCurrentHotTopics env.topics)) with hfb | ⟨text, span, v, h1, h2, h3, h4⟩
    · rw [hfb]
      exact fallbackContent_accepted _ (hlen hfb)
    · rw [h4]
      exact hB text span v h1 h2 h3
  have hbuild := buildBanner_ok_of_not_nullish env
  generalize generateBannerContent env.jsonParse (getCurrentHotTopics env.topics)
      (env.content (getCurrentHotTopics env.topics)) = v at hacc hbuild
  obtain ⟨title, description, content, ht, htne, htlen, hd, hdne, hdlen, hc, hcne, hclen⟩ := hacc
  have hnn := (getProp_some_not_nullish ht).1
  have hbuild := hbuild hnn
  obtain ⟨url, hurl, hurlne⟩ := getProfessionalImageUrl_text env.unsplashKey env.search
    (v.field (utf16 "image_search_term")) (hC _)
  obtain ⟨hbin, hctype⟩ := fetchAndStoreImage_nonempty env.fetch
    (getProfessionalImageUrl env.unsplashKey env.search (v.field (utf16 "image_search_term")))
    (hD _)
  rw [hurl] at hbuild hbin hctype
  generalize fetchAndStoreImage env.fetch (.str url) = img at hbuild hbin hctype
  have htake : (getCurrentHotTopics env.topics).take 200 ≠ [] := by
    cases hh : getCurrentHotTopics env.topics with
    | nil => exact absurd hh hhot
    | cons a t => simp
  have hbinE : img.binary.isEmpty = false := by
    cases hb : img.binary with
    | nil => exact absurd hb hbin
    | cons a t => rfl
  have hval : validateBanner env.newId env.tomorrow env.savedAt
      { date := env.today, title := v.field (utf16 "title"),
        description := v.field (utf16 "description"), content := v.field (utf16 "content"),
        hot_topic := (getCurrentHotTopics env.topics).take 200, image_url := .str url,
        image_binary := img.binary, image_content_type := img.contentType,
        source := utf16 "Perplexity AI + Unsplash",
        topic_category := utf16 "Professional Development",
        generated_at := env.generatedAt } = some
      { _id := env.newId, date := env.today, title := title, description := description,
        content := content, hot_topic := (getCurrentHotTopics env.topics).take 200,
        image_url := url, image_binary := img.binary, image_content_type := img.contentType,
        meta := { source := utf16 "Perplexity AI + Unsplash", generated_at := env.generatedAt,
                  topic_category := some (utf16 "Professional Development"),
                  engagement_score := 0 },
        status := utf16 "active", expires_at := env.tomorrow,
        createdAt := env.savedAt, updatedAt := env.savedAt } := by
    unfold validateBanner
    simp only [← (getProp_some_not_nullish ht).2, ← (getProp_some_not_nullish hd).2,
      ← (getProp_some_not_nullish hc).2, requiredText_str htne htlen,
      requiredText_str hdne hdlen, requiredText_str hcne hclen, requiredText_str_none htake,
      requiredText_str_none hurlne, requiredText_str_none hctype, hbinE]
    rfl
  refine ⟨Banner.mk env.newId env.today title description content
      ((getCurrentHotTopics env.topics).take 200) url img.binary img.contentType
      (BannerMeta.mk (utf16 "Perplexity AI + Unsplash") env.generatedAt
        (some (utf16 "Professional Development")) 0)
      (utf16 "active") env.tomorrow env.savedAt env.savedAt,
    ?_, ?_, rfl, rfl, htne, htlen, hdne, hdlen, hcne, hclen, htake, hurlne, hbin, hctype⟩
  · unfold getToday getTodayBody
    rw [findActiveBanner_none_of_no_date (fun b hb => (hfree b hb).1), hbuild]
    simp only [saveBanner, hval]
    rw [insertBanner_fresh (fun b hb => (hfree b hb).1) (fun b hb => (hfree b hb).2)]
  · unfold getToday getTodayBody
    rw [findActiveBanner_none_of_no_date (fun b hb => (hfree b hb).1), hbuild]
    simp only [saveBanner, hval]
    rw [insertBanner_fresh (fun b hb => (hfree b hb).1) (fun b hb => (hfree b hb).2)]
    rfl

theorem sampleContentObject_accepted : ContentAccepted sampleContentObject :=
  ⟨utf16 "AI at work", utf16 "Learn it", utf16 "Use AI tools.", rfl, by decide, by decide,
    rfl, by decide, by decide, rfl, by decide, by decide⟩

theorem getToday_miss_succeeds_of_accepted_values_witness :
    ∃ doc : Banner,
      getToday onlineEnv [] = (.ok (bannerResponse doc), [] ++ [doc]) ∧
      (getToday onlineEnv []).1.success = true ∧
      doc.date = onlineEnv.today ∧ doc.status = utf16 "active" ∧
      doc.title ≠ [] ∧ doc.title.length ≤ 200 ∧
      doc.description ≠ [] ∧ doc.description.length ≤ 500 ∧
      doc.content ≠ [] ∧ doc.content.length ≤ 2000 ∧
      doc.hot_topic ≠ [] ∧ doc.image_url ≠ [] ∧ doc.image_binary ≠ [] ∧
      doc.image_content_type ≠ [] :=
  getToday_miss_succeeds_of_accepted_values onlineEnv []
    (by simp)
    (fun t h => by
      have ht : t = utf16 "AI agents" := (Option.some.inj h).symm
      rw [ht]
      decide)
    (fun t h _ => by
      have ht : t = utf16 "AI agents" := (Option.some.inj h).symm
      rw [ht]
      decide)
    (fun text span v _ _ h3 => by
      have h : (if span = sampleContentText.drop 13 then some sampleContentObject else none)
          = some v := h3
      split at h
      · rw [← Option.some.inj h]
        exact sampleContentObject_accepted
      · cases h)
    (fun term regular h => by
      have hr : regular = .str (utf16 "https://images.unsplash.com/photo-1") := by
        have h1 : SearchOutcome.found (.str (utf16 "https://images.unsplash.com/photo-1"))
            = .found regular := h
        injection h1 with h1
        exact h1.symm
      exact ⟨_, hr, by decide⟩)
    (fun url r h => by
      have hr : r = { data := [255, 216, 255], contentType := some (utf16 "image/png") } :=
        (Option.some.inj h).symm
      rw [hr]
      decide)

theorem datesUnique_append {store : BannerStore} {doc : Banner} (h : DatesUnique store)
    (hd : ∀ b ∈ store, b.date ≠ doc.date) : DatesUnique (store ++ [doc]) := by
  unfold DatesUnique at *
  rw [List.map_append, List.nodup_append]
  refine ⟨h, by simp, ?_⟩
  intro d hd1 hd2
  simp only [List.map_cons, List.map_nil, List.mem_singleton] at hd2
  obtain ⟨b, hb, hbd⟩ := List.mem_map.1 hd1
  exact hd b hb (hbd.trans hd2)

theorem datesUnique_delete {store : BannerStore} (d : Nat) (h : DatesUnique store) :
    DatesUnique (deleteBannerByDate store d) := by
  unfold DatesUnique deleteBannerByDate at *
  exact h.sublist ((List.eraseP_sublist store).map _)

theorem getToday_store (env : BannerEnv) (store : BannerStore) :
    (getToday env store).2 = store ∨
    ∃ doc, (getToday env store).2 = store ++ [doc] ∧ ∀ b ∈ store, b.date ≠ doc.date := by
  unfold getToday getTodayBody
  cases findActiveBanner store env.today with
  | some b => exact Or.inl rfl
  | none =>
    dsimp only
    cases buildBanner env with
    | error e => exact Or.inl rfl
    | ok input =>
      dsimp only
      cases hs : saveBanner store env.newId env.tomorrow env.savedAt input with
      | error e => exact Or.inl rfl
      | ok r =>
        obtain ⟨doc, store1⟩ := r
        obtain ⟨_, hi⟩ := saveBanner_ok hs
        obtain ⟨h1, h2, _⟩ := insertBanner_ok hi
        exact Or.inr ⟨doc, h1, h2⟩

theorem postGenerate_store (env : BannerEnv) (store : BannerStore) :
    (postGenerate env store).2 = deleteBannerByDate store env.today ∨
    ∃ doc, (postGenerate env store).2 = deleteBannerByDate store env.today ++ [doc] ∧
      ∀ b ∈ deleteBannerByDate store env.today, b.date ≠ doc.date := by
  unfold postGenerate
  cases buildBanner env with
  | error e => exact Or.inl rfl
  | ok input =>
    dsimp only
    cases hs : saveBanner (deleteBannerByDate store env.today) env.newId env.tomorrow
        env.savedAt input with
    | error e => exact Or.inl rfl
    | ok r =>
      obtain ⟨doc, store1⟩ := r
      obtain ⟨_, hi⟩ := saveBanner_ok hs
      obtain ⟨h1, h2, _⟩ := insertBanner_ok hi
      exact Or.inr ⟨doc, h1, h2⟩

theorem datesUnique_run (op : BannerOp) {store : BannerStore} (h : DatesUnique store) :
    DatesUnique (op.run store) := by
  cases op with
  | getOrCreate env =>
    rcases getToday_store env store with h1 | ⟨doc, h1, h2⟩
    · show DatesUnique (getToday env store).2
      rw [h1]
      exact h
    · show DatesUnique (getToday env store).2
      rw [h1]
      exact datesUnique_append h h2
  | regenerate env =>
    rcases postGenerate_store env store with h1 | ⟨doc, h1, h2⟩
    · show DatesUnique (postGenerate env store).2
      rw [h1]
      exact datesUnique_delete _ h
    · show DatesUnique (postGenerate env store).2
      rw [h1]
      exact datesUnique_append (datesUnique_delete _ h) h2

theorem datesUnique_runOps (ops : List BannerOp) {store : BannerStore} (h : DatesUnique store) :
    DatesUnique (runOps ops store) := by
  unfold runOps
  induction ops generalizing store with
  | nil => exact h
  | cons op rest ih => exact ih (datesUnique_run op h)

theorem datesUnique_filter_le_one {store : BannerStore} (h : DatesUnique store) (d : Nat) :
    (store.filter fun b => b.date == d).length ≤ 1 := by
  unfold DatesUnique at h
  have hc := List.nodup_iff_count_le_one.1 h d
  rw [List.count_eq_countP, List.countP_map] at hc
  rw [← List.countP_eq_length_filter]
  refine le_trans (le_of_eq ?_) hc
  apply List.countP_congr
  intro b _
  exact Iff.rfl

/-- C3: from a store whose dates are unique, every store state reached by a
finite sequence of `GET /today` and `POST /generate` requests holds at most one
banner per date, hence at most one active banner per date. -/
theorem at_most_one_banner_per_date (ops : List BannerOp) (store : BannerStore)
    (h : DatesUnique store) (d : Nat) :
    DatesUnique (runOps ops store) ∧
    ((runOps ops store).filter fun b => b.date == d).length ≤ 1 ∧
    ((runOps ops store).filter fun b => b.date == d && b.status == utf16 "active").length ≤ 1 := by
  have hu := datesUnique_runOps ops h
  have h1 := datesUnique_filter_le_one hu d
  refine ⟨hu, h1, le_trans ?_ h1⟩
  rw [← List.countP_eq_length_filter, ← List.countP_eq_length_filter]
  apply List.countP_mono_left
  intro b _ hb
  simp only [Bool.and_eq_true] at hb
  exact hb.1

theorem at_most_one_banner_per_date_witness :
    DatesUnique (runOps [.getOrCreate (offlineEnv 0 (utf16 "65f0a1b2c3d4e5f6a7b8c9d1")),
        .regenerate (offlineEnv 0 (utf16 "65f0a1b2c3d4e5f6a7b8c9d2")),
        .getOrCreate (offlineEnv 0 (utf16 "65f0a1b2c3d4e5f6a7b8c9d3"))] [expiredBanner]) ∧
    ((runOps [.getOrCreate (offlineEnv 0 (utf16 "65f0a1b2c3d4e5f6a7b8c9d1")),
        .regenerate (offlineEnv 0 (utf16 "65f0a1b2c3d4e5f6a7b8c9d2")),
        .getOrCreate (offlineEnv 0 (utf16 "65f0a1b2c3d4e5f6a7b8c9d3"))] [expiredBanner]).filter
      fun b => b.date == 0).length ≤ 1 ∧
    ((runOps [.getOrCreate (offlineEnv 0 (utf16 "65f0a1b2c3d4e5f6a7b8c9d1")),
        .regenerate (offlineEnv 0 (utf16 "65f0a1b2c3d4e5f6a7b8c9d2")),
        .getOrCreate (offlineEnv 0 (utf16 "65f0a1b2c3d4e5f6a7b8c9d3"))] [expiredBanner]).filter
      fun b => b.date == 0 && b.status == utf16 "active").length ≤ 1 :=
  at_most_one_banner_per_date _ [expiredBanner] (by simp [DatesUnique]) 0

theorem findActiveBanner_append_new {store : BannerStore} {doc : Banner}
    (hmiss : findActiveBanner store doc.date = none) (hs : doc.status = utf16 "active") :
    findActiveBanner (store ++ [doc]) doc.date = some doc := by
  unfold findActiveBanner at *
  rw [List.find?_append, hmiss]
  simp [hs]

theorem getToday_of_body {env : BannerEnv} {store store1 : BannerStore} {b : Banner} {ran : Bool}
    (h : getTodayBody env store = .ok (b, store1, ran)) :
    getToday env store = (.ok (bannerResponse b), store1) := by
  unfold getToday
  rw [h]

/-- C4, as stated, fails: with an expired record stored for the date, the
first call answers 500 and persists nothing, and the second call again misses
the lookup, runs the builder and answers 500: neither call returns an
identifier. -/
theorem getToday_twice_may_rebuild :
    (getToday (offlineEnv 0 (utf16 "65f0a1b2c3d4e5f6a7b8c9d1")) [expiredBanner]).1
      = .serverError (utf16 "Failed to get today's banner") ∧
    findActiveBanner (getToday (offlineEnv 0 (utf16 "65f0a1b2c3d4e5f6a7b8c9d1")) [expiredBanner]).2 0
      = none ∧
    getTodayBody (offlineEnv 0 (utf16 "65f0a1b2c3d4e5f6a7b8c9d2"))
        (getToday (offlineEnv 0 (utf16 "65f0a1b2c3d4e5f6a7b8c9d1")) [expiredBanner]).2
      = .error (.save .duplicateKey) ∧
    (getToday (offlineEnv 0 (utf16 "65f0a1b2c3d4e5f6a7b8c9d2"))
        (getToday (offlineEnv 0 (utf16 "65f0a1b2c3d4e5f6a7b8c9d1")) [expiredBanner]).2).1
      = .serverError (utf16 "Failed to get today's banner") := by
  refine ⟨by rfl, by rfl, by rfl, by rfl⟩

/-- C4 (amended): if a `GET /today` call answers with `success: true`, a second
call for the same date on the resulting store, with no other write in between,
finds the record the first call answered with, does not run the builder, leaves
the store unchanged and returns the same response, in particular the same
identifier. -/
theorem getToday_twice_same_banner (env1 env2 : BannerEnv) (store : BannerStore)
    (r1 : BannerResponse) (hday : env2.today = env1.today)
    (h1 : (getToday env1 store).1 = .ok r1) :
    ∃ b, getTodayBody env2 (getToday env1 store).2 = .ok (b, (getToday env1 store).2, false) ∧
      bannerResponse b = r1 ∧ b._id = r1.id ∧
      getToday env2 (getToday env1 store).2 = (.ok r1, (getToday env1 store).2) := by
  have key : ∃ b, findActiveBanner (getToday env1 store).2 env1.today = some b ∧
      bannerResponse b = r1 := by
    unfold getToday getTodayBody at h1 ⊢
    cases hf : findActiveBanner store env1.today with
    | some b =>
      rw [hf] at h1
      dsimp only at h1 ⊢
      injection h1 with h1
      exact ⟨b, hf, h1⟩
    | none =>
      rw [hf] at h1
      dsimp only at h1 ⊢
      cases hb : buildBanner env1 with
      | error e =>
        rw [hb] at h1
        cases h1
      | ok input =>
        rw [hb] at h1
        dsimp only at h1 ⊢
        cases hs : saveBanner store env1.newId env1.tomorrow env1.savedAt input with
        | error e =>
          rw [hs] at h1
          cases h1
        | ok r =>
          obtain ⟨doc, store1⟩ := r
          rw [hs] at h1
          dsimp only at h1 ⊢
          injection h1 with h1
          obtain ⟨hv, hi⟩ := saveBanner_ok hs
          obtain ⟨hst, _, _⟩ := insertBanner_ok hi
          obtain ⟨_, hd, hact, _⟩ := validateBanner_some hv
          have hdate : doc.date = env1.today := hd.trans (buildBanner_date hb)
          refine ⟨doc, ?_, h1⟩
          rw [hst, ← hdate]
          exact findActiveBanner_append_new (by rw [hdate]; exact hf) hact
  obtain ⟨b, hb, hr⟩ := key
  have hbody : getTodayBody env2 (getToday env1 store).2
      = .ok (b, (getToday env1 store).2, false) := by
    unfold getTodayBody
    rw [hday, hb]
  refine ⟨b, hbody, hr, ?_, ?_⟩
  · rw [← hr]
    rfl
  · rw [getToday_of_body hbody, hr]

theorem getToday_twice_same_banner_witness :
    ∃ r1, (getToday (offlineEnv 0 (utf16 "65f0a1b2c3d4e5f6a7b8c9d1")) []).1 = .ok r1 ∧
      ∃ b, getTodayBody (offlineEnv 0 (utf16 "65f0a1b2c3d4e5f6a7b8c9d2"))
          (getToday (offlineEnv 0 (utf16 "65f0a1b2c3d4e5f6a7b8c9d1")) []).2
          = .ok (b, (getToday (offlineEnv 0 (utf16 "65f0a1b2c3d4e5f6a7b8c9d1")) []).2, false) ∧
        bannerResponse b = r1 ∧ b._id = r1.id ∧
        getToday (offlineEnv 0 (utf16 "65f0a1b2c3d4e5f6a7b8c9d2"))
          (getToday (offlineEnv 0 (utf16 "65f0a1b2c3d4e5f6a7b8c9d1")) []).2
          = (.ok r1, (getToday (offlineEnv 0 (utf16 "65f0a1b2c3d4e5f6a7b8c9d1")) []).2) :=
  ⟨_, rfl, getToday_twice_same_banner (offlineEnv 0 (utf16 "65f0a1b2c3d4e5f6a7b8c9d1"))
    (offlineEnv 0 (utf16 "65f0a1b2c3d4e5f6a7b8c9d2")) [] _ rfl rfl⟩
/-! ## Concurrent getOrCreate -/

/-- A request resumed twice in a row, with no other request in between, is the
sequential handler. -/
theorem step_step_eq_getToday (env : BannerEnv) (store : BannerStore) :
    ((Call.lookup env).step store).1.step ((Call.lookup env).step store).2
      = (.done (getToday env store).1, (getToday env store).2) := by
  unfold getToday getTodayBody
  simp only [Call.step]
  cases findActiveBanner store env.today with
  | some b => rfl
  | none =>
    dsimp only
    cases buildBanner env with
    | error e => rfl
    | ok input =>
      dsimp only
      cases saveBanner store env.newId env.tomorrow env.savedAt input with
      | error e => rfl
      | ok r => rfl

/-- C5, as stated, fails: two requests for day `0` arrive at an empty store,
both lookups miss, both build; the first save succeeds, the second is rejected
by the unique index and that caller is answered 500, carrying no banner. -/
theorem concurrent_getToday_loser_gets_500 :
    (Sys.run [0, 1, 0, 1]
      (Sys.start [offlineEnv 0 (utf16 "65f0a1b2c3d4e5f6a7b8c9d1"),
                  offlineEnv 0 (utf16 "65f0a1b2c3d4e5f6a7b8c9d2")] [])).response 1
      = some (.serverError (utf16 "Failed to get today's banner")) ∧
    ((Sys.run [0, 1, 0, 1]
      (Sys.start [offlineEnv 0 (utf16 "65f0a1b2c3d4e5f6a7b8c9d1"),
                  offlineEnv 0 (utf16 "65f0a1b2c3d4e5f6a7b8c9d2")] [])).response 0).map
        TodayResult.success = some true ∧
    (Sys.run [0, 1, 0, 1]
      (Sys.start [offlineEnv 0 (utf16 "65f0a1b2c3d4e5f6a7b8c9d1"),
                  offlineEnv 0 (utf16 "65f0a1b2c3d4e5f6a7b8c9d2")] [])).store.length = 1 := by
  refine ⟨by rfl, by rfl, by rfl⟩

theorem datesUnique_eq_of_date {store : BannerStore} (hu : DatesUnique store) {a b : Banner}
    (ha : a ∈ store) (hb : b ∈ store) (h : a.date = b.date) : a = b :=
  List.inj_on_of_nodup_map hu ha hb h

theorem datesUnique_filter_eq {store : BannerStore} (hu : DatesUnique store) {b : Banner}
    (hb : b ∈ store) : (store.filter fun x => x.date == b.date) = [b] := by
  have hmem : b ∈ store.filter fun x => x.date == b.date := by
    rw [List.mem_filter]
    exact ⟨hb, by simp⟩
  have hlen := datesUnique_filter_le_one hu b.date
  cases hf : store.filter (fun x => x.date == b.date) with
  | nil =>
    rw [hf] at hmem
    cases hmem
  | cons x t =>
    rw [hf] at hmem hlen
    cases t with
    | nil =>
      rw [List.mem_singleton] at hmem
      rw [hmem]
    | cons y t1 =>
      simp only [List.length_cons] at hlen
      omega

theorem findActiveBanner_of_mem {store : BannerStore} {d : Nat} {b : Banner} (hb : b ∈ store)
    (hd : b.date = d) (ha : b.status = utf16 "active") :
    ∃ b1, findActiveBanner store d = some b1 := by
  cases hf : findActiveBanner store d with
  | some b1 => exact ⟨b1, rfl⟩
  | none =>
    unfold findActiveBanner at hf
    have := List.find?_eq_none.1 hf b hb
    simp [hd, ha] at this

theorem callOk_append {d : Nat} {store : BannerStore} {doc : Banner} (hdoc : doc.date = d)
    {c : Call} (h : CallOk d store c) : CallOk d (store ++ [doc]) c := by
  have hno : ¬ ∀ b ∈ store ++ [doc], b.date ≠ d := fun hall =>
    hall doc (by simp) hdoc
  cases c with
  | lookup env => exact ⟨h.1, h.2.1, fun hall => absurd hall hno⟩
  | saving env input => exact ⟨h.1, h.2.1, fun hall => absurd hall hno⟩
  | done r =>
    cases r with
    | ok r =>
      obtain ⟨b, hb, hrest⟩ := h
      exact ⟨b, List.mem_append_left _ hb, hrest⟩
    | serverError e =>
      obtain ⟨he, b, hb, hbd⟩ := h
      exact ⟨he, b, List.mem_append_left _ hb, hbd⟩

/-- One step of a request that is as `CallOk` says: the store stays, or it
gains the request's banner, of date `d` and active, while no record of date `d`
was stored, and the request is answered with success. -/
theorem call_step_spec {d : Nat} {store : BannerStore} {c : Call}
    (hact : ∀ b ∈ store, b.date = d → b.status = utf16 "active") (h : CallOk d store c) :
    CallOk d (c.step store).2 (c.step store).1 ∧
    ((c.step store).2 = store ∨
      ∃ doc, (c.step store).2 = store ++ [doc] ∧ doc.date = d ∧ doc.status = utf16 "active" ∧
        (∀ b ∈ store, b.date ≠ d) ∧ (c.step store).1 = .done (.ok (bannerResponse doc))) ∧
    ((∃ env, c = .lookup env) → (∃ b ∈ store, b.date = d) →
      ∃ r, (c.step store).1 = .done (.ok r)) ∧
    ((∃ r, c = .done r) → (c.step store).1 = c) := by
  cases c with
  | lookup env =>
    obtain ⟨hd, ⟨input, doc, hbuild, hval⟩, hid⟩ := h
    have hnotdone : (∃ r, Call.lookup env = .done r) →
        ((Call.lookup env).step store).1 = .lookup env := by
      rintro ⟨r, hr⟩
      cases hr
    cases hf : findActiveBanner store env.today with
    | some b =>
      obtain ⟨hb, hbd, hba⟩ := findActiveBanner_some hf
      have hstep : (Call.lookup env).step store = (.done (.ok (bannerResponse b)), store) := by
        rw [call_step_lookup, hf]
      rw [hstep] at hnotdone ⊢
      exact ⟨⟨b, hb, hbd.trans hd, hba, rfl⟩, Or.inl rfl, fun _ _ => ⟨_, rfl⟩, hnotdone⟩
    | none =>
      have hstep : (Call.lookup env).step store = (.saving env input, store) := by
        rw [call_step_lookup, hf]
        simp only [hbuild]
      rw [hstep] at hnotdone ⊢
      refine ⟨⟨(buildBanner_date hbuild).trans hd, ⟨doc, hval⟩, hid⟩, Or.inl rfl, ?_, hnotdone⟩
      rintro _ ⟨b, hb, hbd⟩
      obtain ⟨b1, hb1⟩ := findActiveBanner_of_mem hb (hbd.trans hd.symm)
        (hact b hb hbd)
      rw [hf] at hb1
      cases hb1
  | saving env input =>
    obtain ⟨hd, ⟨doc, hval⟩, hid⟩ := h
    have hnotlookup : (∃ e, Call.saving env input = .lookup e) → (∃ b ∈ store, b.date = d) →
        ∃ r, ((Call.saving env input).step store).1 = .done (.ok r) := by
      rintro ⟨e, he⟩
      cases he
    have hnotdone : (∃ r, Call.saving env input = .done r) →
        ((Call.saving env input).step store).1 = .saving env input := by
      rintro ⟨r, hr⟩
      cases hr
    by_cases hex : ∃ b ∈ store, b.date = d
    · obtain ⟨b, hb, hbd⟩ := hex
      have hstep := step_saving_date_taken env input store b hb (hbd.trans hd.symm)
      rw [hstep] at hnotlookup hnotdone ⊢
      exact ⟨⟨rfl, b, hb, hbd⟩, Or.inl rfl, hnotlookup, hnotdone⟩
    · have hno : ∀ b ∈ store, b.date ≠ d := fun b hb hbd => hex ⟨b, hb, hbd⟩
      obtain ⟨hdid, hddate, hdact, _⟩ := validateBanner_some hval
      have hins : insertBanner store doc = .ok (store ++ [doc]) :=
        insertBanner_fresh (fun b hb => by rw [hddate, hd]; exact hno b hb)
          (fun b hb => by rw [hdid]; exact hid hno b hb)
      have hsave : saveBanner store env.newId env.tomorrow env.savedAt input
          = .ok (doc, store ++ [doc]) := by
        unfold saveBanner
        simp only [hval, hins]
      have hstep : (Call.saving env input).step store
          = (.done (.ok (bannerResponse doc)), store ++ [doc]) := by
        rw [call_step_saving, hsave]
      rw [hstep] at hnotlookup hnotdone ⊢
      exact ⟨⟨doc, by simp, hddate.trans hd, hdact, rfl⟩,
        Or.inr ⟨doc, rfl, hddate.trans hd, hdact, hno, rfl⟩, hnotlookup, hnotdone⟩
  | done r =>
    refine ⟨h, Or.inl rfl, ?_, fun _ => rfl⟩
    rintro ⟨e, he⟩
    cases he

theorem mem_set_of_mem_of_ne {α : Type} {l : List α} {i : Nat} {c c0 c1 : α}
    (hg : l.get? i = some c) (h0 : c0 ∈ l) (hne : c0 ≠ c) : c0 ∈ l.set i c1 := by
  rw [List.get?_eq_getElem?] at hg
  obtain ⟨n, hn⟩ := List.mem_iff_getElem?.1 h0
  have hni : i ≠ n := by
    intro heq
    rw [heq, hn] at hg
    exact hne (Option.some.inj hg)
  exact List.mem_iff_getElem?.2 ⟨n, by rw [List.getElem?_set_ne hni]; exact hn⟩

theorem mem_set_self {α : Type} {l : List α} {i : Nat} {c : α} (c1 : α)
    (hg : l.get? i = some c) : c1 ∈ l.set i c1 := by
  have hlt : i < l.length := by
    rw [List.get?_eq_some] at hg
    exact hg.1
  exact List.mem_set l i hlt c1

theorem sys_step_inv {d : Nat} {store0 : BannerStore} {s : Sys} (i : Nat)
    (h : SysOk d store0 s) : SysOk d store0 (s.step i) := by
  obtain ⟨hu, hact, ⟨extra, hextra, hextrad⟩, hc, hj⟩ := h
  unfold Sys.step
  cases hg : s.calls.get? i with
  | none => exact ⟨hu, hact, ⟨extra, hextra, hextrad⟩, hc, hj⟩
  | some c =>
    have hmem : c ∈ s.calls := List.get?_mem hg
    obtain ⟨hok, hstore, hlook, hdone⟩ := call_step_spec hact (hc c hmem)
    dsimp only
    rcases hstore with hsame | ⟨doc, hnew, hdd, hdact, hno, hresp⟩
    · rw [hsame]
      rw [hsame] at hok
      refine ⟨hu, hact, ⟨extra, hextra, hextrad⟩, ?_, ?_⟩
      · intro c1 hc1
        rcases List.mem_or_eq_of_mem_set hc1 with hin | heq
        · exact hc c1 hin
        · rw [heq]
          exact hok
      · intro hex
        obtain ⟨c0, hc0, hc0ok⟩ := hj hex
        by_cases hcc : c0 = c
        · rcases hc0ok with ⟨r, hr⟩ | ⟨env, henv⟩
          · have hkeep := hdone ⟨.ok r, by rw [← hcc, hr]⟩
            refine ⟨(c.step s.store).1, mem_set_self _ hg, Or.inl ⟨r, ?_⟩⟩
            rw [hkeep, ← hcc, hr]
          · obtain ⟨r, hr⟩ := hlook ⟨env, by rw [← hcc, henv]⟩ hex
            exact ⟨(c.step s.store).1, mem_set_self _ hg, Or.inl ⟨r, hr⟩⟩
        · exact ⟨c0, mem_set_of_mem_of_ne hg hc0 hcc, hc0ok⟩
    · rw [hnew]
      rw [hnew] at hok
      refine ⟨datesUnique_append hu (fun b hb => by rw [hdd]; exact hno b hb), ?_,
        ⟨extra ++ [doc], by rw [hextra, List.append_assoc], ?_⟩, ?_, ?_⟩
      · intro b hb hbd
        rcases List.mem_append.1 hb with hb | hb
        · exact hact b hb hbd
        · rw [List.mem_singleton] at hb
          rw [hb]
          exact hdact
      · intro b hb
        rcases List.mem_append.1 hb with hb | hb
        · exact hextrad b hb
        · rw [List.mem_singleton] at hb
          rw [hb]
          exact hdd
      · intro c1 hc1
        rcases List.mem_or_eq_of_mem_set hc1 with hin | heq
        · exact callOk_append hdd (hc c1 hin)
        · rw [heq]
          exact hok
      · intro _
        exact ⟨(c.step s.store).1, mem_set_self _ hg, Or.inl ⟨_, hresp⟩⟩

theorem sys_run_inv {d : Nat} {store0 : BannerStore} (schedule : List Nat) {s : Sys}
    (h : SysOk d store0 s) : SysOk d store0 (s.run schedule) := by
  unfold Sys.run
  induction schedule generalizing s with
  | nil => exact h
  | cons i rest ih => exact ih (sys_step_inv i h)

theorem sys_step_length (s : Sys) (i : Nat) : (s.step i).calls.length = s.calls.length := by
  unfold Sys.step
  cases s.calls.get? i with
  | none => rfl
  | some c => exact List.length_set _ _ _

theorem sys_run_length (schedule : List Nat) (s : Sys) :
    (s.run schedule).calls.length = s.calls.length := by
  unfold Sys.run
  induction schedule generalizing s with
  | nil => rfl
  | cons i rest ih =>
    rw [List.foldl_cons, ih, sys_step_length]

theorem sys_response_some {s : Sys} {i : Nat} {r : TodayResult} (h : s.response i = some r) :
    s.calls.get? i = some (.done r) := by
  unfold Sys.response at h
  split at h
  · rename_i r0 hg
    injection h with h
    rw [hg, h]
  · cases h

theorem sys_response_of_get {s : Sys} {i : Nat} {r : TodayResult}
    (h : s.calls.get? i = some (.done r)) : s.response i = some r := by
  unfold Sys.response
  rw [h]

theorem sys_start_ok (d : Nat) (envs : List BannerEnv) (store : BannerStore) (hn : envs ≠ [])
    (hd : ∀ env ∈ envs, env.today = d)
    (hbuild : ∀ env ∈ envs, ∃ input doc, buildBanner env = .ok input ∧
      validateBanner env.newId env.tomorrow env.savedAt input = some doc)
    (hfresh : ∀ env ∈ envs, ∀ b ∈ store, b._id ≠ env.newId) (hu : DatesUnique store)
    (hactive : ∀ b ∈ store, b.date = d → b.status = utf16 "active") :
    SysOk d store (Sys.start envs store) := by
  refine ⟨hu, hactive, ⟨[], by simp [Sys.start], by simp⟩, ?_, ?_⟩
  · intro c hc
    obtain ⟨env, he, hce⟩ := List.mem_map.1 hc
    rw [← hce]
    exact ⟨hd env he, hbuild env he, fun _ => hfresh env he⟩
  · intro _
    cases envs with
    | nil => exact absurd rfl hn
    | cons env rest =>
      exact ⟨.lookup env, by simp [Sys.start], Or.inr ⟨env, rfl⟩⟩

/-- C5 (amended): N ≥ 1 requests `GET /today` for the same date `d` run
concurrently, in any interleaving of their store operations, on a store that
holds at most one record per date and no record of date `d` that is not active;
each request's build gives a banner that passes validation, and no stored
record has the object id of a request.  Once every request is answered, the
store holds exactly one record of date `d`, it is active, and the records of
the other dates are the ones held before; at least one caller is answered with
success; every caller answered with success carries the identifier of that one
record (and the image path built from it); every other caller is answered 500
`Failed to get today's banner`.  Every request is answered after at most two of
its own steps, whatever the other requests do, and a request whose save finds a
record of its date stored, the one that lost the insert race, is answered 500
and leaves the store as it is. -/
theorem concurrent_getToday_consistent (d : Nat) (envs : List BannerEnv) (store : BannerStore)
    (schedule : List Nat) (hn : envs ≠ []) (hd : ∀ env ∈ envs, env.today = d)
    (hbuild : ∀ env ∈ envs, ∃ input doc, buildBanner env = .ok input ∧
      validateBanner env.newId env.tomorrow env.savedAt input = some doc)
    (hfresh : ∀ env ∈ envs, ∀ b ∈ store, b._id ≠ env.newId) (hu : DatesUnique store)
    (hactive : ∀ b ∈ store, b.date = d → b.status = utf16 "active")
    (hdone : ∀ i, i < envs.length →
      ∃ r, ((Sys.start envs store).run schedule).response i = some r) :
    (∃ b, (((Sys.start envs store).run schedule).store.filter fun x => x.date == d) = [b] ∧
      b.status = utf16 "active" ∧
      (∃ i r, ((Sys.start envs store).run schedule).response i = some (.ok r)) ∧
      (∀ i r, ((Sys.start envs store).run schedule).response i = some (.ok r) →
        r.id = b._id ∧ r.image_serve_url = utf16 "/api/banners/" ++ b._id ++ utf16 "/image")) ∧
    ((((Sys.start envs store).run schedule).store.filter fun x => x.date != d)
      = store.filter fun x => x.date != d) ∧
    (∀ i e, ((Sys.start envs store).run schedule).response i = some (.serverError e) →
      e = utf16 "Failed to get today's banner") ∧
    (∀ env store1 store2,
      ∃ r, (((Call.lookup env).step store1).1.step store2).1 = .done r) ∧
    (∀ env input later, (∃ x ∈ later, x.date = input.date) →
      (Call.saving env input).step later
        = (.done (.serverError (utf16 "Failed to get today's banner")), later)) := by
  have hinv : SysOk d store ((Sys.start envs store).run schedule) :=
    sys_run_inv schedule (sys_start_ok d envs store hn hd hbuild hfresh hu hactive)
  obtain ⟨hu1, hact1, ⟨extra, hextra, hextrad⟩, hc1, hj1⟩ := hinv
  have hlen : ((Sys.start envs store).run schedule).calls.length = envs.length := by
    rw [sys_run_length]
    simp [Sys.start]
  have hpos : 0 < envs.length := List.length_pos.2 hn
  have hall : ∀ c ∈ ((Sys.start envs store).run schedule).calls, ∃ r, c = .done r := by
    intro c hc
    obtain ⟨n, hget⟩ := List.mem_iff_get?.1 hc
    have hnlt : n < envs.length := by
      rw [← hlen]
      rw [List.get?_eq_some] at hget
      exact hget.1
    obtain ⟨r, hr⟩ := hdone n hnlt
    have := sys_response_some hr
    rw [hget] at this
    exact ⟨r, Option.some.inj this⟩
  have hex : ∃ b ∈ ((Sys.start envs store).run schedule).store, b.date = d := by
    obtain ⟨r, hr⟩ := hdone 0 hpos
    have hmem := List.get?_mem (sys_response_some hr)
    have hok := hc1 _ hmem
    cases r with
    | ok r =>
      obtain ⟨b, hb, hbd, _⟩ := hok
      exact ⟨b, hb, hbd⟩
    | serverError e => exact hok.2
  obtain ⟨b, hb, hbd⟩ := hex
  refine ⟨⟨b, ?_, hact1 b hb hbd, ?_, ?_⟩, ?_, ?_, ?_, ?_⟩
  · rw [← hbd]
    exact datesUnique_filter_eq hu1 hb
  · obtain ⟨c, hc, hcase⟩ := hj1 ⟨b, hb, hbd⟩
    rcases hcase with ⟨r, hr⟩ | ⟨env, henv⟩
    · obtain ⟨n, hget⟩ := List.mem_iff_get?.1 hc
      rw [hr] at hget
      exact ⟨n, r, sys_response_of_get hget⟩
    · obtain ⟨r, hr⟩ := hall c hc
      rw [henv] at hr
      cases hr
  · intro i r hr
    have hmem := List.get?_mem (sys_response_some hr)
    obtain ⟨b1, hb1, hb1d, _, hrb⟩ := hc1 _ hmem
    have heq : b1 = b := datesUnique_eq_of_date hu1 hb1 hb (hb1d.trans hbd.symm)
    rw [hrb, heq]
    exact ⟨rfl, rfl⟩
  · rw [hextra, List.filter_append]
    have hnil : (extra.filter fun x => x.date != d) = [] := by
      rw [List.filter_eq_nil_iff]
      intro x hx
      simp [hextrad x hx]
    rw [hnil, List.append_nil]
  · intro i e he
    have hmem := List.get?_mem (sys_response_some he)
    exact (hc1 _ hmem).1
  · intro env store1 store2
    rw [call_step_lookup]
    cases findActiveBanner store1 env.today with
    | some b0 => exact ⟨_, rfl⟩
    | none =>
      dsimp only
      cases buildBanner env with
      | error e => exact ⟨_, rfl⟩
      | ok input =>
        dsimp only
        rw [call_step_saving]
        cases saveBanner store2 env.newId env.tomorrow env.savedAt input with
        | error e => exact ⟨_, rfl⟩
        | ok p => exact ⟨_, rfl⟩
  · rintro env input later ⟨x, hx, hxd⟩
    exact step_saving_date_taken env input later x hx hxd

theorem concurrent_getToday_consistent_witness :
    ((Sys.start [offlineEnv 0 (utf16 "65f0a1b2c3d4e5f6a7b8c9d1"),
        offlineEnv 0 (utf16 "65f0a1b2c3d4e5f6a7b8c9d2")] []).run [0, 1, 0, 1]).store.map
        (fun b => (b._id, b.date, b.status))
      = [(utf16 "65f0a1b2c3d4e5f6a7b8c9d1", 0, utf16 "active")] ∧
    (∃ b, (((Sys.start [offlineEnv 0 (utf16 "65f0a1b2c3d4e5f6a7b8c9d1"),
          offlineEnv 0 (utf16 "65f0a1b2c3d4e5f6a7b8c9d2")] []).run [0, 1, 0, 1]).store.filter
        fun x => x.date == 0) = [b] ∧
      b.status = utf16 "active" ∧
      (∃ i r, ((Sys.start [offlineEnv 0 (utf16 "65f0a1b2c3d4e5f6a7b8c9d1"),
          offlineEnv 0 (utf16 "65f0a1b2c3d4e5f6a7b8c9d2")] []).run [0, 1, 0, 1]).response i
        = some (.ok r)) ∧
      (∀ i r, ((Sys.start [offlineEnv 0 (utf16 "65f0a1b2c3d4e5f6a7b8c9d1"),
          offlineEnv 0 (utf16 "65f0a1b2c3d4e5f6a7b8c9d2")] []).run [0, 1, 0, 1]).response i
          = some (.ok r) →
        r.id = b._id ∧
        r.image_serve_url = utf16 "/api/banners/" ++ b._id ++ utf16 "/image")) :=
  ⟨by rfl,
   (concurrent_getToday_consistent 0
    [offlineEnv 0 (utf16 "65f0a1b2c3d4e5f6a7b8c9d1"), offlineEnv 0 (utf16 "65f0a1b2c3d4e5f6a7b8c9d2")]
    [] [0, 1, 0, 1] (by simp)
    (by intro env he; simp at he; rcases he with h | h <;> rw [h] <;> rfl)
    (by intro env he; simp at he; rcases he with h | h <;> rw [h] <;> exact ⟨_, _, rfl, rfl⟩)
    (by intro env _ b hb; cases hb)
    (by simp [DatesUnique]) (by intro b hb; cases hb)
    (by
      intro i hi
      have h2 : i < 2 := hi
      match i, h2 with
      | 0, _ => exact ⟨_, rfl⟩
      | 1, _ => exact ⟨_, rfl⟩)).1⟩

/-! ## The profile-analysis job -/

/-- C6 (code at the failing input): the gateway call succeeds and the handler
answers 200; the stored record has `recommendation_status = 'completed'` only
by the schema default, and the poll of the same caller reports no `status` and
`analysis: null`, because the handler writes `status`, which is not a path of
the schema. -/
theorem poll_after_success_reports_no_status :
    (analyzeLinkedin (analysisEnv (some sampleUser) (.ok sampleAnalysis)) []).1.status = 200 ∧
    (analyzeLinkedin (analysisEnv (some sampleUser) (.ok sampleAnalysis)) []).2.1.map
      (fun r => (r._id, r.recommendation_status))
      = [(utf16 "65f0a1b2c3d4e5f6a7b8c9e1", utf16 "completed")] ∧
    getAnalysisStatus hexObjectId (utf16 "65f0a1b2c3d4e5f6a7b8c9e0")
      (utf16 "65f0a1b2c3d4e5f6a7b8c9e1")
      (analyzeLinkedin (analysisEnv (some sampleUser) (.ok sampleAnalysis)) []).2.1
      = .ok none none 1001 2000 := by
  refine ⟨by rfl, by rfl, by rfl⟩

/-- C7 (code at the failing input): the gateway call times out and the handler
answers 500 with the fallback suggestions; its one write changes
`analysis_text` only, the stored `recommendation_status` stays `'completed'`
and is never `'failed'`, and the poll reports no `status`. -/
theorem gateway_error_leaves_status_completed :
    (analyzeLinkedin (analysisEnv (some sampleUser) (.error timeoutError)) []).1.status = 500 ∧
    (analyzeLinkedin (analysisEnv (some sampleUser) (.error timeoutError)) []).2.1.map
      (fun r => (r.recommendation_status, r.analysis_text))
      = [(utf16 "completed", some (utf16 "Analysis failed: timeout of 60000ms exceeded"))] ∧
    getAnalysisStatus hexObjectId (utf16 "65f0a1b2c3d4e5f6a7b8c9e0")
      (utf16 "65f0a1b2c3d4e5f6a7b8c9e1")
      (analyzeLinkedin (analysisEnv (some sampleUser) (.error timeoutError)) []).2.1
      = .ok none none 1001 2001 := by
  refine ⟨by rfl, by rfl, by rfl⟩

/-- C8 (code at the failing input): right after the handler saves its new
record, before the gateway call, the stored `recommendation_status` is the
schema default `'completed'`, not `'pending'`, and the document carries no
`status`. -/
theorem new_record_is_stored_completed :
    (match createAnalysisRecord (analysisEnv (some sampleUser) (.ok sampleAnalysis)) sampleUser
        (utf16 "https://linkedin.com/in/jane") [] with
      | .ok (doc, store) => some (doc.status, store.map fun r => r.recommendation_status)
      | .error _ => none)
      = some (none, [utf16 "completed"]) := by
  rfl

/-- C9: for a subject user whose `linkedinProfile` is absent or empty, the
submission is rejected with status 400 and `success: false`, the recommendation
collection is unchanged (no job record is created) and no request is sent to
the analysis service. -/
theorem analyze_without_profile_rejected (env : AnalysisEnv) (store : RecStore) (user : User)
    (hu : env.user = some user)
    (hp : user.linkedinProfile = none ∨ user.linkedinProfile = some []) :
    analyzeLinkedin env store = (.noProfile, store, []) ∧
    (analyzeLinkedin env store).1.status = 400 ∧
    (analyzeLinkedin env store).1.success = false ∧
    (analyzeLinkedin env store).1.errorText
      = some (utf16 "No LinkedIn profile found. Please add your LinkedIn profile first.") := by
  have h : analyzeLinkedin env store = (.noProfile, store, []) := by
    unfold analyzeLinkedin
    rw [hu]
    rcases hp with hp | hp
    · simp only [hp]
    · simp only [hp, List.isEmpty_nil, if_true]
  rw [h]
  exact ⟨rfl, rfl, rfl, rfl⟩

theorem analyze_without_profile_rejected_witness :
    analyzeLinkedin (analysisEnv (some { sampleUser with linkedinProfile := some [] })
        (.ok sampleAnalysis)) []
      = (.noProfile, [], []) ∧
    (analyzeLinkedin (analysisEnv (some { sampleUser with linkedinProfile := some [] })
        (.ok sampleAnalysis)) []).1.status = 400 ∧
    (analyzeLinkedin (analysisEnv (some { sampleUser with linkedinProfile := some [] })
        (.ok sampleAnalysis)) []).1.success = false ∧
    (analyzeLinkedin (analysisEnv (some { sampleUser with linkedinProfile := some [] })
        (.ok sampleAnalysis)) []).1.errorText
      = some (utf16 "No LinkedIn profile found. Please add your LinkedIn profile first.") :=
  analyze_without_profile_rejected _ [] { sampleUser with linkedinProfile := some [] } rfl
    (Or.inr rfl)

theorem validateRec_some {t : Nat} {d : RecDoc} {r : Recommendation}
    (h : validateRec t d = some r) :
    r._id = d._id ∧ r.user_id = d.user_id ∧ r.recommendation_type = d.recommendation_type ∧
      r.recommendation_status = d.recommendation_status ∧
      d.analysis_text = some r.analysis_text ∧ r.updatedAt = t := by
  unfold validateRec at h
  split at h
  · rename_i b text url ca ci h1 h2 h3 h4 h5
    split at h
    · injection h with h
      subst h
      exact ⟨rfl, rfl, rfl, rfl, h2, rfl⟩
    · cases h
  · cases h

theorem validateRec_ok (t : Nat) {d : RecDoc} {b : Buckets} {text url ca ci : Option JsString}
    (h1 : d.recommendations = some b) (h2 : d.analysis_text = some text)
    (h3 : d.profile_url = some url) (h4 : d.completed_at = some ca)
    (h5 : d.crew_ai_user_id = some ci) (hlen : (text.getD []).length ≤ 2000) :
    ∃ r, validateRec t d = some r := by
  unfold validateRec
  simp only [h1, h2, h3, h4, h5, hlen, if_true]
  exact ⟨_, rfl⟩

theorem createAnalysisRecord_fresh (env : AnalysisEnv) (user : User) (profile : JsString)
    (store : RecStore) (hfresh : ∀ r ∈ store, r._id ≠ env.newId) :
    ∃ r0 : Recommendation, r0._id = env.newId ∧
      createAnalysisRecord env user profile store
        = .ok ({ newAnalysisRecord env user profile with createdAt := some r0.createdAt },
            store ++ [r0]) := by
  have hlen : ((some (utf16 "LinkedIn analysis in progress...")).getD []).length ≤ 2000 := by
    decide
  obtain ⟨r0, hr0⟩ := validateRec_ok env.createdAt (d := newAnalysisRecord env user profile)
    rfl rfl rfl rfl rfl hlen
  have hid : r0._id = env.newId := (validateRec_some hr0).1
  have hany : (store.any fun x => x._id == r0._id) = false := by
    rw [List.any_eq_false]
    intro r hr
    rw [hid]
    simpa using hfresh r hr
  refine ⟨r0, hid, ?_⟩
  unfold createAnalysisRecord saveNewRec
  rw [hr0]
  simp only [hany, Bool.false_eq_true, if_false]

/-- C10, as stated, fails: when the gateway answers with status 400 the handler
returns a 400 response carrying the gateway's detail and no fallback
suggestions. -/
theorem gateway_400_has_no_fallback_suggestions :
    (analyzeLinkedin (analysisEnv (some sampleUser) (.error badRequestError)) []).1.status = 400 ∧
    (analyzeLinkedin (analysisEnv (some sampleUser) (.error badRequestError)) []).1.fallbackSuggestions
      = none ∧
    (analyzeLinkedin (analysisEnv (some sampleUser) (.error badRequestError)) []).2.1.map
      (fun r => r.analysis_text)
      = [some (utf16 "Analysis failed: Request failed with status code 400")] := by
  refine ⟨by rfl, by rfl, by rfl⟩

theorem failAnalysis_saved (env : AnalysisEnv) (doc : RecDoc) (store : RecStore) (e : JsError)
    {b : Buckets} {url ca ci : Option JsString}
    (h1 : doc.recommendations = some b) (h3 : doc.profile_url = some url)
    (h4 : doc.completed_at = some ca) (h5 : doc.crew_ai_user_id = some ci)
    (hlen : (utf16 "Analysis failed: " ++ e.message).length ≤ 2000) :
    ∃ r1 : Recommendation, r1._id = doc._id ∧
      r1.analysis_text = some (utf16 "Analysis failed: " ++ e.message) ∧
      r1.recommendation_status = doc.recommendation_status ∧
      failAnalysis env doc store e =
        (match e.response with
          | some response =>
            if response.status = 400 then
              match response.data.getProp (utf16 "detail") with
              | none => initFailed env env.nullReadText
              | some detail =>
                .invalidProfile (detail.orElse (.str (utf16 "Invalid LinkedIn profile format")))
                  doc._id
            else .unavailable doc._id fallbackSuggestions
          | none => .unavailable doc._id fallbackSuggestions,
         store.map fun x => if x._id == r1._id then r1 else x) := by
  obtain ⟨r1, hr1⟩ := validateRec_ok env.failedAt
    (d := { doc with status := some (utf16 "failed")
                     analysis_text := some (some (utf16 "Analysis failed: " ++ e.message)) })
    h1 rfl h3 h4 h5 hlen
  obtain ⟨hid, _, _, hst, htext, _⟩ := validateRec_some hr1
  refine ⟨r1, hid, ?_, hst, ?_⟩
  · injection htext with htext
    exact htext.symm
  · unfold failAnalysis saveExistingRec
    simp only [hr1]
    cases e.response with
    | none => rfl
    | some response =>
      dsimp only
      by_cases h400 : response.status = 400
      · simp only [h400, if_true]
        cases response.data.getProp (utf16 "detail") <;> rfl
      · simp only [h400, if_false]

/-- C10 (amended): for every gateway error whose failure text fits the
2000-character limit of `analysis_text`, the handler writes the human-readable
reason `Analysis failed: <message>` to the job record with one request sent to
the gateway; when the error carries no response, or a response whose status is
not 400, it answers 500 with the static list of fallback suggestions; when the
gateway answered with status 400 (and a body), it answers 400 with the
gateway's detail and without fallback suggestions. -/
theorem analyze_gateway_error_response (env : AnalysisEnv) (store : RecStore) (user : User)
    (profile : JsString) (e : JsError)
    (hu : env.user = some user) (hp : user.linkedinProfile = some profile) (hne : profile ≠ [])
    (hfresh : ∀ r ∈ store, r._id ≠ env.newId)
    (he : env.crewAI { user_id := env.userId, linkedin_profile := profile, current_user := user }
      = .error e)
    (hlen : (utf16 "Analysis failed: " ++ e.message).length ≤ 2000) :
    (∃ r ∈ (analyzeLinkedin env store).2.1, r._id = env.newId ∧
      r.analysis_text = some (utf16 "Analysis failed: " ++ e.message)) ∧
    (analyzeLinkedin env store).2.2
      = [{ user_id := env.userId, linkedin_profile := profile, current_user := user }] ∧
    ((∀ response, e.response = some response → response.status ≠ 400) →
      (analyzeLinkedin env store).1 = .unavailable env.newId fallbackSuggestions ∧
      (analyzeLinkedin env store).1.status = 500 ∧
      (analyzeLinkedin env store).1.fallbackSuggestions = some fallbackSuggestions) ∧
    (∀ response, e.response = some response → response.status = 400 →
      response.data.isNullish = false →
      (analyzeLinkedin env store).1.status = 400 ∧
      (analyzeLinkedin env store).1.fallbackSuggestions = none) := by
  obtain ⟨r0, hr0id, hcreate⟩ := createAnalysisRecord_fresh env user profile store hfresh
  obtain ⟨r1, hr1id, hr1text, _, hfail⟩ := failAnalysis_saved env
    { newAnalysisRecord env user profile with createdAt := some r0.createdAt }
    (store ++ [r0]) e (b := ⟨[], [], [], [], []⟩) rfl rfl rfl rfl hlen
  have hempty : profile.isEmpty = false := by
    cases profile with
    | nil => exact absurd rfl hne
    | cons a t => rfl
  have hrun : analyzeLinkedin env store =
      ((failAnalysis env { newAnalysisRecord env user profile with createdAt := some r0.createdAt }
          (store ++ [r0]) e).1,
       (failAnalysis env { newAnalysisRecord env user profile with createdAt := some r0.createdAt }
          (store ++ [r0]) e).2,
       [{ user_id := env.userId, linkedin_profile := profile, current_user := user }]) := by
    unfold analyzeLinkedin
    simp only [hu, hp, hempty, Bool.false_eq_true, if_false, hcreate, he]
  have hnew : ({ newAnalysisRecord env user profile with createdAt := some r0.createdAt } :
      RecDoc)._id = env.newId := rfl
  rw [hrun, hfail]
  refine ⟨⟨r1, ?_, hr1id.trans hnew, hr1text⟩, rfl, ?_, ?_⟩
  · rw [List.mem_map]
    refine ⟨r0, by simp, ?_⟩
    have : (r0._id == r1._id) = true := by
      rw [beq_iff_eq, hr0id, hr1id, hnew]
    simp only [this, if_true]
  · intro hnot
    dsimp only
    cases hr : e.response with
    | none => exact ⟨rfl, rfl, rfl⟩
    | some response =>
      have h400 := hnot response hr
      simp only [h400, if_false]
      exact ⟨rfl, rfl, rfl⟩
  · intro response hr h400 hnn
    dsimp only
    rw [hr]
    simp only [h400, if_true, getProp_of_not_nullish _ hnn]
    exact ⟨rfl, rfl⟩

theorem analyze_gateway_error_response_witness :
    (∃ r ∈ (analyzeLinkedin (analysisEnv (some sampleUser) (.error timeoutError)) []).2.1,
      r._id = utf16 "65f0a1b2c3d4e5f6a7b8c9e1" ∧
      r.analysis_text = some (utf16 "Analysis failed: " ++ timeoutError.message)) ∧
    (analyzeLinkedin (analysisEnv (some sampleUser) (.error timeoutError)) []).2.2
      = [{ user_id := utf16 "65f0a1b2c3d4e5f6a7b8c9e0",
           linkedin_profile := utf16 "https://linkedin.com/in/jane", current_user := sampleUser }] ∧
    ((∀ response, timeoutError.response = some response → response.status ≠ 400) →
      (analyzeLinkedin (analysisEnv (some sampleUser) (.error timeoutError)) []).1
        = .unavailable (utf16 "65f0a1b2c3d4e5f6a7b8c9e1") fallbackSuggestions ∧
      (analyzeLinkedin (analysisEnv (some sampleUser) (.error timeoutError)) []).1.status = 500 ∧
      (analyzeLinkedin (analysisEnv (some sampleUser) (.error timeoutError)) []).1.fallbackSuggestions
        = some fallbackSuggestions) ∧
    (∀ response, timeoutError.response = some response → response.status = 400 →
      response.data.isNullish = false →
      (analyzeLinkedin (analysisEnv (some sampleUser) (.error timeoutError)) []).1.status = 400 ∧
      (analyzeLinkedin (analysisEnv (some sampleUser) (.error timeoutError)) []).1.fallbackSuggestions
        = none) :=
  analyze_gateway_error_response (analysisEnv (some sampleUser) (.error timeoutError)) []
    sampleUser (utf16 "https://linkedin.com/in/jane") timeoutError rfl rfl (by decide)
    (by simp) rfl (by decide)

/-! ## Normalisation, count and score -/

theorem normalizeBucket_spec (v : JsVal) :
    (∀ items, v = .arr items → normalizeBucket v = items) ∧
    ((∀ items, v ≠ .arr items) → v.truthy = true → normalizeBucket v = [v]) ∧
    ((∀ items, v ≠ .arr items) → v.truthy = false → normalizeBucket v = []) ∧
    (v = .undefined → normalizeBucket v = []) := by
  refine ⟨?_, ?_, ?_, ?_⟩
  · intro items h
    rw [h]
    rfl
  · intro hna ht
    cases v with
    | arr items => exact absurd rfl (hna items)
    | undefined => cases ht
    | null => cases ht
    | bool b => simp only [normalizeBucket, ht, if_true]
    | num n => simp only [normalizeBucket, ht, if_true]
    | str s => simp only [normalizeBucket, ht, if_true]
    | obj f => rfl
  · intro hna ht
    cases v with
    | arr items => exact absurd rfl (hna items)
    | undefined => rfl
    | null => rfl
    | bool b => simp only [normalizeBucket, ht, Bool.false_eq_true, if_false]
    | num n => simp only [normalizeBucket, ht, Bool.false_eq_true, if_false]
    | str s => simp only [normalizeBucket, ht, Bool.false_eq_true, if_false]
    | obj f => cases ht
  · intro h
    rw [h]
    rfl

/-- C11, as stated, fails: the fields `networking: ""` and
`content_strategy: 0` are present scalars, and their buckets are empty, not the
single-element sequences `[""]` and `[0]`. -/
theorem falsy_scalar_bucket_is_empty :
    falsyScalarAnalysis.field (utf16 "networking") = .str [] ∧
    falsyScalarAnalysis.field (utf16 "content_strategy") = .num 0 ∧
    (normalizeResult falsyScalarAnalysis).map
      (fun b => (b.networking.length, b.content_strategy.length)) = some (0, 0) := by
  refine ⟨by rfl, by rfl, by rfl⟩

/-- C11 (amended): for each of the buckets profile_optimization, networking,
content_strategy and skill_development of a gateway result that is not `null`:
a field that is a sequence is the bucket, unchanged; a truthy field that is not
a sequence (non-empty text, non-zero number, `true`, an object) gives the
single-element sequence containing it; a missing or falsy field (`null`,
`false`, `0`, empty text) gives the empty sequence; and career_roadmap is the
empty sequence. -/
theorem normalizeResult_buckets (r : JsVal) (h : r.isNullish = false) :
    ∃ b, normalizeResult r = some b ∧ b.career_roadmap = [] ∧
      ∀ key bucket,
        (key = utf16 "profile_optimization" ∧ bucket = b.profile_optimization) ∨
        (key = utf16 "networking" ∧ bucket = b.networking) ∨
        (key = utf16 "content_strategy" ∧ bucket = b.content_strategy) ∨
        (key = utf16 "skill_development" ∧ bucket = b.skill_development) →
        (∀ items, r.field key = .arr items → bucket = items) ∧
        ((∀ items, r.field key ≠ .arr items) → (r.field key).truthy = true →
          bucket = [r.field key]) ∧
        ((∀ items, r.field key ≠ .arr items) → (r.field key).truthy = false → bucket = []) ∧
        (r.field key = .undefined → bucket = []) := by
  refine ⟨RawBuckets.mk (normalizeBucket (r.field (utf16 "profile_optimization")))
      (normalizeBucket (r.field (utf16 "networking")))
      (normalizeBucket (r.field (utf16 "content_strategy")))
      (normalizeBucket (r.field (utf16 "skill_development"))) [],
    by simp only [normalizeResult, h, Bool.false_eq_true, if_false], rfl, ?_⟩
  intro key bucket hk
  rcases hk with ⟨hk, hb⟩ | ⟨hk, hb⟩ | ⟨hk, hb⟩ | ⟨hk, hb⟩ <;>
    (rw [hk, hb]; exact normalizeBucket_spec _)

theorem normalizeResult_buckets_witness :
    ∃ b, normalizeResult sampleAnalysis = some b ∧ b.career_roadmap = [] ∧
      ∀ key bucket,
        (key = utf16 "profile_optimization" ∧ bucket = b.profile_optimization) ∨
        (key = utf16 "networking" ∧ bucket = b.networking) ∨
        (key = utf16 "content_strategy" ∧ bucket = b.content_strategy) ∨
        (key = utf16 "skill_development" ∧ bucket = b.skill_development) →
        (∀ items, sampleAnalysis.field key = .arr items → bucket = items) ∧
        ((∀ items, sampleAnalysis.field key ≠ .arr items) →
          (sampleAnalysis.field key).truthy = true → bucket = [sampleAnalysis.field key]) ∧
        ((∀ items, sampleAnalysis.field key ≠ .arr items) →
          (sampleAnalysis.field key).truthy = false → bucket = []) ∧
        (sampleAnalysis.field key = .undefined → bucket = []) :=
  normalizeResult_buckets sampleAnalysis rfl

/-- C13, as stated, fails: with no item the score is 50, not 100, and with 20
items it is 20, not 0. -/
theorem profileScore_not_clamped_to_zero_hundred :
    profileScore 0 = 50 ∧ clampedScore 0 100 0 = 100 ∧
    profileScore 20 = 20 ∧ clampedScore 0 100 20 = 0 := by
  decide

/-- C13 (amended): the derived score is 50 when there is no non-empty item,
and for a count `n ≥ 1` it equals `100 − 5·n` clamped to the range [20, 100]:
`100 − 5·n` up to 16 items and 20 from 16 items on. -/
theorem profileScore_formula (n : Nat) :
    (n = 0 → profileScore n = 50) ∧
    (0 < n → profileScore n = clampedScore 20 100 n) ∧
    (0 < n → n ≤ 16 → profileScore n = 100 - 5 * (n : Int)) ∧
    (16 ≤ n → profileScore n = 20) := by
  refine ⟨?_, ?_, ?_, ?_⟩
  · intro h
    rw [h]
    rfl
  · intro h
    unfold profileScore clampedScore
    rw [if_pos h]
    omega
  · intro h h16
    unfold profileScore
    rw [if_pos h]
    omega
  · intro h16
    unfold profileScore
    rw [if_pos (by omega)]
    omega

theorem profileScore_range (n : Nat) : 0 ≤ profileScore n ∧ profileScore n ≤ 100 := by
  unfold profileScore
  split <;> omega

theorem mapM_keepsItem_texts (texts : List JsString) :
    (texts.map JsVal.str).mapM keepsItem
      = some (texts.map fun s => decide (0 < (jsTrim s).length)) := by
  induction texts with
  | nil => rfl
  | cons s rest ih =>
    have hk : keepsItem (.str s) = some (decide (0 < (jsTrim s).length)) := by
      unfold keepsItem
      by_cases ht : (JsVal.str s).truthy
      · simp only [ht, Bool.not_true, Bool.false_eq_true, if_false]
      · have hs : s = [] := by
          cases s with
          | nil => rfl
          | cons a t => exact absurd rfl ht
        simp only [ht, Bool.not_false, if_true, hs]
        rfl
    simp only [List.map_cons, List.mapM_cons, hk, ih]
    rfl

theorem dropWhile_eq_nil_iff_all (p : Nat → Bool) (s : List Nat) :
    s.dropWhile p = [] ↔ s.all p = true := by
  induction s with
  | nil => simp
  | cons a t ih =>
    by_cases h : p a
    · simp [List.dropWhile_cons, h, ih]
    · simp [List.dropWhile_cons, h]

theorem jsTrim_eq_nil_iff (s : JsString) : jsTrim s = [] ↔ s.all isJsSpace = true := by
  unfold jsTrim
  rw [List.reverse_eq_nil_iff, dropWhile_eq_nil_iff_all, List.all_reverse]
  constructor
  · intro h
    by_cases hd : s.dropWhile isJsSpace = []
    · exact (dropWhile_eq_nil_iff_all _ _).1 hd
    · have hne := List.head_dropWhile_not isJsSpace s hd
      have hmem := List.head_mem hd
      have := List.all_eq_true.1 h _ hmem
      rw [this] at hne
      cases hne
  · intro h
    rw [(dropWhile_eq_nil_iff_all _ _).2 h]
    rfl

theorem isJsSpace_eq_contains (c : Nat) :
    isJsSpace c
      = [9, 10, 11, 12, 13, 32, 160, 5760, 8192, 8193, 8194, 8195, 8196, 8197, 8198, 8199, 8200,
         8201, 8202, 8232, 8233, 8239, 8287, 12288, 65279].contains c := by
  rw [Bool.eq_iff_iff]
  simp only [isJsSpace, Bool.or_eq_true, Bool.and_eq_true, beq_iff_eq, decide_eq_true_eq,
    List.contains_cons, List.contains_nil, Bool.or_false]
  omega

theorem jsTrim_ne_nil_iff (s : JsString) :
    decide (0 < (jsTrim s).length)
      = s.any fun c =>
          !([9, 10, 11, 12, 13, 32, 160, 5760, 8192, 8193, 8194, 8195, 8196, 8197, 8198, 8199,
             8200, 8201, 8202, 8232, 8233, 8239, 8287, 12288, 65279].contains c) := by
  rw [Bool.eq_iff_iff, decide_eq_true_eq, List.length_pos, Ne, jsTrim_eq_nil_iff,
    List.any_eq_true]
  constructor
  · intro h
    by_contra hno
    apply h
    rw [List.all_eq_true]
    intro c hc
    by_contra hsp
    apply hno
    refine ⟨c, hc, ?_⟩
    rw [← isJsSpace_eq_contains]
    simpa using hsp
  · rintro ⟨c, hc, hsp⟩ hall
    rw [← isJsSpace_eq_contains, List.all_eq_true.1 hall c hc] at hsp
    cases hsp

/-- C15: for a normalised result whose items are all text, the total is the
number of items, taken across the five buckets, that hold a code unit other
than white space (tab, line feed, vertical tab, form feed, carriage return,
space, no-break space, U+1680, U+2000 to U+200A, the line and paragraph
separators, U+202F, U+205F, U+3000 and the byte-order mark), which is what
`trim` leaves non-empty; empty and whitespace-only items are not counted, so
the total never exceeds the number of items. -/
theorem totalRecommendations_counts_non_blank (r : RawBuckets) (texts : List JsString)
    (h : r.profile_optimization ++ r.networking ++ r.content_strategy ++ r.skill_development ++
      r.career_roadmap = texts.map JsVal.str) :
    totalRecommendations r
      = some (texts.countP fun s => s.any fun c =>
          !([9, 10, 11, 12, 13, 32, 160, 5760, 8192, 8193, 8194, 8195, 8196, 8197, 8198, 8199,
             8200, 8201, 8202, 8232, 8233, 8239, 8287, 12288, 65279].contains c)) ∧
    (∀ n, totalRecommendations r = some n →
      n ≤ (r.profile_optimization ++ r.networking ++ r.content_strategy ++
        r.skill_development ++ r.career_roadmap).length) := by
  have hflat : r.flat = texts.map JsVal.str := h
  have htotal : totalRecommendations r
      = some (texts.countP fun s => s.any fun c =>
          !([9, 10, 11, 12, 13, 32, 160, 5760, 8192, 8193, 8194, 8195, 8196, 8197, 8198, 8199,
             8200, 8201, 8202, 8232, 8233, 8239, 8287, 12288, 65279].contains c)) := by
    unfold totalRecommendations
    rw [hflat, mapM_keepsItem_texts, Option.map_some', List.filter_map, List.length_map,
      ← List.countP_eq_length_filter]
    congr 1
    apply List.countP_congr
    intro s _
    simp only [Function.comp_apply, id_eq]
    rw [jsTrim_ne_nil_iff]
  refine ⟨htotal, ?_⟩
  intro n hn
  rw [htotal] at hn
  injection hn with hn
  rw [← hn, h, List.length_map]
  exact List.countP_le_length _

theorem totalRecommendations_counts_non_blank_witness :
    totalRecommendations
        ⟨[.str (utf16 "Add a headline"), .str (utf16 "  ")], [.str []],
          [.str (utf16 " x "), .str (utf16 "\t\n")], [], []⟩
      = some 2 :=
  (totalRecommendations_counts_non_blank
    ⟨[.str (utf16 "Add a headline"), .str (utf16 "  ")], [.str []],
      [.str (utf16 " x "), .str (utf16 "\t\n")], [], []⟩
    [utf16 "Add a headline", utf16 "  ", [], utf16 " x ", utf16 "\t\n"] rfl).1.trans (by decide)

theorem failAnalysis_not_success (env : AnalysisEnv) (doc : RecDoc) (store : RecStore)
    (e : JsError) : (failAnalysis env doc store e).1.success = false := by
  unfold failAnalysis
  dsimp only
  split
  · rfl
  · split
    · split
      · split <;> rfl
      · rfl
    · rfl

theorem validateRec_score {t : Nat} {d : RecDoc} {r : Recommendation}
    (h : validateRec t d = some r) :
    r.metadata.profile_score = d.profile_score ∧
      r.metadata.total_recommendations = d.total_recommendations := by
  unfold validateRec at h
  split at h
  · split at h
    · injection h with h
      subst h
      exact ⟨rfl, rfl⟩
    · cases h
  · cases h

theorem applyAnalysis_ok {env : AnalysisEnv} {profile : JsString} {doc : RecDoc}
    {store store2 : RecStore} {result : JsVal} {resp : AnalyzeResult}
    (h : applyAnalysis env profile doc store result = .ok (resp, store2)) :
    ∃ raw total a,
      normalizeResult result = some raw ∧ totalRecommendations raw = some total ∧
      resp = .completed a result (result.field (utf16 "profile_analyzed")) env.timestamp ∧
      a.profile_score = profileScore total ∧ a.total_recommendations = total ∧
      a.meta.profile_score = some (profileScore total) ∧
      a.meta.total_recommendations = some total := by
  unfold applyAnalysis at h
  split at h
  · cases h
  · rename_i raw hraw
    split at h
    · cases h
    · rename_i total htotal
      dsimp only at h
      split at h
      · cases h
      · rename_i saved hsaved
        injection h with h
        injection h with h1 h2
        obtain ⟨hs1, hs2⟩ := validateRec_score hsaved
        exact ⟨raw, total, _, hraw, htotal, h1.symm, rfl, rfl, hs1, hs2⟩

theorem analyzeLinkedin_success {env : AnalysisEnv} {store : RecStore}
    (h : (analyzeLinkedin env store).1.success = true) :
    ∃ profile doc store1 result store2,
      applyAnalysis env profile doc store1 result
        = .ok ((analyzeLinkedin env store).1, store2) := by
  unfold analyzeLinkedin at h ⊢
  split at h
  · cases h
  · rename_i user hu
    split at h
    · cases h
    · rename_i profile hp
      split at h
      · cases h
      · split at h
        · simp only [initFailed] at h
          cases h
        · rename_i doc store1 hc
          dsimp only at h
          split at h
          · rw [failAnalysis_not_success] at h
            cases h
          · rename_i result hr
            split at h
            · rename_i response store2 ha
              refine ⟨profile, doc, store1, result, store2, ?_⟩
              simp only [hu, hp, hc, hr, ha]
              split
              · rename_i hcontra
                simp_all
              · rfl
            · rw [failAnalysis_not_success] at h
              cases h

/-- C14: whenever the handler answers with the results of an analysis, the
profile score of the response, which is also the score written to the record's
metadata, is the integer `profileScore` of the item count and lies in the
closed interval [0, 100], as is the score of every item count. -/
theorem profile_score_in_range (env : AnalysisEnv) (store : RecStore) (a : AnalysisView)
    (l p : JsVal) (t : JsString) (h : (analyzeLinkedin env store).1 = .completed a l p t) :
    0 ≤ a.profile_score ∧ a.profile_score ≤ 100 ∧
    a.profile_score = profileScore a.total_recommendations ∧
    a.meta.profile_score = some a.profile_score ∧
    ∀ n : Nat, 0 ≤ profileScore n ∧ profileScore n ≤ 100 := by
  have hs : (analyzeLinkedin env store).1.success = true := by
    rw [h]
    rfl
  obtain ⟨profile, doc, store1, result, store2, hap⟩ := analyzeLinkedin_success hs
  obtain ⟨raw, total, a1, _, _, hresp, hscore, htotal, hmeta, _⟩ := applyAnalysis_ok hap
  rw [h] at hresp
  injection hresp with ha _ _ _
  subst ha
  rw [hscore, htotal, hmeta]
  exact ⟨(profileScore_range total).1, (profileScore_range total).2, rfl, rfl,
    profileScore_range⟩

theorem profile_score_in_range_witness :
    ∃ a l p t,
      (analyzeLinkedin (analysisEnv (some sampleUser) (.ok sampleAnalysis)) []).1
        = .completed a l p t ∧
      0 ≤ a.profile_score ∧ a.profile_score ≤ 100 ∧
      a.profile_score = profileScore a.total_recommendations ∧
      a.meta.profile_score = some a.profile_score ∧
      ∀ n : Nat, 0 ≤ profileScore n ∧ profileScore n ≤ 100 :=
  ⟨_, _, _, _, rfl,
    profile_score_in_range (analysisEnv (some sampleUser) (.ok sampleAnalysis)) [] _ _ _ _ rfl⟩

theorem keepsItem_some_of_textOrFalsy {v : JsVal} (h : TextOrFalsy v) :
    ∃ k, keepsItem v = some k := by
  unfold keepsItem
  rcases h with h | ⟨s, h⟩
  · exact ⟨false, by simp only [h, Bool.not_false, if_true]⟩
  · rw [h]
    by_cases ht : (JsVal.str s).truthy
    · exact ⟨decide (0 < (jsTrim s).length),
        by simp only [ht, Bool.not_true, Bool.false_eq_true, if_false]⟩
    · exact ⟨false, by simp only [ht, Bool.not_false, if_true]⟩

theorem castString_some_of_textOrFalsy {v : JsVal} (h : TextOrFalsy v) :
    ∃ c, castString v = some c := by
  rcases h with h | ⟨s, h⟩
  · cases v with
    | undefined => exact ⟨_, rfl⟩
    | null => exact ⟨_, rfl⟩
    | bool b => exact ⟨_, rfl⟩
    | num n => exact ⟨_, rfl⟩
    | str s => exact ⟨_, rfl⟩
    | arr items => cases h
    | obj fields => cases h
  · rw [h]
    exact ⟨_, rfl⟩

theorem mapM_some_of_forall {α β : Type} (f : α → Option β) (l : List α)
    (h : ∀ v ∈ l, ∃ c, f v = some c) : ∃ cs, l.mapM f = some cs := by
  induction l with
  | nil => exact ⟨[], rfl⟩
  | cons a t ih =>
    obtain ⟨c, hc⟩ := h a (List.mem_cons_self a t)
    obtain ⟨cs, hcs⟩ := ih fun v hv => h v (List.mem_cons_of_mem a hv)
    refine ⟨c :: cs, ?_⟩
    simp only [List.mapM_cons, hc, hcs]
    rfl

theorem applyAnalysis_eq {env : AnalysisEnv} {profile : JsString} {doc : RecDoc}
    {store : RecStore} {result : JsVal} {raw : RawBuckets} {total : Nat}
    (hraw : normalizeResult result = some raw) (htotal : totalRecommendations raw = some total) :
    applyAnalysis env profile doc store result =
      match validateRec env.completedAt
        { doc with
          recommendations := castBuckets raw
          analysis_text := castString ((result.field (utf16 "analysis_result")).orElse
            (.str (utf16 "LinkedIn profile analysis completed successfully.")))
          status := some (utf16 "completed")
          ai_provider := utf16 "CrewAI"
          profile_url := castString ((result.field (utf16 "profile_analyzed")).orElse
            (.str profile))
          profile_score := some (profileScore total)
          total_recommendations := some total
          completed_at := castString (result.field (utf16 "completed_at"))
          crew_ai_user_id := castString (result.field (utf16 "user_id")) } with
      | none =>
        .error (⟨utf16 "ValidationError", env.validationText, none⟩,
          { doc with
            recommendations := castBuckets raw
            analysis_text := castString ((result.field (utf16 "analysis_result")).orElse
              (.str (utf16 "LinkedIn profile analysis completed successfully.")))
            status := some (utf16 "completed")
            ai_provider := utf16 "CrewAI"
            profile_url := castString ((result.field (utf16 "profile_analyzed")).orElse
              (.str profile))
            profile_score := some (profileScore total)
            total_recommendations := some total
            completed_at := castString (result.field (utf16 "completed_at"))
            crew_ai_user_id := castString (result.field (utf16 "user_id")) })
      | some saved =>
        .ok (.completed
              { id := saved._id, recommendations := raw,
                analysis_text := saved.analysis_text, profile_score := profileScore total,
                total_recommendations := total, ai_provider := utf16 "CrewAI",
                createdAt := saved.createdAt, meta := saved.metadata }
              result (result.field (utf16 "profile_analyzed")) env.timestamp,
             store.map fun x => if x._id == saved._id then saved else x) := by
  unfold applyAnalysis
  simp only [hraw, htotal]

theorem mem_flat_normalizeResult {result : JsVal} {raw : RawBuckets}
    (hraw : normalizeResult result = some raw) {v : JsVal} (hv : v ∈ raw.flat) :
    ∃ key ∈ [utf16 "profile_optimization", utf16 "networking", utf16 "content_strategy",
        utf16 "skill_development"], v ∈ normalizeBucket (result.field key) := by
  unfold normalizeResult at hraw
  split at hraw
  · cases hraw
  · injection hraw with hraw
    subst hraw
    simp only [RawBuckets.flat, List.mem_append, List.not_mem_nil, or_false] at hv
    rcases hv with ((h | h) | h) | h
    · exact ⟨_, by simp, h⟩
    · exact ⟨_, by simp, h⟩
    · exact ⟨_, by simp, h⟩
    · exact ⟨_, by simp, h⟩

theorem castBuckets_some {raw : RawBuckets} (h : ∀ v ∈ raw.flat, TextOrFalsy v) :
    ∃ b, castBuckets raw = some b := by
  have hsub : ∀ l : List JsVal, (∀ v ∈ l, v ∈ raw.flat) → ∃ cs, l.mapM castString = some cs :=
    fun l hl => mapM_some_of_forall castString l fun v hv =>
      castString_some_of_textOrFalsy (h v (hl v hv))
  obtain ⟨a, ha⟩ := hsub raw.profile_optimization
    (fun v hv => by simp only [RawBuckets.flat, List.mem_append]; tauto)
  obtain ⟨b, hb⟩ := hsub raw.networking
    (fun v hv => by simp only [RawBuckets.flat, List.mem_append]; tauto)
  obtain ⟨c, hc⟩ := hsub raw.content_strategy
    (fun v hv => by simp only [RawBuckets.flat, List.mem_append]; tauto)
  obtain ⟨d, hd⟩ := hsub raw.skill_development
    (fun v hv => by simp only [RawBuckets.flat, List.mem_append]; tauto)
  obtain ⟨e, he⟩ := hsub raw.career_roadmap
    (fun v hv => by simp only [RawBuckets.flat, List.mem_append]; tauto)
  exact ⟨⟨a, b, c, d, e⟩, by simp only [castBuckets, ha, hb, hc, hd, he]⟩

theorem validateRec_fields {t : Nat} {d : RecDoc} {r : Recommendation}
    (h : validateRec t d = some r) :
    d.recommendations = some r.recommendations ∧ d.profile_url = some r.metadata.profile_url ∧
      d.completed_at = some r.metadata.completed_at ∧
      d.crew_ai_user_id = some r.metadata.crew_ai_user_id ∧
      r.metadata.analysis_date = d.analysis_date ∧ r.metadata.user_role = d.user_role ∧
      r.metadata.user_department = d.user_department ∧
      r.metadata.profile_score = d.profile_score ∧
      r.metadata.total_recommendations = d.total_recommendations ∧
      r.ai_provider = d.ai_provider ∧ r.createdAt = d.createdAt.getD t ∧
      r.source_user_id = none := by
  unfold validateRec at h
  split at h
  · rename_i b text url ca ci h1 h2 h3 h4 h5
    split at h
    · injection h with h
      subst h
      exact ⟨h1, h3, h4, h5, rfl, rfl, rfl, rfl, rfl, rfl, rfl, rfl⟩
    · cases h
  · cases h

theorem mapM_forall₂ {α β : Type} (f : α → Option β) (l : List α) (cs : List β)
    (h : l.mapM f = some cs) : List.Forall₂ (fun a c => f a = some c) l cs := by
  induction l generalizing cs with
  | nil =>
    rw [List.mapM_nil] at h
    have h1 : some [] = some cs := h
    rw [← Option.some.inj h1]
    exact List.Forall₂.nil
  | cons a t ih =>
    rw [List.mapM_cons] at h
    cases ha : f a with
    | none =>
      rw [ha] at h
      cases h
    | some c =>
      rw [ha] at h
      cases ht : t.mapM f with
      | none =>
        rw [ht] at h
        cases h
      | some cs1 =>
        rw [ht] at h
        have hcs : cs = c :: cs1 := by
          have h1 : some (c :: cs1) = some cs := h
          exact (Option.some.inj h1).symm
        rw [hcs]
        exact List.Forall₂.cons ha (ih cs1 ht)

theorem castString_text {v : JsVal} {c : Option JsString} (h : castString v = some c)
    (s : JsString) (hv : v = .str s) : c = some s := by
  rw [hv] at h
  have h1 : some (some s) = some c := h
  exact (Option.some.inj h1).symm

theorem castString_absent {v : JsVal} {c : Option JsString} (h : castString v = some c)
    (hv : v = .undefined ∨ v = .null) : c = none := by
  rcases hv with hv | hv <;>
  · rw [hv] at h
    have h1 : some none = some c := h
    exact (Option.some.inj h1).symm

theorem castBuckets_items {raw : RawBuckets} {b : Buckets} (h : castBuckets raw = some b) :
    List.Forall₂ (fun v c => ∀ s, v = JsVal.str s → c = some s)
        raw.profile_optimization b.profile_optimization ∧
      List.Forall₂ (fun v c => ∀ s, v = JsVal.str s → c = some s)
        raw.networking b.networking ∧
      List.Forall₂ (fun v c => ∀ s, v = JsVal.str s → c = some s)
        raw.content_strategy b.content_strategy ∧
      List.Forall₂ (fun v c => ∀ s, v = JsVal.str s → c = some s)
        raw.skill_development b.skill_development ∧
      List.Forall₂ (fun v c => ∀ s, v = JsVal.str s → c = some s)
        raw.career_roadmap b.career_roadmap := by
  unfold castBuckets at h
  split at h
  · rename_i a1 a2 a3 a4 a5 h1 h2 h3 h4 h5
    injection h with h
    subst h
    have hw : ∀ (l : List JsVal) (cs : List (Option JsString)), l.mapM castString = some cs →
        List.Forall₂ (fun v c => ∀ s, v = JsVal.str s → c = some s) l cs := by
      intro l cs hl
      exact List.Forall₂.imp (fun v c hc s hv => castString_text hc s hv)
        (mapM_forall₂ castString l cs hl)
    exact ⟨hw _ _ h1, hw _ _ h2, hw _ _ h3, hw _ _ h4, hw _ _ h5⟩
  · cases h

theorem replace_last_of_fresh (store : RecStore) (r0 saved : Recommendation)
    (hfresh : ∀ r ∈ store, r._id ≠ saved._id) (h0 : r0._id = saved._id) :
    (store ++ [r0]).map (fun x => if x._id == saved._id then saved else x)
      = store ++ [saved] := by
  rw [List.map_append]
  congr 1
  · conv_rhs => rw [← List.map_id store]
    apply List.map_congr_left
    intro x hx
    have : (x._id == saved._id) = false := by simpa using hfresh x hx
    simp only [this, Bool.false_eq_true, if_false, id_eq]
  · have : (r0._id == saved._id) = true := by
      rw [beq_iff_eq, h0]
    simp only [List.map_cons, List.map_nil, this, if_true]

theorem createAnalysisRecord_createdAt {env : AnalysisEnv} {user : User} {profile : JsString}
    {store store1 : RecStore} {doc : RecDoc}
    (h : createAnalysisRecord env user profile store = .ok (doc, store1)) :
    doc.createdAt = some env.createdAt := by
  unfold createAnalysisRecord saveNewRec at h
  split at h
  · cases h
  · rename_i r hr
    split at h
    · cases h
    · injection h with h
      injection h with h1 h2
      rw [← h1]
      have := (validateRec_fields hr).2.2.2.2.2.2.2.2.2.2.1
      show some r.createdAt = some env.createdAt
      rw [this]
      rfl

/-- C12, as stated, fails: the gateway call succeeds with a number among the
items of a bucket; normalisation keeps the number as it is, the count raises on
it (`rec.trim` is not a function), and the handler ends in its `catch` block:
it writes the failure text to the record and answers 500 with the fallback
suggestions. -/
theorem non_text_item_fails_the_job :
    (∃ b, normalizeResult numberItemAnalysis = some b ∧
      b.profile_optimization = [.str (utf16 "Add a headline"), .num 5]) ∧
    (normalizeResult numberItemAnalysis).bind totalRecommendations = none ∧
    (analyzeLinkedin (analysisEnv (some sampleUser) (.ok numberItemAnalysis)) []).1.status
      = 500 ∧
    (analyzeLinkedin (analysisEnv (some sampleUser) (.ok numberItemAnalysis)) []).1.fallbackSuggestions
      = some fallbackSuggestions ∧
    (analyzeLinkedin (analysisEnv (some sampleUser) (.ok numberItemAnalysis)) []).2.1.map
      (fun r => r.analysis_text)
      = [some (utf16 "Analysis failed: rec.trim is not a function")] := by
  refine ⟨⟨_, rfl, rfl⟩, by rfl, by rfl, by rfl, by rfl⟩

/-- C12 (amended): for every gateway success payload that is not `null`, whose
bucket items are each a text or a falsy value, whose `analysis_result` and
`profile_analyzed` are texts or falsy (the analysis text within 2000 code
units) and whose `completed_at` and `user_id` are texts or absent,
normalisation keeps the items as delivered, the item count and the score
complete without raising, and the handler answers 200 with the buckets, the
count and the score.  The results are saved: the collection afterwards is the
one before followed by the job's record, which holds every text item of every
bucket at its place, the analysis text, the provider `CrewAI`, the profile
locator, the score, the count and the service's `completed_at` and `user_id`.
The handler does not take the failure path. -/
theorem analyze_success_saves_results (env : AnalysisEnv) (store : RecStore) (user : User)
    (profile : JsString) (result : JsVal) (text url : JsString)
    (hu : env.user = some user) (hp : user.linkedinProfile = some profile) (hne : profile ≠ [])
    (hfresh : ∀ r ∈ store, r._id ≠ env.newId)
    (hr : env.crewAI { user_id := env.userId, linkedin_profile := profile, current_user := user }
      = .ok result)
    (hnn : result.isNullish = false)
    (hitems : ∀ key ∈ [utf16 "profile_optimization", utf16 "networking",
        utf16 "content_strategy", utf16 "skill_development"],
      ∀ v ∈ normalizeBucket (result.field key), TextOrFalsy v)
    (htext : (result.field (utf16 "analysis_result")).orElse
        (.str (utf16 "LinkedIn profile analysis completed successfully.")) = .str text)
    (hlen : text.length ≤ 2000)
    (hurl : (result.field (utf16 "profile_analyzed")).orElse (.str profile) = .str url)
    (hat : result.field (utf16 "completed_at") = .undefined ∨
      result.field (utf16 "completed_at") = .null ∨
      ∃ s, result.field (utf16 "completed_at") = .str s)
    (hid : result.field (utf16 "user_id") = .undefined ∨
      result.field (utf16 "user_id") = .null ∨ ∃ s, result.field (utf16 "user_id") = .str s) :
    ∃ raw total a r,
      normalizeResult result = some raw ∧
      (∀ items, result.field (utf16 "profile_optimization") = .arr items →
        raw.profile_optimization = items) ∧
      (∀ items, result.field (utf16 "networking") = .arr items → raw.networking = items) ∧
      (∀ items, result.field (utf16 "content_strategy") = .arr items →
        raw.content_strategy = items) ∧
      (∀ items, result.field (utf16 "skill_development") = .arr items →
        raw.skill_development = items) ∧
      totalRecommendations raw = some total ∧
      (analyzeLinkedin env store).1
        = .completed a result (result.field (utf16 "profile_analyzed")) env.timestamp ∧
      (analyzeLinkedin env store).1.status = 200 ∧
      a.id = env.newId ∧ a.recommendations = raw ∧ a.total_recommendations = total ∧
      a.profile_score = profileScore total ∧ a.analysis_text = some text ∧
      (analyzeLinkedin env store).2.1 = store ++ [r] ∧
      r._id = env.newId ∧ r.user_id = env.userId ∧
      r.recommendation_type = utf16 "linkedin_analysis" ∧
      r.analysis_text = some text ∧ r.ai_provider = utf16 "CrewAI" ∧
      List.Forall₂ (fun v c => ∀ s, v = JsVal.str s → c = some s)
        raw.profile_optimization r.recommendations.profile_optimization ∧
      List.Forall₂ (fun v c => ∀ s, v = JsVal.str s → c = some s)
        raw.networking r.recommendations.networking ∧
      List.Forall₂ (fun v c => ∀ s, v = JsVal.str s → c = some s)
        raw.content_strategy r.recommendations.content_strategy ∧
      List.Forall₂ (fun v c => ∀ s, v = JsVal.str s → c = some s)
        raw.skill_development r.recommendations.skill_development ∧
      r.recommendations.career_roadmap = [] ∧
      r.metadata.profile_url = some url ∧
      r.metadata.profile_score = some (profileScore total) ∧
      r.metadata.total_recommendations = some total ∧
      r.metadata.analysis_date = some env.analysisDate ∧
      r.metadata.user_role = some user.role ∧
      r.metadata.user_department = some user.department ∧
      (∀ s, result.field (utf16 "completed_at") = .str s → r.metadata.completed_at = some s) ∧
      (∀ s, result.field (utf16 "user_id") = .str s → r.metadata.crew_ai_user_id = some s) ∧
      ((result.field (utf16 "completed_at") = .undefined ∨
          result.field (utf16 "completed_at") = .null) → r.metadata.completed_at = none) ∧
      ((result.field (utf16 "user_id") = .undefined ∨
          result.field (utf16 "user_id") = .null) → r.metadata.crew_ai_user_id = none) ∧
      r.createdAt = env.createdAt ∧ r.updatedAt = env.completedAt := by
  obtain ⟨r0, hr0id, hcreate⟩ := createAnalysisRecord_fresh env user profile store hfresh
  have hr0at : some r0.createdAt = some env.createdAt := createAnalysisRecord_createdAt hcreate
  obtain ⟨raw, hraw⟩ : ∃ raw, normalizeResult result = some raw :=
    ⟨RawBuckets.mk (normalizeBucket (result.field (utf16 "profile_optimization")))
      (normalizeBucket (result.field (utf16 "networking")))
      (normalizeBucket (result.field (utf16 "content_strategy")))
      (normalizeBucket (result.field (utf16 "skill_development"))) [],
      by simp only [normalizeResult, hnn, Bool.false_eq_true, if_false]⟩
  have hrawdef : RawBuckets.mk (normalizeBucket (result.field (utf16 "profile_optimization")))
      (normalizeBucket (result.field (utf16 "networking")))
      (normalizeBucket (result.field (utf16 "content_strategy")))
      (normalizeBucket (result.field (utf16 "skill_development"))) [] = raw := by
    have h0 := hraw
    unfold normalizeResult at h0
    simp only [hnn, Bool.false_eq_true, if_false] at h0
    injection h0
  have hroad : raw.career_roadmap = [] := by
    rw [← hrawdef]
  have hkeep1 : ∀ items, result.field (utf16 "profile_optimization") = .arr items →
      raw.profile_optimization = items := by
    intro items hi
    rw [← hrawdef]
    show normalizeBucket (result.field (utf16 "profile_optimization")) = items
    rw [hi]
    rfl
  have hkeep2 : ∀ items, result.field (utf16 "networking") = .arr items →
      raw.networking = items := by
    intro items hi
    rw [← hrawdef]
    show normalizeBucket (result.field (utf16 "networking")) = items
    rw [hi]
    rfl
  have hkeep3 : ∀ items, result.field (utf16 "content_strategy") = .arr items →
      raw.content_strategy = items := by
    intro items hi
    rw [← hrawdef]
    show normalizeBucket (result.field (utf16 "content_strategy")) = items
    rw [hi]
    rfl
  have hkeep4 : ∀ items, result.field (utf16 "skill_development") = .arr items →
      raw.skill_development = items := by
    intro items hi
    rw [← hrawdef]
    show normalizeBucket (result.field (utf16 "skill_development")) = items
    rw [hi]
    rfl
  have hflat : ∀ v ∈ raw.flat, TextOrFalsy v := by
    intro v hv
    obtain ⟨key, hk, hin⟩ := mem_flat_normalizeResult hraw hv
    exact hitems key hk v hin
  obtain ⟨ks, hks⟩ := mapM_some_of_forall keepsItem raw.flat fun v hv =>
    keepsItem_some_of_textOrFalsy (hflat v hv)
  have htotal : totalRecommendations raw = some (ks.filter id).length := by
    unfold totalRecommendations
    rw [hks]
    rfl
  obtain ⟨b, hb⟩ := castBuckets_some hflat
  have hctext : castString ((result.field (utf16 "analysis_result")).orElse
      (.str (utf16 "LinkedIn profile analysis completed successfully."))) = some (some text) := by
    rw [htext]
    rfl
  have hcurl : castString ((result.field (utf16 "profile_analyzed")).orElse (.str profile))
      = some (some url) := by
    rw [hurl]
    rfl
  have habsent : ∀ v : JsVal, (v = .undefined ∨ v = .null ∨ ∃ s, v = .str s) →
      ∃ c, castString v = some c := by
    intro v hv
    rcases hv with hv | hv | ⟨s, hv⟩ <;> (rw [hv]; exact ⟨_, rfl⟩)
  obtain ⟨ca, hcat⟩ := habsent _ hat
  obtain ⟨ci, hcid⟩ := habsent _ hid
  have hempty : profile.isEmpty = false := by
    cases profile with
    | nil => exact absurd rfl hne
    | cons a t => rfl
  obtain ⟨saved, hsaved⟩ := validateRec_ok env.completedAt
    (d := { ({ newAnalysisRecord env user profile with createdAt := some r0.createdAt } : RecDoc)
            with
            recommendations := castBuckets raw
            analysis_text := castString ((result.field (utf16 "analysis_result")).orElse
              (.str (utf16 "LinkedIn profile analysis completed successfully.")))
            status := some (utf16 "completed")
            ai_provider := utf16 "CrewAI"
            profile_url := castString ((result.field (utf16 "profile_analyzed")).orElse
              (.str profile))
            profile_score := some (profileScore (ks.filter id).length)
            total_recommendations := some (ks.filter id).length
            completed_at := castString (result.field (utf16 "completed_at"))
            crew_ai_user_id := castString (result.field (utf16 "user_id")) })
    hb hctext hcurl hcat hcid hlen
  obtain ⟨hsid, hsuser, hstype, _, hstext, hsupd⟩ := validateRec_some hsaved
  obtain ⟨hfrec, hfurl, hfat, hfid, hfdate, hfrole, hfdep, hfscore, hftotal, hfprov, hfcreated,
    _⟩ := validateRec_fields hsaved
  have hrun : analyzeLinkedin env store =
      (.completed
        { id := saved._id, recommendations := raw, analysis_text := saved.analysis_text,
          profile_score := profileScore (ks.filter id).length,
          total_recommendations := (ks.filter id).length, ai_provider := utf16 "CrewAI",
          createdAt := saved.createdAt, meta := saved.metadata }
        result (result.field (utf16 "profile_analyzed")) env.timestamp,
       (store ++ [r0]).map (fun x => if x._id == saved._id then saved else x),
       [{ user_id := env.userId, linkedin_profile := profile, current_user := user }]) := by
    unfold analyzeLinkedin
    simp only [hu, hp, hempty, Bool.false_eq_true, if_false, hcreate, hr,
      applyAnalysis_eq hraw htotal, hsaved]
  have hsid1 : saved._id = env.newId := hsid
  have htext1 : saved.analysis_text = some text := by
    have h1 : some (some text) = some saved.analysis_text := hctext.symm.trans hstext
    exact (Option.some.inj h1).symm
  have hurl1 : saved.metadata.profile_url = some url := by
    have h1 : some (some url) = some saved.metadata.profile_url := hcurl.symm.trans hfurl
    exact (Option.some.inj h1).symm
  have hbk : castBuckets raw = some saved.recommendations := hfrec
  obtain ⟨hb1, hb2, hb3, hb4, hb5⟩ := castBuckets_items hbk
  have hb5nil : saved.recommendations.career_roadmap = [] := by
    rw [hroad] at hb5
    exact List.forall₂_nil_left_iff.1 hb5
  have hstore : (store ++ [r0]).map (fun x => if x._id == saved._id then saved else x)
      = store ++ [saved] :=
    replace_last_of_fresh store r0 saved (fun r hr => by rw [hsid1]; exact hfresh r hr)
      (hr0id.trans hsid1.symm)
  have hcreated : saved.createdAt = env.createdAt := by
    rw [hfcreated]
    show (some r0.createdAt).getD env.completedAt = env.createdAt
    rw [hr0at]
    rfl
  refine ⟨raw, _, _, saved, hraw, hkeep1, hkeep2, hkeep3, hkeep4, htotal, by rw [hrun],
    by rw [hrun]; rfl, hsid1, rfl, rfl, rfl,
    htext1, ?_, hsid1, hsuser, hstype, htext1, hfprov, hb1, hb2, hb3, hb4, hb5nil, hurl1,
    hfscore, hftotal, hfdate, hfrole, hfdep, ?_, ?_, ?_, ?_, hcreated, hsupd⟩
  · rw [hrun]
    exact hstore
  · intro s hs
    exact castString_text hfat s hs
  · intro s hs
    exact castString_text hfid s hs
  · intro habs
    exact castString_absent hfat habs
  · intro habs
    exact castString_absent hfid habs

theorem sampleAnalysis_items (key : JsString)
    (hk : key ∈ [utf16 "profile_optimization", utf16 "networking", utf16 "content_strategy",
      utf16 "skill_development"]) :
    ∀ v ∈ normalizeBucket (sampleAnalysis.field key), TextOrFalsy v := by
  intro v hv
  simp only [List.mem_cons, List.mem_singleton, List.not_mem_nil, or_false] at hk
  rcases hk with hk | hk | hk | hk
  · have h : normalizeBucket (sampleAnalysis.field key) = [.str (utf16 "Add a headline")] := by
      rw [hk]
      rfl
    rw [h, List.mem_singleton] at hv
    exact Or.inr ⟨_, hv⟩
  · have h : normalizeBucket (sampleAnalysis.field key) = [.str (utf16 "Join two groups")] := by
      rw [hk]
      rfl
    rw [h, List.mem_singleton] at hv
    exact Or.inr ⟨_, hv⟩
  · have h : normalizeBucket (sampleAnalysis.field key) = [] := by
      rw [hk]
      rfl
    rw [h] at hv
    cases hv
  · have h : normalizeBucket (sampleAnalysis.field key) = [] := by
      rw [hk]
      rfl
    rw [h] at hv
    cases hv

theorem analyze_success_saves_results_witness :
    (analyzeLinkedin (analysisEnv (some sampleUser) (.ok sampleAnalysis)) []).2.1
      = [{ _id := utf16 "65f0a1b2c3d4e5f6a7b8c9e1", user_id := utf16 "65f0a1b2c3d4e5f6a7b8c9e0",
           source_user_id := none, recommendation_type := utf16 "linkedin_analysis",
           recommendations :=
             { profile_optimization := [some (utf16 "Add a headline")],
               networking := [some (utf16 "Join two groups")], content_strategy := [],
               skill_development := [], career_roadmap := [] },
           analysis_text := some (utf16 "A solid profile."), ai_provider := utf16 "CrewAI",
           metadata :=
             { profile_url := some (utf16 "https://linkedin.com/in/jane"),
               analysis_date := some 1000, user_role := some (utf16 "Engineer"),
               user_department := some (utf16 "Platform"), profile_score := some 90,
               total_recommendations := some 2, completed_at := none,
               crew_ai_user_id := none },
           recommendation_status := utf16 "completed", createdAt := 1001, updatedAt := 2000 }] ∧
    ∃ raw total a r,
      normalizeResult sampleAnalysis = some raw ∧
      (∀ items, sampleAnalysis.field (utf16 "profile_optimization") = .arr items →
        raw.profile_optimization = items) ∧
      (∀ items, sampleAnalysis.field (utf16 "networking") = .arr items →
        raw.networking = items) ∧
      (∀ items, sampleAnalysis.field (utf16 "content_strategy") = .arr items →
        raw.content_strategy = items) ∧
      (∀ items, sampleAnalysis.field (utf16 "skill_development") = .arr items →
        raw.skill_development = items) ∧
      totalRecommendations raw = some total ∧
      (analyzeLinkedin (analysisEnv (some sampleUser) (.ok sampleAnalysis)) []).1
        = .completed a sampleAnalysis (sampleAnalysis.field (utf16 "profile_analyzed"))
            (analysisEnv (some sampleUser) (.ok sampleAnalysis)).timestamp ∧
      (analyzeLinkedin (analysisEnv (some sampleUser) (.ok sampleAnalysis)) []).1.status = 200 ∧
      a.id = utf16 "65f0a1b2c3d4e5f6a7b8c9e1" ∧ a.recommendations = raw ∧
      a.total_recommendations = total ∧
      a.profile_score = profileScore total ∧ a.analysis_text = some (utf16 "A solid profile.") ∧
      (analyzeLinkedin (analysisEnv (some sampleUser) (.ok sampleAnalysis)) []).2.1 = [] ++ [r] ∧
      r._id = utf16 "65f0a1b2c3d4e5f6a7b8c9e1" ∧ r.user_id = utf16 "65f0a1b2c3d4e5f6a7b8c9e0" ∧
      r.recommendation_type = utf16 "linkedin_analysis" ∧
      r.analysis_text = some (utf16 "A solid profile.") ∧ r.ai_provider = utf16 "CrewAI" ∧
      List.Forall₂ (fun v c => ∀ s, v = JsVal.str s → c = some s)
        raw.profile_optimization r.recommendations.profile_optimization ∧
      List.Forall₂ (fun v c => ∀ s, v = JsVal.str s → c = some s)
        raw.networking r.recommendations.networking ∧
      List.Forall₂ (fun v c => ∀ s, v = JsVal.str s → c = some s)
        raw.content_strategy r.recommendations.content_strategy ∧
      List.Forall₂ (fun v c => ∀ s, v = JsVal.str s → c = some s)
        raw.skill_development r.recommendations.skill_development ∧
      r.recommendations.career_roadmap = [] ∧
      r.metadata.profile_url = some (utf16 "https://linkedin.com/in/jane") ∧
      r.metadata.profile_score = some (profileScore total) ∧
      r.metadata.total_recommendations = some total ∧
      r.metadata.analysis_date = some 1000 ∧
      r.metadata.user_role = some (utf16 "Engineer") ∧
      r.metadata.user_department = some (utf16 "Platform") ∧
      (∀ s, sampleAnalysis.field (utf16 "completed_at") = .str s →
        r.metadata.completed_at = some s) ∧
      (∀ s, sampleAnalysis.field (utf16 "user_id") = .str s →
        r.metadata.crew_ai_user_id = some s) ∧
      ((sampleAnalysis.field (utf16 "completed_at") = .undefined ∨
          sampleAnalysis.field (utf16 "completed_at") = .null) →
        r.metadata.completed_at = none) ∧
      ((sampleAnalysis.field (utf16 "user_id") = .undefined ∨
          sampleAnalysis.field (utf16 "user_id") = .null) →
        r.metadata.crew_ai_user_id = none) ∧
      r.createdAt = 1001 ∧ r.updatedAt = 2000 :=
  ⟨by rfl,
   analyze_success_saves_results (analysisEnv (some sampleUser) (.ok sampleAnalysis)) []
    sampleUser (utf16 "https://linkedin.com/in/jane") sampleAnalysis
    (utf16 "A solid profile.") (utf16 "https://linkedin.com/in/jane")
    rfl rfl (by decide) (by simp) rfl rfl
    sampleAnalysis_items rfl (by decide) rfl (Or.inl rfl) (Or.inl rfl)⟩

/-! ## The stages of the banner pipeline -/

/-- C16, as stated, fails: the fallback body embeds the topic text, so two topic
texts give two different bodies. -/
theorem fallback_body_depends_on_topic :
    (generateBannerContent (fun _ => none) (utf16 "AI") none).field (utf16 "content")
      = .str (fallbackBodyHead ++ utf16 "AI" ++ fallbackBodyTail) ∧
    (generateBannerContent (fun _ => none) (utf16 "Cloud") none).field (utf16 "content")
      = .str (fallbackBodyHead ++ utf16 "Cloud" ++ fallbackBodyTail) ∧
    fallbackBodyHead ++ utf16 "AI" ++ fallbackBodyTail
      ≠ fallbackBodyHead ++ utf16 "Cloud" ++ fallbackBodyTail := by
  refine ⟨by rfl, by rfl, by decide⟩

theorem requiredText_str_eq {m : Option Nat} {s t : JsString}
    (h : requiredText m (.str s) = some t) : t = s := by
  have h1 := (requiredText_some h).1
  have h2 : some (some s) = some (some t) := h1
  exact (Option.some.inj (Option.some.inj h2)).symm

/-- C16 (amended): for every topic text, when the content-generation call
fails, `generateBannerContent` returns the fixed title, description and image
search term, and a body made of a fixed opening, the topic text and a fixed
ending; the banner assembled from it, and the document saved from that, carry
exactly this title, description and body. -/
theorem content_failure_gives_fallback_content (env : BannerEnv)
    (h : env.content (getCurrentHotTopics env.topics) = none) :
    generateBannerContent env.jsonParse (getCurrentHotTopics env.topics)
        (env.content (getCurrentHotTopics env.topics))
      = fallbackContent (getCurrentHotTopics env.topics) ∧
    (fallbackContent (getCurrentHotTopics env.topics)).field (utf16 "title")
      = .str fallbackTitle ∧
    (fallbackContent (getCurrentHotTopics env.topics)).field (utf16 "description")
      = .str fallbackDescription ∧
    (fallbackContent (getCurrentHotTopics env.topics)).field (utf16 "image_search_term")
      = .str fallbackSearchTerm ∧
    (fallbackContent (getCurrentHotTopics env.topics)).field (utf16 "content")
      = .str (fallbackBodyHead ++ getCurrentHotTopics env.topics ++ fallbackBodyTail) ∧
    ∃ input, buildBanner env = .ok input ∧
      input.title = .str fallbackTitle ∧ input.description = .str fallbackDescription ∧
      input.content
        = .str (fallbackBodyHead ++ getCurrentHotTopics env.topics ++ fallbackBodyTail) ∧
      ∀ store doc store1,
        saveBanner store env.newId env.tomorrow env.savedAt input = .ok (doc, store1) →
        doc.title = fallbackTitle ∧ doc.description = fallbackDescription ∧
        doc.content = fallbackBodyHead ++ getCurrentHotTopics env.topics ++ fallbackBodyTail := by
  have hgen : generateBannerContent env.jsonParse (getCurrentHotTopics env.topics)
      (env.content (getCurrentHotTopics env.topics))
      = fallbackContent (getCurrentHotTopics env.topics) := by
    rw [h]
    rfl
  refine ⟨hgen, rfl, rfl, rfl, rfl, ?_⟩
  have hbuild := buildBanner_ok_of_not_nullish env (by rw [hgen]; rfl)
  rw [hgen] at hbuild
  refine ⟨_, hbuild, rfl, rfl, rfl, ?_⟩
  intro store doc store1 hs
  obtain ⟨hv, _⟩ := saveBanner_ok hs
  obtain ⟨_, _, _, ht, hd, hc, _⟩ := validateBanner_some hv
  exact ⟨requiredText_str_eq ht, requiredText_str_eq hd, requiredText_str_eq hc⟩

theorem content_failure_gives_fallback_content_witness :
    generateBannerContent contentDownEnv.jsonParse (getCurrentHotTopics contentDownEnv.topics)
        (contentDownEnv.content (getCurrentHotTopics contentDownEnv.topics))
      = fallbackContent (getCurrentHotTopics contentDownEnv.topics) ∧
    (fallbackContent (getCurrentHotTopics contentDownEnv.topics)).field (utf16 "title")
      = .str fallbackTitle ∧
    (fallbackContent (getCurrentHotTopics contentDownEnv.topics)).field (utf16 "description")
      = .str fallbackDescription ∧
    (fallbackContent (getCurrentHotTopics contentDownEnv.topics)).field
        (utf16 "image_search_term")
      = .str fallbackSearchTerm ∧
    (fallbackContent (getCurrentHotTopics contentDownEnv.topics)).field (utf16 "content")
      = .str (fallbackBodyHead ++ getCurrentHotTopics contentDownEnv.topics
          ++ fallbackBodyTail) ∧
    ∃ input, buildBanner contentDownEnv = .ok input ∧
      input.title = .str fallbackTitle ∧ input.description = .str fallbackDescription ∧
      input.content
        = .str (fallbackBodyHead ++ getCurrentHotTopics contentDownEnv.topics
            ++ fallbackBodyTail) ∧
      ∀ store doc store1,
        saveBanner store contentDownEnv.newId contentDownEnv.tomorrow
          contentDownEnv.savedAt input = .ok (doc, store1) →
        doc.title = fallbackTitle ∧ doc.description = fallbackDescription ∧
        doc.content = fallbackBodyHead ++ getCurrentHotTopics contentDownEnv.topics
          ++ fallbackBodyTail :=
  content_failure_gives_fallback_content contentDownEnv rfl

theorem dropWhile_append_cons_of_all (p : Nat → Bool) (l : List Nat) (a : Nat) (r : List Nat)
    (hl : ∀ c ∈ l, p c = true) (ha : p a = false) :
    (l ++ a :: r).dropWhile p = a :: r := by
  induction l with
  | nil => simp [List.dropWhile_cons, ha]
  | cons b t ih =>
    have hb : p b = true := hl b (List.mem_cons_self b t)
    simp only [List.cons_append, List.dropWhile_cons, hb, if_true]
    exact ih fun c hc => hl c (List.mem_cons_of_mem b hc)

theorem jsonMatch_span (pre mid suf : JsString) (hpre : ∀ c ∈ pre, c ≠ 123)
    (hsuf : ∀ c ∈ suf, c ≠ 125) :
    jsonMatch (pre ++ 123 :: (mid ++ 125 :: suf)) = some (123 :: (mid ++ [125])) := by
  unfold jsonMatch
  have h1 : (pre ++ 123 :: (mid ++ 125 :: suf)).dropWhile (· != 123)
      = 123 :: (mid ++ 125 :: suf) :=
    dropWhile_append_cons_of_all _ pre 123 _ (fun c hc => by simpa using hpre c hc) (by decide)
  have h2 : (123 :: (mid ++ 125 :: suf)).reverse
      = suf.reverse ++ 125 :: (123 :: mid).reverse := by
    simp
  have h3 : (suf.reverse ++ 125 :: (123 :: mid).reverse).dropWhile (· != 125)
      = 125 :: (123 :: mid).reverse :=
    dropWhile_append_cons_of_all _ suf.reverse 125 _
      (fun c hc => by simpa using hsuf c (List.mem_reverse.1 hc)) (by decide)
  simp only [h1, h2, h3]
  simp

theorem jsonMatch_none_of_no_pair (text : JsString)
    (h : ∀ pre post, text = pre ++ 123 :: post → 125 ∉ post) : jsonMatch text = none := by
  unfold jsonMatch
  have hsplit := List.takeWhile_append_dropWhile (· != 123) text
  cases hd : text.dropWhile (· != 123) with
  | nil => rfl
  | cons a post =>
    have ha : a = 123 := by
      have := List.head_dropWhile_not (· != 123) text (by rw [hd]; simp)
      simp only [hd, List.head_cons] at this
      simpa using this
    rw [hd, ha] at hsplit
    have hno := h _ post hsplit.symm
    have hall : ((123 :: post).reverse).all (· != 125) = true := by
      rw [List.all_reverse, List.all_eq_true]
      intro c hc
      rcases List.mem_cons.1 hc with hc | hc
      · rw [hc]
        rfl
      · have : c ≠ 125 := fun h125 => hno (h125 ▸ hc)
        simpa using this
    rw [ha]
    dsimp only
    rw [(dropWhile_eq_nil_iff_all _ _).2 hall]
    rfl

/-- C17, as stated, fails: for the text `{"title": "T"} and {more}` the first
balanced span is `{"title": "T"}`, but the span handed to the JSON reader runs
to the last closing brace and is the whole text, which is not JSON; the text
after the first object therefore changes the result from the parsed object to
the fallback content. -/
theorem trailing_braces_change_the_result :
    firstBalancedSpan trailingBraceText = some balancedObjectText ∧
    jsonMatch trailingBraceText = some trailingBraceText ∧
    (generateBannerContent sampleParse (utf16 "AI") (some balancedObjectText)).field
        (utf16 "title") = .str (utf16 "T") ∧
    (generateBannerContent sampleParse (utf16 "AI") (some trailingBraceText)).field
        (utf16 "title") = .str fallbackTitle ∧
    utf16 "T" ≠ fallbackTitle := by
  refine ⟨by decide, by decide, by rfl, by rfl, by decide⟩

/-- C17 (amended): for every content-service response text that holds an
opening brace followed later by a closing brace, `generateBannerContent` hands
the JSON reader exactly the span from the first opening brace to the last
closing brace of the text and returns what the reader gives for it (the
fallback content when the reader raises); text before the first opening brace
and text after the last closing brace do not change the result. -/
theorem generateBannerContent_parses_outer_span (jsonParse : JsString → Option JsVal)
    (hotTopic pre mid suf : JsString) (hpre : ∀ c ∈ pre, c ≠ 123)
    (hsuf : ∀ c ∈ suf, c ≠ 125) :
    jsonMatch (pre ++ 123 :: (mid ++ 125 :: suf)) = some (123 :: (mid ++ [125])) ∧
    generateBannerContent jsonParse hotTopic (some (pre ++ 123 :: (mid ++ 125 :: suf)))
      = (match jsonParse (123 :: (mid ++ [125])) with
          | some v => v
          | none => fallbackContent hotTopic) ∧
    generateBannerContent jsonParse hotTopic (some (pre ++ 123 :: (mid ++ 125 :: suf)))
      = generateBannerContent jsonParse hotTopic (some (123 :: (mid ++ [125]))) := by
  have h := jsonMatch_span pre mid suf hpre hsuf
  have h0 : jsonMatch (123 :: (mid ++ [125])) = some (123 :: (mid ++ [125])) := by
    have := jsonMatch_span [] mid [] (by simp) (by simp)
    simpa using this
  refine ⟨h, ?_, ?_⟩
  · simp only [generateBannerContent, h]
  · simp only [generateBannerContent, h, h0]

theorem generateBannerContent_parses_outer_span_witness :
    jsonMatch (utf16 "Sure: " ++ 123 :: (utf16 "\"title\": \"T\"" ++ 125 :: utf16 " done"))
      = some (123 :: (utf16 "\"title\": \"T\"" ++ [125])) ∧
    generateBannerContent sampleParse (utf16 "AI")
        (some (utf16 "Sure: " ++ 123 :: (utf16 "\"title\": \"T\"" ++ 125 :: utf16 " done")))
      = (match sampleParse (123 :: (utf16 "\"title\": \"T\"" ++ [125])) with
          | some v => v
          | none => fallbackContent (utf16 "AI")) ∧
    generateBannerContent sampleParse (utf16 "AI")
        (some (utf16 "Sure: " ++ 123 :: (utf16 "\"title\": \"T\"" ++ 125 :: utf16 " done")))
      = generateBannerContent sampleParse (utf16 "AI")
          (some (123 :: (utf16 "\"title\": \"T\"" ++ [125]))) :=
  generateBannerContent_parses_outer_span sampleParse (utf16 "AI") (utf16 "Sure: ")
    (utf16 "\"title\": \"T\"") (utf16 " done") (by decide) (by decide)

/-- C18: for every content-service response text that holds no opening brace
followed later by a closing brace, or whose extracted span the JSON reader
rejects, `generateBannerContent` returns the fallback content; being a total
function, it never raises. -/
theorem generateBannerContent_fallback_on_bad_text (jsonParse : JsString → Option JsVal)
    (hotTopic text : JsString)
    (h : (∀ pre post, text = pre ++ 123 :: post → 125 ∉ post) ∨
      ∃ span, jsonMatch text = some span ∧ jsonParse span = none) :
    generateBannerContent jsonParse hotTopic (some text) = fallbackContent hotTopic ∧
    (generateBannerContent jsonParse hotTopic (some text)).field (utf16 "title")
      = .str fallbackTitle ∧
    (generateBannerContent jsonParse hotTopic (some text)).field (utf16 "description")
      = .str fallbackDescription ∧
    (generateBannerContent jsonParse hotTopic (some text)).field (utf16 "image_search_term")
      = .str fallbackSearchTerm := by
  have hgen : generateBannerContent jsonParse hotTopic (some text) = fallbackContent hotTopic := by
    rcases h with h | ⟨span, hm, hp⟩
    · simp only [generateBannerContent, jsonMatch_none_of_no_pair text h]
    · simp only [generateBannerContent, hm, hp]
  rw [hgen]
  exact ⟨rfl, rfl, rfl, rfl⟩

theorem generateBannerContent_fallback_on_bad_text_witness :
    generateBannerContent sampleParse (utf16 "AI") (some trailingBraceText)
      = fallbackContent (utf16 "AI") ∧
    (generateBannerContent sampleParse (utf16 "AI") (some trailingBraceText)).field
        (utf16 "title") = .str fallbackTitle ∧
    (generateBannerContent sampleParse (utf16 "AI") (some trailingBraceText)).field
        (utf16 "description") = .str fallbackDescription ∧
    (generateBannerContent sampleParse (utf16 "AI") (some trailingBraceText)).field
        (utf16 "image_search_term") = .str fallbackSearchTerm :=
  generateBannerContent_fallback_on_bad_text sampleParse (utf16 "AI") trailingBraceText
    (Or.inr ⟨trailingBraceText, by decide, by rfl⟩)

/-- C19: for every image URL, when the download fails, `fetchAndStoreImage`
returns the content type `image/svg+xml`, never `image/jpeg`, together with the
bytes of one fixed document, the same for every URL: an ASCII text of 806 bytes
that opens an `svg` element of width 1200 and height 300. -/
theorem fetchAndStoreImage_fallback (fetch : JsVal → Option FetchResponse) (imageUrl : JsVal)
    (h : fetch imageUrl = none) :
    fetchAndStoreImage fetch imageUrl
      = { binary := fallbackSvg, contentType := utf16 "image/svg+xml" } ∧
    (fetchAndStoreImage fetch imageUrl).contentType ≠ utf16 "image/jpeg" ∧
    fallbackSvg.length = 806 ∧ fallbackSvg.all (· < 128) = true ∧
    (fallbackSvg.drop 7).take 30 = utf16 "<svg width=\"1200\" height=\"300\"" := by
  have hres : fetchAndStoreImage fetch imageUrl
      = { binary := fallbackSvg, contentType := utf16 "image/svg+xml" } := by
    unfold fetchAndStoreImage
    rw [h]
  refine ⟨hres, ?_, by decide, by decide, by decide⟩
  rw [hres]
  decide

theorem fetchAndStoreImage_fallback_witness :
    fetchAndStoreImage (fun _ => none) (.str (utf16 "https://images.unsplash.com/photo-1"))
      = { binary := fallbackSvg, contentType := utf16 "image/svg+xml" } ∧
    (fetchAndStoreImage (fun _ => none)
      (.str (utf16 "https://images.unsplash.com/photo-1"))).contentType ≠ utf16 "image/jpeg" ∧
    fallbackSvg.length = 806 ∧ fallbackSvg.all (· < 128) = true ∧
    (fallbackSvg.drop 7).take 30 = utf16 "<svg width=\"1200\" height=\"300\"" :=
  fetchAndStoreImage_fallback (fun _ => none)
    (.str (utf16 "https://images.unsplash.com/photo-1")) rfl

/-- C20: for every search term, when the image-search credential is absent or
empty, the search call fails, or the search returns no results,
`getProfessionalImageUrl` returns the placeholder locator, whose text is
`https://via.placeholder.com/1200x300/667eea/ffffff?text=Professional%20Development`. -/
theorem getProfessionalImageUrl_placeholder (accessKey : Option JsString)
    (search : JsVal → SearchOutcome) (searchTerm : JsVal)
    (h : accessKey = none ∨ accessKey = some [] ∨ search searchTerm = .failed ∨
      search searchTerm = .noResults) :
    getProfessionalImageUrl accessKey search searchTerm = .str placeholderUrl ∧
    placeholderUrl = utf16
      "https://via.placeholder.com/1200x300/667eea/ffffff?text=Professional%20Development" := by
  refine ⟨?_, by decide⟩
  unfold getProfessionalImageUrl
  cases accessKey with
  | none => rfl
  | some key =>
    dsimp only
    by_cases hk : key.isEmpty
    · simp only [hk, if_true]
    · simp only [hk]
      rcases h with h | h | h | h
      · cases h
      · have : key = [] := (Option.some.inj h)
        rw [this] at hk
        exact absurd rfl hk
      · simp only [h]
        rfl
      · simp only [h]
        rfl

theorem getProfessionalImageUrl_placeholder_witness :
    getProfessionalImageUrl (some (utf16 "key")) (fun _ => .noResults) (.str (utf16 "office"))
      = .str placeholderUrl ∧
    placeholderUrl = utf16
      "https://via.placeholder.com/1200x300/667eea/ffffff?text=Professional%20Development" :=
  getProfessionalImageUrl_placeholder (some (utf16 "key")) (fun _ => .noResults)
    (.str (utf16 "office")) (Or.inr (Or.inr (Or.inr rfl)))

/-! ## regenerate, serveBinary, history -/

theorem filter_eraseP_of_disjoint {α : Type} (p q : α → Bool) (l : List α)
    (h : ∀ x, p x = true → q x = false) : (l.eraseP p).filter q = l.filter q := by
  induction l with
  | nil => rfl
  | cons a t ih =>
    by_cases hp : p a
    · rw [List.eraseP_cons_of_pos hp, List.filter_cons_of_neg (by simp [h a hp])]
    · rw [List.eraseP_cons_of_neg hp]
      by_cases hq : q a
      · rw [List.filter_cons_of_pos hq, List.filter_cons_of_pos hq, ih]
      · rw [List.filter_cons_of_neg hq, List.filter_cons_of_neg hq, ih]

/-- C21: whenever `POST /generate` answers with success, the store holds
exactly one record for today's date, the newly built and validated banner whose
identifier the response carries, and the records of every other date are the
ones held before, in the same order. -/
theorem postGenerate_success_replaces_today (env : BannerEnv) (store : BannerStore)
    (message : JsString) (g : GeneratedBanner)
    (h : (postGenerate env store).1 = .ok message g) :
    ∃ input doc, buildBanner env = .ok input ∧
      validateBanner env.newId env.tomorrow env.savedAt input = some doc ∧
      ((postGenerate env store).2.filter fun b => b.date == env.today) = [doc] ∧
      doc._id = env.newId ∧ g.id = doc._id ∧ g.title = doc.title ∧
      g.description = doc.description ∧
      ((postGenerate env store).2.filter fun b => b.date != env.today)
        = store.filter fun b => b.date != env.today := by
  unfold postGenerate at h ⊢
  cases hb : buildBanner env with
  | error e =>
    rw [hb] at h
    cases h
  | ok input =>
    rw [hb] at h
    dsimp only at h ⊢
    cases hs : saveBanner (deleteBannerByDate store env.today) env.newId env.tomorrow
        env.savedAt input with
    | error e =>
      rw [hs] at h
      cases h
    | ok r =>
      obtain ⟨doc, store2⟩ := r
      rw [hs] at h
      dsimp only at h ⊢
      injection h with _ hg
      obtain ⟨hv, hi⟩ := saveBanner_ok hs
      obtain ⟨hst, hfresh, _⟩ := insertBanner_ok hi
      obtain ⟨hid, hdate, _⟩ := validateBanner_some hv
      have htoday : doc.date = env.today := hdate.trans (buildBanner_date hb)
      refine ⟨input, doc, rfl, hv, ?_, hid, ?_, ?_, ?_, ?_⟩
      · rw [hst, List.filter_append]
        have h1 : (deleteBannerByDate store env.today).filter (fun b => b.date == env.today)
            = [] := by
          rw [List.filter_eq_nil_iff]
          intro b hb1
          have := hfresh b hb1
          rw [htoday] at this
          simpa using this
        rw [h1]
        simp [htoday]
      · rw [← hg]
      · rw [← hg]
      · rw [← hg]
      · rw [hst, List.filter_append]
        have h2 : ([doc].filter fun b => b.date != env.today) = [] := by
          simp [htoday]
        rw [h2, List.append_nil]
        exact filter_eraseP_of_disjoint _ _ store (fun x hx => by
          have : x.date = env.today := by simpa using hx
          simp [this])

theorem postGenerate_success_replaces_today_witness :
    ∃ message g, (postGenerate onlineEnv [expiredBanner]).1 = .ok message g ∧
      ∃ input doc, buildBanner onlineEnv = .ok input ∧
        validateBanner onlineEnv.newId onlineEnv.tomorrow onlineEnv.savedAt input = some doc ∧
        ((postGenerate onlineEnv [expiredBanner]).2.filter fun b => b.date == onlineEnv.today)
          = [doc] ∧
        doc._id = onlineEnv.newId ∧ g.id = doc._id ∧ g.title = doc.title ∧
        g.description = doc.description ∧
        ((postGenerate onlineEnv [expiredBanner]).2.filter fun b => b.date != onlineEnv.today)
          = [expiredBanner].filter fun b => b.date != onlineEnv.today :=
  ⟨_, _, rfl, postGenerate_success_replaces_today onlineEnv [expiredBanner] _ _ rfl⟩

/-- C22, as stated, fails: for the path parameter `abc`, which does not cast to
an object id, no record with that id exists, yet the poll is answered 500, not
404. -/
theorem poll_malformed_id_is_server_error :
    hexObjectId (utf16 "abc") = none ∧
    (∀ r ∈ (analyzeLinkedin (analysisEnv (some sampleUser) (.ok sampleAnalysis)) []).2.1,
      r._id ≠ utf16 "abc") ∧
    getAnalysisStatus hexObjectId (utf16 "65f0a1b2c3d4e5f6a7b8c9e0") (utf16 "abc")
      (analyzeLinkedin (analysisEnv (some sampleUser) (.ok sampleAnalysis)) []).2.1
      = .serverError := by
  refine ⟨by decide, by decide, by rfl⟩

theorem find_rec_eq_none_iff (store : RecStore) (oid userId : JsString) :
    store.find? (fun r => r._id == oid && r.user_id == userId &&
        r.recommendation_type == utf16 "linkedin_analysis") = none ↔
      ¬ ∃ r ∈ store, r._id = oid ∧ r.user_id = userId ∧
        r.recommendation_type = utf16 "linkedin_analysis" := by
  rw [List.find?_eq_none]
  constructor
  · rintro h ⟨r, hr, h1, h2, h3⟩
    have := h r hr
    simp [h1, h2, h3] at this
  · intro h r hr hp
    simp only [Bool.and_eq_true, beq_iff_eq] at hp
    exact h ⟨r, hr, hp.1.1, hp.1.2, hp.2⟩

/-- C22 (amended): for a path parameter that casts to the object id `oid`, the
poll answers not-found exactly when no record with the id `oid` is owned by the
caller and of kind `linkedin_analysis`; in particular a job of another user is
answered not-found, which carries no field of it; when there is such a record
the poll answers 200 with the creation and update instants of a stored record
of that id, owner and kind (and, the handler reading `status`, with no status
and no record body); a path parameter that does not cast is answered 500. -/
theorem poll_not_found_iff (castObjectId : JsString → Option JsString)
    (userId analysisId oid : JsString) (store : RecStore)
    (hid : castObjectId analysisId = some oid) :
    (getAnalysisStatus castObjectId userId analysisId store = .notFound ↔
      ¬ ∃ r ∈ store, r._id = oid ∧ r.user_id = userId ∧
        r.recommendation_type = utf16 "linkedin_analysis") ∧
    ((∀ r ∈ store, r._id = oid → r.user_id ≠ userId) →
      getAnalysisStatus castObjectId userId analysisId store = .notFound) ∧
    ((∃ r ∈ store, r._id = oid ∧ r.user_id = userId ∧
        r.recommendation_type = utf16 "linkedin_analysis") →
      ∃ r ∈ store, r._id = oid ∧ r.user_id = userId ∧
        r.recommendation_type = utf16 "linkedin_analysis" ∧
        getAnalysisStatus castObjectId userId analysisId store
          = .ok none none r.createdAt r.updatedAt) ∧
    (∀ id, castObjectId id = none →
      getAnalysisStatus castObjectId userId id store = .serverError) := by
  have hiff : getAnalysisStatus castObjectId userId analysisId store = .notFound ↔
      ¬ ∃ r ∈ store, r._id = oid ∧ r.user_id = userId ∧
        r.recommendation_type = utf16 "linkedin_analysis" := by
    rw [← find_rec_eq_none_iff]
    unfold getAnalysisStatus
    simp only [hid]
    cases hf : store.find? (fun r => r._id == oid && r.user_id == userId &&
        r.recommendation_type == utf16 "linkedin_analysis") with
    | none => exact ⟨fun _ => rfl, fun _ => rfl⟩
    | some r =>
      constructor
      · intro hne
        cases hne
      · intro hno
        cases hno
  refine ⟨hiff, ?_, ?_, ?_⟩
  · intro hother
    rw [hiff]
    rintro ⟨r, hr, h1, h2, _⟩
    exact hother r hr h1 h2
  · intro hex
    cases hf : store.find? (fun r => r._id == oid && r.user_id == userId &&
        r.recommendation_type == utf16 "linkedin_analysis") with
    | none => exact absurd hex ((find_rec_eq_none_iff store oid userId).1 hf)
    | some r =>
      have hp := List.find?_some hf
      simp only [Bool.and_eq_true, beq_iff_eq] at hp
      refine ⟨r, List.mem_of_find?_eq_some hf, hp.1.1, hp.1.2, hp.2, ?_⟩
      unfold getAnalysisStatus
      simp only [hid, hf]
      rfl
  · intro id hnone
    unfold getAnalysisStatus
    simp only [hnone]

theorem poll_not_found_iff_witness :
    hexObjectId (utf16 "65F0A1B2C3D4E5F6A7B8C9E1") = some (utf16 "65f0a1b2c3d4e5f6a7b8c9e1") ∧
    (∃ r ∈ (analyzeLinkedin (analysisEnv (some sampleUser) (.ok sampleAnalysis)) []).2.1,
      r._id = utf16 "65f0a1b2c3d4e5f6a7b8c9e1" ∧ r.user_id = utf16 "65f0a1b2c3d4e5f6a7b8c9e0" ∧
        r.recommendation_type = utf16 "linkedin_analysis" ∧
        getAnalysisStatus hexObjectId (utf16 "65f0a1b2c3d4e5f6a7b8c9e0")
            (utf16 "65F0A1B2C3D4E5F6A7B8C9E1")
            (analyzeLinkedin (analysisEnv (some sampleUser) (.ok sampleAnalysis)) []).2.1
          = .ok none none r.createdAt r.updatedAt) ∧
    getAnalysisStatus hexObjectId (utf16 "65f0a1b2c3d4e5f6a7b8c9e9")
        (utf16 "65F0A1B2C3D4E5F6A7B8C9E1")
        (analyzeLinkedin (analysisEnv (some sampleUser) (.ok sampleAnalysis)) []).2.1
      = .notFound :=
  ⟨by decide,
   (poll_not_found_iff hexObjectId (utf16 "65f0a1b2c3d4e5f6a7b8c9e0")
      (utf16 "65F0A1B2C3D4E5F6A7B8C9E1") (utf16 "65f0a1b2c3d4e5f6a7b8c9e1")
      (analyzeLinkedin (analysisEnv (some sampleUser) (.ok sampleAnalysis)) []).2.1
      (by decide)).2.2.1
      ⟨((analyzeLinkedin (analysisEnv (some sampleUser) (.ok sampleAnalysis)) []).2.1).head
          (by decide), by decide, by decide, by decide, by decide⟩,
   (poll_not_found_iff hexObjectId (utf16 "65f0a1b2c3d4e5f6a7b8c9e9")
      (utf16 "65F0A1B2C3D4E5F6A7B8C9E1") (utf16 "65f0a1b2c3d4e5f6a7b8c9e1")
      (analyzeLinkedin (analysisEnv (some sampleUser) (.ok sampleAnalysis)) []).2.1
      (by decide)).2.1 (by decide)⟩

/-- C26, as stated, fails: for the path parameter `abc`, which does not cast to
an object id and is the id of no stored banner, the answer is 500, not 404. -/
theorem image_malformed_id_is_server_error :
    hexObjectId (utf16 "abc") = none ∧
    (∀ b ∈ [expiredBanner], b._id ≠ utf16 "abc") ∧
    getBannerImage hexObjectId (utf16 "abc") [expiredBanner] = .serverError ∧
    (getBannerImage hexObjectId (utf16 "abc") [expiredBanner]).status = 500 := by
  refine ⟨by decide, by decide, by rfl, by rfl⟩

/-- C26 (amended): for a path parameter that casts to the object id `oid`,
`GET /:id/image` answers 404 when no banner with the id `oid` is stored, and
when one is stored it answers 200 with exactly the stored bytes of a banner of
that id as body, their number as `Content-Length`, the stored image content
type as `Content-Type` and the cache directive `public, max-age=86400`; a path
parameter that does not cast is answered 500. -/
theorem getBannerImage_spec (castObjectId : JsString → Option JsString) (id oid : JsString)
    (store : BannerStore) (hid : castObjectId id = some oid) :
    ((∀ b ∈ store, b._id ≠ oid) →
      getBannerImage castObjectId id store = .notFound ∧
      (getBannerImage castObjectId id store).status = 404) ∧
    ((∃ b ∈ store, b._id = oid) →
      ∃ b ∈ store, b._id = oid ∧
        getBannerImage castObjectId id store
          = .ok b.image_content_type b.image_binary.length (utf16 "public, max-age=86400")
              b.image_binary ∧
        (getBannerImage castObjectId id store).status = 200) ∧
    (∀ other, castObjectId other = none →
      getBannerImage castObjectId other store = .serverError ∧
      (getBannerImage castObjectId other store).status = 500) := by
  refine ⟨?_, ?_, ?_⟩
  · intro hno
    have hf : store.find? (fun b => b._id == oid) = none := by
      rw [List.find?_eq_none]
      intro b hb
      simpa using hno b hb
    have h : getBannerImage castObjectId id store = .notFound := by
      unfold getBannerImage
      simp only [hid, hf]
    rw [h]
    exact ⟨rfl, rfl⟩
  · rintro ⟨b0, hb0, hb0id⟩
    cases hf : store.find? (fun b => b._id == oid) with
    | none =>
      have := List.find?_eq_none.1 hf b0 hb0
      simp [hb0id] at this
    | some b =>
      have hp := List.find?_some hf
      have h : getBannerImage castObjectId id store
          = .ok b.image_content_type b.image_binary.length (utf16 "public, max-age=86400")
              b.image_binary := by
        unfold getBannerImage
        simp only [hid, hf]
      refine ⟨b, List.mem_of_find?_eq_some hf, by simpa using hp, h, ?_⟩
      rw [h]
      rfl
  · intro other hnone
    have h : getBannerImage castObjectId other store = .serverError := by
      unfold getBannerImage
      simp only [hnone]
    rw [h]
    exact ⟨rfl, rfl⟩

theorem getBannerImage_spec_witness :
    hexObjectId (utf16 "65F0A1B2C3D4E5F6A7B8C9D0") = some (utf16 "65f0a1b2c3d4e5f6a7b8c9d0") ∧
    (∃ b ∈ [expiredBanner], b._id = utf16 "65f0a1b2c3d4e5f6a7b8c9d0" ∧
      getBannerImage hexObjectId (utf16 "65F0A1B2C3D4E5F6A7B8C9D0") [expiredBanner]
        = .ok b.image_content_type b.image_binary.length (utf16 "public, max-age=86400")
            b.image_binary ∧
      (getBannerImage hexObjectId (utf16 "65F0A1B2C3D4E5F6A7B8C9D0") [expiredBanner]).status
        = 200) ∧
    (getBannerImage hexObjectId (utf16 "65f0a1b2c3d4e5f6a7b8c9d7") [expiredBanner] = .notFound ∧
      (getBannerImage hexObjectId (utf16 "65f0a1b2c3d4e5f6a7b8c9d7") [expiredBanner]).status
        = 404) :=
  ⟨by decide,
   (getBannerImage_spec hexObjectId (utf16 "65F0A1B2C3D4E5F6A7B8C9D0")
      (utf16 "65f0a1b2c3d4e5f6a7b8c9d0") [expiredBanner] (by decide)).2.1
      ⟨expiredBanner, by simp, by decide⟩,
   (getBannerImage_spec hexObjectId (utf16 "65f0a1b2c3d4e5f6a7b8c9d7")
      (utf16 "65f0a1b2c3d4e5f6a7b8c9d7") [expiredBanner] (by decide)).1 (by decide)⟩

/-- C24, as stated, fails: two stored banners that differ in date, image
content type, lifecycle status and expiry get the same `GET /today` response
object, whose `metadata` is absent; the response carries none of these. -/
theorem today_response_omits_fields :
    bannerResponse expiredBanner
      = bannerResponse { expiredBanner with
          date := 86400000, image_content_type := utf16 "image/png", status := utf16 "active",
          expires_at := 172800000 } ∧
    (bannerResponse expiredBanner).metadata = none := by
  refine ⟨by rfl, by rfl⟩

/-- C24 (amended): for a stored active banner of today's date, the `GET /today`
response carries its identifier, title, description, image locator, body
(content), topic summary, the image-serving path built from the identifier and
the creation timestamp; it is the same for any banner that agrees on these and
on the origin, so date, image content type, lifecycle status, expiry and the
binary payload are not carried. -/
theorem today_response_fields (env : BannerEnv) (store : BannerStore) (b : Banner)
    (h : findActiveBanner store env.today = some b) :
    ∃ r, getToday env store = (.ok r, store) ∧
      r.id = b._id ∧ r.title = b.title ∧ r.description = b.description ∧
      r.image_url = b.image_url ∧ r.content = b.content ∧ r.hot_topic = b.hot_topic ∧
      r.image_serve_url = utf16 "/api/banners/" ++ b._id ++ utf16 "/image" ∧
      r.created_at = b.createdAt ∧
      ∀ c : Banner, c._id = b._id → c.title = b.title → c.description = b.description →
        c.image_url = b.image_url → c.content = b.content → c.hot_topic = b.hot_topic →
        c.createdAt = b.createdAt → c.meta = b.meta → bannerResponse c = r := by
  refine ⟨bannerResponse b, ?_, rfl, rfl, rfl, rfl, rfl, rfl, rfl, rfl, ?_⟩
  · unfold getToday getTodayBody
    rw [h]
  · intro c h1 h2 h3 h4 h5 h6 h7 _
    unfold bannerResponse
    rw [h1, h2, h3, h4, h5, h6, h7]

theorem today_response_fields_witness :
    ∃ r, getToday (offlineEnv 0 []) [{ expiredBanner with status := utf16 "active" }]
        = (.ok r, [{ expiredBanner with status := utf16 "active" }]) ∧
      r.id = expiredBanner._id ∧ r.title = expiredBanner.title ∧
      r.description = expiredBanner.description ∧
      r.image_url = expiredBanner.image_url ∧ r.content = expiredBanner.content ∧
      r.hot_topic = expiredBanner.hot_topic ∧
      r.image_serve_url = utf16 "/api/banners/" ++ expiredBanner._id ++ utf16 "/image" ∧
      r.created_at = expiredBanner.createdAt ∧
      ∀ c : Banner, c._id = expiredBanner._id → c.title = expiredBanner.title →
        c.description = expiredBanner.description → c.image_url = expiredBanner.image_url →
        c.content = expiredBanner.content → c.hot_topic = expiredBanner.hot_topic →
        c.createdAt = expiredBanner.createdAt → c.meta = expiredBanner.meta →
        bannerResponse c = r :=
  today_response_fields (offlineEnv 0 []) [{ expiredBanner with status := utf16 "active" }]
    { expiredBanner with status := utf16 "active" } (by decide)

theorem findActiveBanner_withBinary (bytes : Banner → List Nat) (store : BannerStore) (d : Nat) :
    findActiveBanner (store.map (withBinary bytes)) d
      = (findActiveBanner store d).map (withBinary bytes) := by
  unfold findActiveBanner
  rw [List.find?_map]
  rfl

theorem insertBanner_withBinary (bytes : Banner → List Nat) (store : BannerStore)
    (doc : Banner) :
    insertBanner (store.map (withBinary bytes)) doc
      = (match insertBanner store doc with
          | .error e => .error e
          | .ok _ => .ok (store.map (withBinary bytes) ++ [doc])) := by
  unfold insertBanner
  rw [List.any_map]
  have hc : ((fun b : Banner => b.date == doc.date || b._id == doc._id) ∘ withBinary bytes)
      = fun b : Banner => b.date == doc.date || b._id == doc._id := rfl
  rw [hc]
  split <;> rfl

theorem deleteBannerByDate_withBinary (bytes : Banner → List Nat) (store : BannerStore)
    (d : Nat) :
    deleteBannerByDate (store.map (withBinary bytes)) d
      = (deleteBannerByDate store d).map (withBinary bytes) := by
  unfold deleteBannerByDate
  rw [List.eraseP_map]
  rfl

theorem saveBanner_withBinary_response (bytes : Banner → List Nat) (store : BannerStore)
    (id : JsString) (e s : Nat) (i : BannerInput) :
    (match saveBanner (store.map (withBinary bytes)) id e s i with
      | .ok (doc, _) => some doc
      | .error _ => none)
    = (match saveBanner store id e s i with
      | .ok (doc, _) => some doc
      | .error _ => none) := by
  unfold saveBanner
  cases validateBanner id e s i with
  | none => rfl
  | some doc =>
    dsimp only
    rw [insertBanner_withBinary]
    cases insertBanner store doc with
    | error err => rfl
    | ok st => rfl

theorem getToday_withBinary (env : BannerEnv) (store : BannerStore)
    (bytes : Banner → List Nat) :
    (getToday env (store.map (withBinary bytes))).1 = (getToday env store).1 := by
  unfold getToday getTodayBody
  rw [findActiveBanner_withBinary]
  cases findActiveBanner store env.today with
  | some b => rfl
  | none =>
    dsimp only [Option.map]
    cases buildBanner env with
    | error err => rfl
    | ok input =>
      dsimp only
      have h := saveBanner_withBinary_response bytes store env.newId env.tomorrow env.savedAt
        input
      cases h1 : saveBanner (store.map (withBinary bytes)) env.newId env.tomorrow env.savedAt
          input with
      | error e1 =>
        cases h2 : saveBanner store env.newId env.tomorrow env.savedAt input with
        | error e2 => rfl
        | ok r2 =>
          rw [h1, h2] at h
          cases h
      | ok r1 =>
        cases h2 : saveBanner store env.newId env.tomorrow env.savedAt input with
        | error e2 =>
          rw [h1, h2] at h
          cases h
        | ok r2 =>
          rw [h1, h2] at h
          obtain ⟨d1, s1⟩ := r1
          obtain ⟨d2, s2⟩ := r2
          have hd : d1 = d2 := Option.some.inj h
          rw [hd]

theorem postGenerate_withBinary (env : BannerEnv) (store : BannerStore)
    (bytes : Banner → List Nat) :
    (postGenerate env (store.map (withBinary bytes))).1 = (postGenerate env store).1 := by
  unfold postGenerate
  rw [deleteBannerByDate_withBinary]
  cases buildBanner env with
  | error err => rfl
  | ok input =>
    dsimp only
    have h := saveBanner_withBinary_response bytes (deleteBannerByDate store env.today)
      env.newId env.tomorrow env.savedAt input
    cases h1 : saveBanner ((deleteBannerByDate store env.today).map (withBinary bytes))
        env.newId env.tomorrow env.savedAt input with
    | error e1 =>
      cases h2 : saveBanner (deleteBannerByDate store env.today) env.newId env.tomorrow
          env.savedAt input with
      | error e2 => rfl
      | ok r2 =>
        rw [h1, h2] at h
        cases h
    | ok r1 =>
      cases h2 : saveBanner (deleteBannerByDate store env.today) env.newId env.tomorrow
          env.savedAt input with
      | error e2 =>
        rw [h1, h2] at h
        cases h
      | ok r2 =>
        rw [h1, h2] at h
        obtain ⟨d1, s1⟩ := r1
        obtain ⟨d2, s2⟩ := r2
        have hd : d1 = d2 := Option.some.inj h
        rw [hd]

theorem getHistory_withBinary (sevenDaysAgo : Nat) (store : BannerStore)
    (bytes : Banner → List Nat) :
    getHistory sevenDaysAgo (store.map (withBinary bytes)) = getHistory sevenDaysAgo store := by
  unfold getHistory
  rw [List.filter_map]
  have hp : ((fun b : Banner => decide (sevenDaysAgo ≤ b.date)) ∘ withBinary bytes)
      = fun b : Banner => decide (sevenDaysAgo ≤ b.date) := rfl
  rw [hp, ← List.map_mergeSort (r := fun a b : Banner => decide (b.date ≤ a.date))
    (fun a _ b _ => rfl), ← List.map_take, List.map_map]
  rfl

theorem postGenerate_ok_doc {env : BannerEnv} {store : BannerStore} {message : JsString}
    {g : GeneratedBanner} (h : (postGenerate env store).1 = .ok message g) :
    ∃ doc ∈ (postGenerate env store).2,
      g = { id := doc._id, title := doc.title, description := doc.description,
            image_serve_url := imageServeUrl doc._id } := by
  unfold postGenerate at h ⊢
  cases hb : buildBanner env with
  | error e =>
    rw [hb] at h
    cases h
  | ok input =>
    rw [hb] at h
    dsimp only at h ⊢
    cases hs : saveBanner (deleteBannerByDate store env.today) env.newId env.tomorrow
        env.savedAt input with
    | error e =>
      rw [hs] at h
      cases h
    | ok r =>
      obtain ⟨doc, store2⟩ := r
      rw [hs] at h
      dsimp only at h ⊢
      injection h with _ hg
      obtain ⟨_, hi⟩ := saveBanner_ok hs
      obtain ⟨hst, _, _⟩ := insertBanner_ok hi
      exact ⟨doc, by rw [hst]; simp, hg.symm⟩

/-- C25: the responses of `GET /today`, `POST /generate` and `GET /history`
have no member for the binary payload and do not depend on it: they are the
same on two stores whose banners differ only in their binary payloads, and the
`POST /generate` response of the banner it stores is the same for any banner
that differs from it only in the binary payload. -/
theorem responses_ignore_binary (env : BannerEnv) (sevenDaysAgo : Nat) (store : BannerStore)
    (bytes : Banner → List Nat) :
    (getToday env (store.map (withBinary bytes))).1 = (getToday env store).1 ∧
    (postGenerate env (store.map (withBinary bytes))).1 = (postGenerate env store).1 ∧
    getHistory sevenDaysAgo (store.map (withBinary bytes)) = getHistory sevenDaysAgo store ∧
    (∀ b, bannerResponse (withBinary bytes b) = bannerResponse b ∧
      historyItem (withBinary bytes b) = historyItem b) ∧
    (∀ message g, (postGenerate env store).1 = .ok message g →
      ∃ doc ∈ (postGenerate env store).2,
        g = { id := (withBinary bytes doc)._id, title := (withBinary bytes doc).title,
              description := (withBinary bytes doc).description,
              image_serve_url := imageServeUrl (withBinary bytes doc)._id }) := by
  refine ⟨getToday_withBinary env store bytes, postGenerate_withBinary env store bytes,
    getHistory_withBinary sevenDaysAgo store bytes, fun b => ⟨rfl, rfl⟩, ?_⟩
  intro message g h
  obtain ⟨doc, hdoc, hg⟩ := postGenerate_ok_doc h
  exact ⟨doc, hdoc, hg⟩

/-! ## Profile update -/

theorem lookup_filter_ne (doc : JsDoc) (k key : JsString) (h : key ≠ k) :
    (doc.filter fun p => p.1 != k).lookup key = doc.lookup key := by
  induction doc with
  | nil => rfl
  | cons p t ih =>
    obtain ⟨a, v⟩ := p
    by_cases hak : a = k
    · have hka : (key == a) = false := by
        rw [hak]
        simpa using h
      rw [List.filter_cons_of_neg (by simp [hak]), List.lookup_cons, hka]
      exact ih
    · rw [List.filter_cons_of_pos (by simpa using hak), List.lookup_cons, List.lookup_cons, ih]

theorem lookup_setPath_ne (doc : JsDoc) (k key : JsString) (v : JsVal) (h : key ≠ k) :
    (setPath doc k v).lookup key = doc.lookup key := by
  unfold setPath
  have hk : (key == k) = false := by simpa using h
  rw [List.lookup_cons, hk]
  exact lookup_filter_ne doc k key h

theorem lookup_applySet_of_not_mem (cast : JsString → JsVal → JsVal)
    (updates : List (JsString × JsVal)) (doc : JsDoc) (key : JsString)
    (h : key ∉ updates.map (·.1)) : (applySet cast doc updates).lookup key = doc.lookup key := by
  unfold applySet
  induction updates generalizing doc with
  | nil => rfl
  | cons p t ih =>
    simp only [List.map_cons, List.mem_cons, not_or] at h
    rw [List.foldl_cons, ih _ h.2]
    exact lookup_setPath_ne doc p.1 key _ h.1

theorem mem_buildUpdates {body : JsVal} {updates : List (JsString × JsVal)}
    (hu : buildUpdates body = some updates) (key : JsString) (v : JsVal) :
    (key, v) ∈ updates ↔
      key ∈ allowedUpdates ∧ v = body.field key ∧ (body.field key).isUndefined = false := by
  unfold buildUpdates at hu
  split at hu
  · cases hu
  · injection hu with hu
    rw [← hu, List.mem_filterMap]
    constructor
    · rintro ⟨a, ha, hf⟩
      by_cases hund : (body.field a).isUndefined
      · simp only [hund, if_true] at hf
        cases hf
      · simp only [hund] at hf
        injection hf with hf
        injection hf with h1 h2
        subst h1
        exact ⟨ha, h2.symm, by simpa using hund⟩
    · rintro ⟨hk, hv, hund⟩
      refine ⟨key, hk, ?_⟩
      simp only [hund, Bool.false_eq_true, if_false, hv]

theorem keys_buildUpdates {body : JsVal} {updates : List (JsString × JsVal)}
    (hu : buildUpdates body = some updates) :
    updates.map (·.1) = allowedUpdates.filter fun a => !(body.field a).isUndefined := by
  unfold buildUpdates at hu
  split at hu
  · cases hu
  · injection hu with hu
    rw [← hu]
    generalize allowedUpdates = l
    induction l with
    | nil => rfl
    | cons a t ih =>
      by_cases hund : (body.field a).isUndefined
      · rw [List.filterMap_cons, List.filter_cons_of_neg (by simp [hund])]
        simp only [hund, if_true]
        exact ih
      · rw [List.filterMap_cons, List.filter_cons_of_pos (by simpa using hund)]
        simp only [hund, Bool.false_eq_true, if_false, List.map_cons]
        rw [ih]

theorem lookup_setPath_self (doc : JsDoc) (k : JsString) (v : JsVal) :
    (setPath doc k v).lookup k = some v := by
  unfold setPath
  rw [List.lookup_cons]
  simp

theorem lookup_applySet_of_mem (cast : JsString → JsVal → JsVal)
    (updates : List (JsString × JsVal)) (doc : JsDoc) (key : JsString) (v : JsVal)
    (hnd : (updates.map (·.1)).Nodup) (h : (key, v) ∈ updates) :
    (applySet cast doc updates).lookup key = some (cast key v) := by
  induction updates generalizing doc with
  | nil => cases h
  | cons p t ih =>
    rw [List.map_cons, List.nodup_cons] at hnd
    have happ : applySet cast doc (p :: t) = applySet cast (setPath doc p.1 (cast p.1 p.2)) t := by
      unfold applySet
      rw [List.foldl_cons]
    rw [happ]
    rcases List.mem_cons.1 h with hp | ht
    · rw [← hp] at hnd
      rw [lookup_applySet_of_not_mem cast t _ key hnd.1, ← hp]
      exact lookup_setPath_self doc key (cast key v)
    · exact ih _ hnd.2 ht

theorem isUndefined_eq_false_iff (v : JsVal) : v.isUndefined = false ↔ v ≠ JsVal.undefined := by
  cases v <;> simp [JsVal.isUndefined]

/-- C27: for every request body, the update set built by `PUT /me` holds
exactly those of the six fields `bio`, `avatar`, `interests`, `availability`,
`linkedinProfile`, `twitterProfile` whose value in the body is not `undefined`,
each once and with the body's value; no other key of the body, such as
`password`, `email`, `role` or `isActive`, is in it.  When the update is
accepted every field of the update set is written with the value the schema
casts it to, and whatever the handler answers, every path of the user document
outside the six fields and the `updatedAt` timestamp keeps its value. -/
theorem putMe_updates_allowed_only (env : PutMeEnv) (doc : JsDoc)
    (h : env.body.isNullish = false) :
    ∃ updates, buildUpdates env.body = some updates ∧
      (∀ key v, (key, v) ∈ updates ↔
        key ∈ [utf16 "bio", utf16 "avatar", utf16 "interests", utf16 "availability",
               utf16 "linkedinProfile", utf16 "twitterProfile"] ∧
          v = env.body.field key ∧ v ≠ JsVal.undefined) ∧
      (updates.map (·.1)).Nodup ∧
      (∀ key ∈ [utf16 "password", utf16 "email", utf16 "role", utf16 "isActive"],
        key ∉ updates.map (·.1)) ∧
      ∃ after, (putMe env (some doc)).2 = some after ∧
        (∀ key,
          key ∉ [utf16 "bio", utf16 "avatar", utf16 "interests", utf16 "availability",
                 utf16 "linkedinProfile", utf16 "twitterProfile"] →
          key ≠ utf16 "updatedAt" → after.lookup key = doc.lookup key) ∧
        (env.check updates = .accepted →
          (putMe env (some doc)).1 = .ok after ∧
          ∀ key v, (key, v) ∈ updates → after.lookup key = some (env.cast key v)) := by
  obtain ⟨updates, hu⟩ : ∃ updates, buildUpdates env.body = some updates := by
    unfold buildUpdates
    rw [h]
    exact ⟨_, rfl⟩
  have hkeys := keys_buildUpdates hu
  have hsub : ∀ key, key ∈ updates.map (·.1) → key ∈ allowedUpdates := by
    intro key hk
    rw [hkeys] at hk
    exact (List.mem_filter.1 hk).1
  have hnd : (updates.map (·.1)).Nodup := by
    rw [hkeys]
    exact List.Nodup.filter _ (by decide)
  have hmem : ∀ key v, (key, v) ∈ updates ↔
      key ∈ allowedUpdates ∧ v = env.body.field key ∧ v ≠ JsVal.undefined := by
    intro key v
    rw [mem_buildUpdates hu key v]
    constructor
    · rintro ⟨h1, h2, h3⟩
      refine ⟨h1, h2, ?_⟩
      rw [h2]
      exact (isUndefined_eq_false_iff _).1 h3
    · rintro ⟨h1, h2, h3⟩
      refine ⟨h1, h2, ?_⟩
      rw [h2] at h3
      exact (isUndefined_eq_false_iff _).2 h3
  refine ⟨updates, hu, hmem, hnd, ?_, ?_⟩
  · intro key hk hin
    have hallowed := hsub key hin
    simp only [List.mem_cons, List.mem_singleton, List.not_mem_nil, or_false] at hk
    rcases hk with hk | hk | hk | hk <;> (rw [hk] at hallowed; revert hallowed; decide)
  · unfold putMe
    rw [hu]
    dsimp only
    cases hc : env.check updates with
    | validationError details =>
      exact ⟨doc, rfl, fun _ _ _ => rfl, fun hacc => by cases hacc⟩
    | otherError message =>
      exact ⟨doc, rfl, fun _ _ _ => rfl, fun hacc => by cases hacc⟩
    | accepted =>
      refine ⟨_, rfl, ?_, fun _ => ⟨rfl, ?_⟩⟩
      · intro key hna hne
        rw [lookup_setPath_ne _ _ _ _ hne]
        exact lookup_applySet_of_not_mem env.cast updates doc key fun hin => hna (hsub key hin)
      · intro key v hkv
        have hkey : key ∈ allowedUpdates := hsub key (List.mem_map.2 ⟨(key, v), hkv, rfl⟩)
        have hne : key ≠ utf16 "updatedAt" := by
          intro heq
          rw [heq] at hkey
          revert hkey
          decide
        rw [lookup_setPath_ne _ _ _ _ hne]
        exact lookup_applySet_of_mem env.cast updates doc key v hnd hkv

theorem putMe_updates_allowed_only_witness :
    sampleBody.isNullish = false ∧
    buildUpdates sampleBody
      = some [(utf16 "bio", .str (utf16 "Hello")), (utf16 "avatar", .null)] ∧
    (putMe { body := sampleBody, check := fun _ => .accepted, cast := fun _ v => v,
             updatedAt := .num 5, nullReadText := [] }
        (some [(utf16 "role", .str (utf16 "Engineer")), (utf16 "bio", .null)])).2
      = some [(utf16 "updatedAt", .num 5), (utf16 "avatar", .null),
              (utf16 "bio", .str (utf16 "Hello")), (utf16 "role", .str (utf16 "Engineer"))] ∧
    ∃ updates, buildUpdates sampleBody = some updates ∧
      (∀ key v, (key, v) ∈ updates ↔
        key ∈ [utf16 "bio", utf16 "avatar", utf16 "interests", utf16 "availability",
               utf16 "linkedinProfile", utf16 "twitterProfile"] ∧
          v = sampleBody.field key ∧ v ≠ JsVal.undefined) ∧
      (updates.map (·.1)).Nodup ∧
      (∀ key ∈ [utf16 "password", utf16 "email", utf16 "role", utf16 "isActive"],
        key ∉ updates.map (·.1)) ∧
      ∃ after, (putMe { body := sampleBody, check := fun _ => .accepted, cast := fun _ v => v,
                        updatedAt := .num 5, nullReadText := [] }
          (some [(utf16 "role", .str (utf16 "Engineer")), (utf16 "bio", .null)])).2
          = some after ∧
        (∀ key,
          key ∉ [utf16 "bio", utf16 "avatar", utf16 "interests", utf16 "availability",
                 utf16 "linkedinProfile", utf16 "twitterProfile"] →
          key ≠ utf16 "updatedAt" →
          after.lookup key
            = [(utf16 "role", JsVal.str (utf16 "Engineer")), (utf16 "bio", JsVal.null)].lookup
                key) ∧
        (UpdateCheck.accepted = UpdateCheck.accepted →
          (putMe { body := sampleBody, check := fun _ => .accepted, cast := fun _ v => v,
                   updatedAt := .num 5, nullReadText := [] }
              (some [(utf16 "role", .str (utf16 "Engineer")), (utf16 "bio", .null)])).1
            = .ok after ∧
          ∀ key v, (key, v) ∈ updates → after.lookup key = some v) :=
  ⟨rfl, rfl, rfl,
   putMe_updates_allowed_only
    { body := sampleBody, check := fun _ => .accepted, cast := fun _ v => v,
      updatedAt := .num 5, nullReadText := [] }
    [(utf16 "role", .str (utf16 "Engineer")), (utf16 "bio", .null)] rfl⟩

/-! ## Career inspiration, extraction, idempotence -/

/-- C23, as stated, fails: the gateway call of a peerInspiration submission
times out; the handler answers 500 and the collection is as before, empty: no
record was created on submission and none is in a failed state. -/
theorem inspiration_failure_leaves_no_record :
    (getInspiration (inspirationEnv (.error timeoutError)) []).1.status = 500 ∧
    (getInspiration (inspirationEnv (.error timeoutError)) []).2.1 = [] ∧
    (getInspiration (inspirationEnv (.error timeoutError)) []).2.2.length = 1 := by
  refine ⟨by rfl, by rfl, by rfl⟩

theorem storeInspiration_store {env : InspirationEnv} {target : User} {store store1 : RecStore}
    {data : JsVal} {r : Recommendation}
    (h : storeInspiration env target store data = some (r, store1)) :
    store1 = store ++ [r] ∧ r._id = env.newId ∧
      r.recommendation_type = utf16 "career_inspiration" ∧
      r.source_user_id = some target._id := by
  unfold storeInspiration at h
  split at h
  · cases h
  · dsimp only at h
    split at h
    · cases h
    · split at h
      · cases h
      · rename_i r0 hv
        split at h
        · cases h
        · injection h with h
          injection h with h1 h2
          obtain ⟨hid, _, htype, _⟩ := validateRec_some hv
          rw [← h1, ← h2]
          exact ⟨rfl, hid, htype, rfl⟩

theorem getInspiration_cases (env : InspirationEnv) (store : RecStore) :
    ((getInspiration env store).1.status ≠ 200 ∧ (getInspiration env store).2.1 = store) ∨
    ∃ target data r store1, storeInspiration env target store data = some (r, store1) ∧
      (getInspiration env store).1.status = 200 ∧ (getInspiration env store).2.1 = store1 := by
  by_cases hv : env.validTargetId = true
  · cases ht : env.targetUser with
    | none =>
      left
      simp only [getInspiration, hv, ht, Bool.not_true, Bool.false_eq_true, if_false]
      refine ⟨?_, ?_⟩ <;> trivial
    | some target =>
      cases hc : env.currentUser with
      | none =>
        left
        simp only [getInspiration, hv, ht, hc, Bool.not_true, Bool.false_eq_true, if_false]
        refine ⟨?_, ?_⟩ <;> trivial
      | some current =>
        cases he : env.crewAI { current_user := current, inspiration_user := target } with
        | error e =>
          left
          simp only [getInspiration, hv, ht, hc, he, Bool.not_true, Bool.false_eq_true,
            if_false]
          refine ⟨?_, ?_⟩ <;> trivial
        | ok data =>
          cases hs : storeInspiration env target store data with
          | none =>
            left
            simp only [getInspiration, hv, ht, hc, he, hs, Bool.not_true, Bool.false_eq_true,
              if_false]
            refine ⟨?_, ?_⟩ <;> trivial
          | some p =>
            obtain ⟨r, store1⟩ := p
            right
            refine ⟨target, data, r, store1, hs, ?_⟩
            simp only [getInspiration, hv, ht, hc, he, hs, Bool.not_true, Bool.false_eq_true,
              if_false]
            refine ⟨?_, ?_⟩ <;> trivial
  · left
    have hv1 : env.validTargetId = false := by simpa using hv
    simp only [getInspiration, hv1, Bool.not_false, if_true]
    refine ⟨?_, ?_⟩ <;> trivial

/-- C23 (amended): for every peerInspiration submission whose gateway call
fails, the handler answers 500 and the collection is unchanged: no job record
is created on submission and none is written on the error.  A record, of kind
`career_inspiration`, is added only when the handler answers 200, after a
successful gateway call. -/
theorem inspiration_record_only_on_success (env : InspirationEnv) (store : RecStore) :
    (∀ target current e, env.validTargetId = true → env.targetUser = some target →
      env.currentUser = some current →
      env.crewAI { current_user := current, inspiration_user := target } = .error e →
      getInspiration env store
        = (.unavailable, store, [{ current_user := current, inspiration_user := target }])) ∧
    ((getInspiration env store).1.status ≠ 200 → (getInspiration env store).2.1 = store) ∧
    ((getInspiration env store).1.status = 200 →
      ∃ r, (getInspiration env store).2.1 = store ++ [r] ∧ r._id = env.newId ∧
        r.recommendation_type = utf16 "career_inspiration") := by
  refine ⟨?_, ?_, ?_⟩
  · intro target current e hv ht hc he
    unfold getInspiration
    simp only [hv, Bool.not_true, Bool.false_eq_true, if_false, ht, hc, he]
  · intro hne
    rcases getInspiration_cases env store with ⟨_, h⟩ | ⟨_, _, _, _, _, h200, _⟩
    · exact h
    · exact absurd h200 hne
  · intro h200
    rcases getInspiration_cases env store with ⟨hne, _⟩ | ⟨target, data, r, store1, hs, _, hst⟩
    · exact absurd h200 hne
    · obtain ⟨h1, h2, h3, _⟩ := storeInspiration_store hs
      exact ⟨r, hst.trans h1, h2, h3⟩

theorem exists_first_open (b : JsString) (a : JsString) :
    ∃ pre post, a ++ 123 :: b = pre ++ 123 :: post ∧ (∀ c ∈ pre, c ≠ 123) ∧
      ∀ c ∈ b, c ∈ post := by
  induction a with
  | nil => exact ⟨[], b, rfl, by simp, fun _ h => h⟩
  | cons x t ih =>
    by_cases hx : x = 123
    · refine ⟨[], t ++ 123 :: b, by simp [hx], by simp, ?_⟩
      intro c hc
      simp [hc]
    · obtain ⟨pre, post, h1, h2, h3⟩ := ih
      refine ⟨x :: pre, post, by simp [h1], ?_, h3⟩
      intro c hc
      rcases List.mem_cons.1 hc with hc | hc
      · rw [hc]
        exact hx
      · exact h2 c hc

theorem exists_last_close (post : JsString) (h : 125 ∈ post) :
    ∃ mid suf, post = mid ++ 125 :: suf ∧ ∀ c ∈ suf, c ≠ 125 := by
  induction post with
  | nil => cases h
  | cons x t ih =>
    by_cases ht : 125 ∈ t
    · obtain ⟨mid, suf, h1, h2⟩ := ih ht
      exact ⟨x :: mid, suf, by simp [h1], h2⟩
    · have hx : x = 125 := by
        rcases List.mem_cons.1 h with h | h
        · exact h.symm
        · exact absurd h ht
      refine ⟨[], t, by simp [hx], ?_⟩
      intro c hc h125
      exact ht (h125 ▸ hc)

theorem jsonMatch_no_pair_of_none (text : JsString) (h : jsonMatch text = none) :
    ∀ a b, text = a ++ 123 :: b → 125 ∉ b := by
  intro a b hab hb
  obtain ⟨pre, post, h1, hpre, hpost⟩ := exists_first_open b a
  obtain ⟨mid, suf, h2, hsuf⟩ := exists_last_close post (hpost 125 hb)
  have hm := jsonMatch_span pre mid suf hpre hsuf
  rw [← h2, ← h1, ← hab, h] at hm
  cases hm


theorem compareSkillsSpan_text (text : JsString) (h : text ≠ []) :
    compareSkillsSpan (.str text) = some ((jsonMatch text).getD text) := by
  cases text with
  | nil => exact absurd rfl h
  | cons x t => rfl

/-- C28: for every response text that holds an opening brace followed somewhere
later by a closing brace, the text splits at its first opening brace and its
last closing brace, and the span between them, both braces included, is what
`generateBannerContent` and the skill-comparison handler hand to the JSON
reader; for every text with no such pair there is no span, and
`generateBannerContent` returns the fallback content whatever the reader would
answer. -/
theorem parser_span_first_open_to_last_close (hotTopic text : JsString) :
    (∀ a b, text = a ++ 123 :: b → 125 ∈ b →
      ∃ pre mid suf, text = pre ++ 123 :: (mid ++ 125 :: suf) ∧
        (∀ c ∈ pre, c ≠ 123) ∧ (∀ c ∈ suf, c ≠ 125) ∧
        jsonMatch text = some (123 :: (mid ++ [125])) ∧
        compareSkillsSpan (.str text) = some (123 :: (mid ++ [125])) ∧
        ∀ jsonParse, generateBannerContent jsonParse hotTopic (some text)
          = (match jsonParse (123 :: (mid ++ [125])) with
              | some v => v
              | none => fallbackContent hotTopic)) ∧
    ((∀ a b, text = a ++ 123 :: b → 125 ∉ b) →
      jsonMatch text = none ∧
      ∀ jsonParse, generateBannerContent jsonParse hotTopic (some text)
        = fallbackContent hotTopic) := by
  constructor
  · intro a b hab hb
    obtain ⟨pre, post, h1, hpre, hpost⟩ := exists_first_open b a
    obtain ⟨mid, suf, h2, hsuf⟩ := exists_last_close post (hpost 125 hb)
    have htext : text = pre ++ 123 :: (mid ++ 125 :: suf) := by
      rw [hab, h1, h2]
    have hm : jsonMatch text = some (123 :: (mid ++ [125])) := by
      rw [htext]
      exact jsonMatch_span pre mid suf hpre hsuf
    have hne : text ≠ [] := by
      rw [hab]
      simp
    refine ⟨pre, mid, suf, htext, hpre, hsuf, hm, ?_, ?_⟩
    · rw [compareSkillsSpan_text text hne, hm]
      rfl
    · intro jsonParse
      simp only [generateBannerContent, hm]
  · intro h
    have hm := jsonMatch_none_of_no_pair text h
    refine ⟨hm, ?_⟩
    intro jsonParse
    simp only [generateBannerContent, hm]

theorem parser_span_first_open_to_last_close_witness :
    (∃ pre mid suf, trailingBraceText = pre ++ 123 :: (mid ++ 125 :: suf) ∧
        (∀ c ∈ pre, c ≠ 123) ∧ (∀ c ∈ suf, c ≠ 125) ∧
        jsonMatch trailingBraceText = some (123 :: (mid ++ [125])) ∧
        compareSkillsSpan (.str trailingBraceText) = some (123 :: (mid ++ [125])) ∧
        ∀ jsonParse, generateBannerContent jsonParse (utf16 "AI") (some trailingBraceText)
          = (match jsonParse (123 :: (mid ++ [125])) with
              | some v => v
              | none => fallbackContent (utf16 "AI"))) ∧
    (jsonMatch (utf16 "no braces") = none ∧
      ∀ jsonParse, generateBannerContent jsonParse (utf16 "AI") (some (utf16 "no braces"))
        = fallbackContent (utf16 "AI")) :=
  ⟨(parser_span_first_open_to_last_close (utf16 "AI") trailingBraceText).1 []
      (utf16 "\"title\": \"T\"\x7d and \x7bmore\x7d") (by decide) (by decide),
   (parser_span_first_open_to_last_close (utf16 "AI") (utf16 "no braces")).2
      (jsonMatch_no_pair_of_none (utf16 "no braces") (by decide))⟩

/-- C29: for every gateway result that is an object (neither `null` nor
`undefined`), the bucket normalisation of the profileAnalysis handler returns
its five buckets, and applying the normalisation to that output returns the
same five buckets. -/
theorem normalizeResult_idempotent (result : JsVal) (h : result.isNullish = false) :
    ∃ r, normalizeResult result = some r ∧ normalizeResult r.toJsVal = some r := by
  refine ⟨RawBuckets.mk (normalizeBucket (result.field (utf16 "profile_optimization")))
    (normalizeBucket (result.field (utf16 "networking")))
    (normalizeBucket (result.field (utf16 "content_strategy")))
    (normalizeBucket (result.field (utf16 "skill_development"))) [], ?_, ?_⟩
  · simp only [normalizeResult, h, Bool.false_eq_true, if_false]
  · rfl

theorem normalizeResult_idempotent_witness :
    sampleAnalysis.isNullish = false ∧
    ∃ r, normalizeResult sampleAnalysis = some r ∧ normalizeResult r.toJsVal = some r :=
  ⟨rfl, normalizeResult_idempotent sampleAnalysis rfl⟩

theorem truncateRecommendations_long (s t : JsString) (h : 2000 < s.length) :
    truncateRecommendations s t
      = (s.take 2000 ++ utf16 "... [truncated]",
         t ++ utf16 " (Note: Recommendations truncated due to length)") ∧
    (truncateRecommendations s t).1.length = 2015 := by
  have h1 : truncateRecommendations s t
      = (s.take 2000 ++ utf16 "... [truncated]",
         t ++ utf16 " (Note: Recommendations truncated due to length)") := by
    unfold truncateRecommendations
    rw [if_pos h]
  refine ⟨h1, ?_⟩
  rw [h1]
  have hl : (utf16 "... [truncated]").length = 15 := by decide
  simp only [List.length_append, List.length_take, hl]
  omega

/-- C30 (code at the failing input): the inspiration service answers 200 with
the recommendations text `Learn Go`, 8 characters, which the length check
leaves as it is; the handler answers 200 and stores one record of kind
`career_inspiration`, but the record holds none of the text: its five
recommendation arrays are empty.  A text of 2001 characters leaves the length
check with 2015 characters, more than the 2000 the check is for. -/
theorem inspiration_text_is_not_stored :
    (getInspiration (inspirationEnv (.ok learnGoAnswer)) []).1.status = 200 ∧
    truncateRecommendations (utf16 "Learn Go") (utf16 "Career inspiration from Omar")
      = (utf16 "Learn Go", utf16 "Career inspiration from Omar") ∧
    (getInspiration (inspirationEnv (.ok learnGoAnswer)) []).2.1.map
        (fun r => (r._id, r.recommendation_type, r.recommendations, r.analysis_text))
      = [(utf16 "65f0a1b2c3d4e5f6a7b8c9e6", utf16 "career_inspiration",
          { profile_optimization := [], networking := [], content_strategy := [],
            skill_development := [], career_roadmap := [] },
          some (utf16 "Career inspiration from Omar"))] ∧
    (truncateRecommendations (List.replicate 2001 97) []).1.length = 2015 := by
  refine ⟨by rfl, by rfl, by rfl, ?_⟩
  exact (truncateRecommendations_long (List.replicate 2001 97) []
    (by rw [List.length_replicate]; decide)).2

end SkillSync
